import Mathlib

/-!
# Guards of the `fat` extension module (`src/fat.c`)

A shallow embedding of the guard objects of `fat.c`, of their `check` and `init`
functions and of the module functions, followed by the properties proved about
them.

Conventions of the embedding.

* A pointer is a natural number (an address); a pointer that may be `NULL` is an
  `Option`, with `none` for `NULL`.
* A `str` object is identified by its text: this is what
  `PyUnicode_InternInPlace` makes of it, and what a dictionary lookup sees.
* Values stored in a dictionary are only ever compared by address, so a value is
  its address.
* The C `int` status of a function is an `Int`.  A call that would run into a
  failed `assert` or read through `NULL` has no result (`none`).
* Reference counts and allocation are not modelled: `PyMem_Malloc` and
  `PyTuple_New` succeed.
-/

namespace Fat

/-! ## Objects of the host interpreter -/

/-- Exception classes that the module raises or tests for. -/
inductive PyExc
  | KeyError
  | TypeError
  | ValueError
  | MemoryError
  | RuntimeError
  deriving DecidableEq, Repr

/-- Address of the static type object `PyUnicode_Type`. -/
def PyUnicode_Type : Nat := 1

/-- Address of the static type object `PyDict_Type`. -/
def PyDict_Type : Nat := 2

/-- Address of the static type object `PyType_Type`. -/
def PyType_Type : Nat := 3

/-- A `PyObject *` as the module looks at it. -/
inductive PyObject
  /-- a `str`, identified by its text -/
  | unicode (s : String)
  /-- a dictionary living at address `addr` -/
  | dict (addr : Nat)
  /-- a type object living at address `addr` -/
  | type (addr : Nat)
  /-- any other object: its address and the address of its type -/
  | object (addr : Nat) (ob_type : Nat)
  deriving DecidableEq, Repr

/-- The macro `PyUnicode_Check`. -/
def PyUnicode_Check : PyObject → Bool
  | .unicode _ => true
  | _ => false

/-- The macro `PyDict_Check`. -/
def PyDict_Check : PyObject → Bool
  | .dict _ => true
  | _ => false

/-- The macro `Py_TYPE`: the address of the exact type of an object. -/
def Py_TYPE : PyObject → Nat
  | .unicode _ => PyUnicode_Type
  | .dict _ => PyDict_Type
  | .type _ => PyType_Type
  | .object _ t => t

/-- Outcome of `PyObject_GetItem(dict, key)`: the address of the value found, or
the exception raised (`KeyError` when the key is absent). -/
inductive GetItem
  | value (v : Nat)
  | raised (e : PyExc)
  deriving DecidableEq, Repr

/-- What the module reads of a `PyDictObject`: its version tag and its lookup
function `PyObject_GetItem(dict, ·)`.  The 64-bit tag is only copied and compared
for equality, never computed with, so it is a natural number. -/
structure PyDictObject where
  ma_version_tag : Nat
  getitem : PyObject → GetItem

/-- The dictionaries of the interpreter, by address. -/
abbrev Heap := Nat → PyDictObject

/-! ## GuardDict -/

/-- The struct `GuardDictPair`: a watched key and the address of the value it had
when the guard was built (`none`, that is `NULL`, when the key was absent). -/
structure GuardDictPair where
  key : PyObject
  value : Option Nat
  deriving DecidableEq, Repr

/-- The struct `GuardDictObject`.  The array `pairs` and its length `npair` are
one list. -/
structure GuardDictObject where
  dict : Option Nat
  dict_version : Nat
  pairs : List GuardDictPair
  deriving DecidableEq, Repr

/-- The field `npair`. -/
def GuardDictObject.npair (guard : GuardDictObject) : Nat := guard.pairs.length

/-- The function `guard_dict_new`: the fields of a freshly allocated guard. -/
def guard_dict_new : GuardDictObject :=
  { dict := none, dict_version := 0, pairs := [] }

/-- The function `guard_dict_clear`. -/
def guard_dict_clear (guard : GuardDictObject) : GuardDictObject :=
  { guard with dict := none, pairs := [] }

/-- The function `check_dict_pair_guard`: `0` when the key is bound to the
snapshotted address (or is still absent), `2` when it is not, `-1` when the
lookup raised something else than `KeyError`. -/
def check_dict_pair_guard (dict : PyDictObject) (pair : GuardDictPair) : Int :=
  match dict.getitem pair.key with
  | .raised e =>
    if e ≠ PyExc.KeyError then -1
    else if (none : Option Nat) = pair.value then 0 else 2
  | .value v =>
    if some v = pair.value then 0 else 2

/-- The `for` loop of `guard_dict_check`: the first non-zero result of
`check_dict_pair_guard` over the pairs in stored order, `0` when there is none. -/
def guard_dict_check_pairs (dict : PyDictObject) : List GuardDictPair → Int
  | [] => 0
  | pair :: rest =>
    let res := check_dict_pair_guard dict pair
    if res ≠ 0 then res else guard_dict_check_pairs dict rest

/-- The function `guard_dict_check`: the status returned and the guard after the
call.  The arguments `stack`, `nargs` and `kwnames` are not read by the C
function and are left out. -/
def guard_dict_check (heap : Heap) (guard : GuardDictObject) :
    Option (Int × GuardDictObject) :=
  match guard.dict with
  | none => none
  | some p =>
    let dict := heap p
    let dict_version := dict.ma_version_tag
    if dict_version ≠ guard.dict_version then
      if guard.npair < 1 then none
      else
        let res := guard_dict_check_pairs dict guard.pairs
        if res ≠ 0 then some (res, guard)
        else some (0, { guard with dict_version := dict_version })
    else some (0, guard)

/-- The argument `keys` of `guard_dict_init_keys`: a tuple with its items, or an
object that is not a tuple. -/
inductive KeysArg
  | tuple (items : List PyObject)
  | nontuple (o : PyObject)
  deriving DecidableEq, Repr

/-- Status, guard and pending exception after an `init` function returns. -/
structure InitResult where
  ret : Int
  self : GuardDictObject
  exc : Option PyExc
  deriving DecidableEq, Repr

/-- The `for` loop of `guard_dict_init_keys` over the keys from `first_key` on:
the pairs filled in, or the exception that sent it to `error`. -/
def guard_dict_init_pairs (dict : PyDictObject) : List PyObject → Except PyExc (List GuardDictPair)
  | [] => .ok []
  | key :: rest =>
    if !PyUnicode_Check key then .error PyExc.TypeError
    else
      match dict.getitem key with
      | .raised e =>
        if e ≠ PyExc.KeyError then .error e
        else
          match guard_dict_init_pairs dict rest with
          | .error e' => .error e'
          | .ok pairs => .ok ({ key := key, value := none } :: pairs)
      | .value v =>
        match guard_dict_init_pairs dict rest with
        | .error e' => .error e'
        | .ok pairs => .ok ({ key := key, value := some v } :: pairs)

/-- The function `guard_dict_init_keys`.  The offset `first_key` is `0` or `1` at
every call site and is a natural number here. -/
def guard_dict_init_keys (heap : Heap) (self : GuardDictObject) (dict : Nat)
    (first_key : Nat) (keys : KeysArg) : InitResult :=
  match keys with
  | .nontuple _ => { ret := -1, self := self, exc := some PyExc.TypeError }
  | .tuple items =>
    let nkeys : Int := items.length
    if nkeys - (first_key : Int) ≤ 0 then
      { ret := -1, self := self, exc := some PyExc.TypeError }
    else
      match guard_dict_init_pairs (heap dict) (items.drop first_key) with
      | .error e => { ret := -1, self := self, exc := some e }
      | .ok pairs =>
        let cleared := guard_dict_clear self
        { ret := 0,
          self := { cleared with
            dict := some dict,
            dict_version := (heap dict).ma_version_tag,
            pairs := pairs },
          exc := none }

/-- The getter `guard_dict_get_keys`: the tuple of the watched keys. -/
def guard_dict_get_keys (self : GuardDictObject) : List PyObject :=
  self.pairs.map (fun pair => pair.key)

/-- The function `guard_dict_init` (`tp_init` of `GuardDict`): `args` is the tuple
of positional arguments, `kwargs` the keyword dictionary or `NULL`.  The
dictionary `args[0]` is handed over by its address. -/
def guard_dict_init (heap : Heap) (self : GuardDictObject) (args : List PyObject)
    (kwargs : Option PyObject) : InitResult :=
  if kwargs.isSome then { ret := -1, self := self, exc := some PyExc.TypeError }
  else
    match args with
    | [] => { ret := -1, self := self, exc := some PyExc.TypeError }
    | dict :: _ =>
      if !PyDict_Check dict then { ret := -1, self := self, exc := some PyExc.TypeError }
      else
        match dict with
        | .dict addr => guard_dict_init_keys heap self addr 1 (.tuple args)
        | _ => { ret := -1, self := self, exc := some PyExc.TypeError }

/-! ## GuardArgType -/

/-- The struct `GuardArgTypeObject`.  The array `arg_types` holds the addresses of
the allowed type objects; `nb_arg_type` is its length. -/
structure GuardArgTypeObject where
  arg_index : Int
  arg_types : List Nat
  deriving DecidableEq, Repr

/-- The field `nb_arg_type`. -/
def GuardArgTypeObject.nb_arg_type (guard : GuardArgTypeObject) : Nat :=
  guard.arg_types.length

/-- The read `stack[i]` of a C array holding the elements of `stack`: no result
when `i` is negative or past the end. -/
def stack_at (stack : List PyObject) (i : Int) : Option PyObject :=
  if i < 0 then none else stack[i.toNat]?

/-- The `for` loop of `guard_arg_type_check`: `res` starts at `1` and becomes `0`
at the first entry of `arg_types` that is the type `type`. -/
def guard_arg_type_check_types (type : Nat) : List Nat → Int
  | [] => 1
  | t :: rest => if t = type then 0 else guard_arg_type_check_types type rest

/-- The function `guard_arg_type_check`.  `kwnames` is `NULL` or the tuple of
keyword names.  The function does not write to the guard. -/
def guard_arg_type_check (guard : GuardArgTypeObject) (stack : List PyObject)
    (nargs : Int) (kwnames : Option (List PyObject)) : Option Int :=
  if kwnames.isSome ∧ (kwnames.getD []).length ≠ 0 then some 1
  else if guard.arg_index ≥ nargs then some 1
  else
    match stack_at stack guard.arg_index with
    | none => none
    | some arg => some (guard_arg_type_check_types (Py_TYPE arg) guard.arg_types)

/-- The macro `PyType_Check`. -/
def PyType_Check : PyObject → Bool
  | .type _ => true
  | _ => false

/-- The argument `arg_types` of `GuardArgType` as `PySequence_Fast` sees it: an
iterable with its items, or an object that cannot be iterated. -/
inductive SequenceArg
  | iterable (items : List PyObject)
  | noniterable (o : PyObject)
  deriving DecidableEq, Repr

/-- Status, guard and pending exception after `guard_arg_type_init` returns. -/
structure ArgTypeInitResult where
  ret : Int
  self : GuardArgTypeObject
  exc : Option PyExc
  deriving DecidableEq, Repr

/-- The function `guard_arg_type_new`: the fields of a freshly allocated guard. -/
def guard_arg_type_new : GuardArgTypeObject :=
  { arg_index := 0, arg_types := [] }

/-- The `for` loop of `guard_arg_type_init`: the addresses of the type objects
copied into `arg_types`, or `TypeError` at the first item that is not a type. -/
def guard_arg_type_init_types : List PyObject → Except PyExc (List Nat)
  | [] => .ok []
  | type :: rest =>
    if !PyType_Check type then .error PyExc.TypeError
    else
      match type with
      | .type addr =>
        match guard_arg_type_init_types rest with
        | .error e => .error e
        | .ok arg_types => .ok (addr :: arg_types)
      | _ => .error PyExc.TypeError

/-- The function `guard_arg_type_init`, from the point where
`PyArg_ParseTupleAndKeywords` has delivered the C `int` `arg_index` and the object
`arg_types`. -/
def guard_arg_type_init (self : GuardArgTypeObject) (arg_index : Int)
    (arg_types_obj : SequenceArg) : ArgTypeInitResult :=
  match arg_types_obj with
  | .noniterable _ => { ret := -1, self := self, exc := some PyExc.TypeError }
  | .iterable seq =>
    let n := seq.length
    if n = 0 then { ret := -1, self := self, exc := some PyExc.ValueError }
    else
      match guard_arg_type_init_types seq with
      | .error e => { ret := -1, self := self, exc := some e }
      | .ok arg_types =>
        { ret := 0, self := { arg_index := arg_index, arg_types := arg_types }, exc := none }

/-! ## GuardFunc -/

/-- What the module reads of a `PyFunctionObject`: the address of its code
object. -/
structure PyFunctionObject where
  func_code : Nat
  deriving DecidableEq, Repr

/-- The function objects of the interpreter, by address. -/
abbrev Functions := Nat → PyFunctionObject

/-- Address of the static type object `PyFunction_Type`. -/
def PyFunction_Type : Nat := 4

/-- The macro `PyFunction_Check`: the exact type is `PyFunction_Type`. -/
def PyFunction_Check (op : PyObject) : Bool :=
  match op with
  | .object _ t => t == PyFunction_Type
  | _ => false

/-- The struct `GuardFuncObject`: the address of the watched function and of the
code object it had when the guard was built (`NULL` before `init`). -/
structure GuardFuncObject where
  func : Option Nat
  code : Option Nat
  deriving DecidableEq, Repr

/-- Status, guard and pending exception after a function of `GuardFunc`
returns. -/
structure FuncInitResult where
  ret : Int
  self : GuardFuncObject
  exc : Option PyExc
  deriving DecidableEq, Repr

/-- The function `guard_func_new`: the fields of a freshly allocated guard. -/
def guard_func_new : GuardFuncObject :=
  { func := none, code := none }

/-- The function `guard_func_init_guard`, the `init` hook: `func` is the address
of the function that the guard is attached to. -/
def guard_func_init_guard (self : GuardFuncObject) (func : Option Nat) : FuncInitResult :=
  if func = self.func then { ret := -1, self := self, exc := some PyExc.ValueError }
  else { ret := 0, self := self, exc := none }

/-- The function `guard_func_check`.  It does not write to the guard and does
not read `stack`, `nargs` or `kwnames`. -/
def guard_func_check (funcs : Functions) (guard : GuardFuncObject) (_stack : List PyObject)
    (_nargs : Int) (_kwnames : Option (List PyObject)) : Option Int :=
  match guard.func with
  | none => none
  | some func =>
    if some (funcs func).func_code ≠ guard.code then some 2
    else some 0

/-- The function `guard_func_init`, from the point where
`PyArg_ParseTupleAndKeywords` has delivered the object `func`. -/
def guard_func_init (funcs : Functions) (self : GuardFuncObject) (func : PyObject) :
    FuncInitResult :=
  if !PyFunction_Check func then { ret := -1, self := self, exc := some PyExc.TypeError }
  else
    match func with
    | .object addr _ =>
      { ret := 0, self := { func := some addr, code := some (funcs addr).func_code },
        exc := none }
    | _ => { ret := -1, self := self, exc := some PyExc.TypeError }

/-! ## GuardGlobals -/

/-- What the module reads of the `PyFrameObject` in `tstate->frame`: the
addresses of its globals and builtins dictionaries. -/
structure PyFrameObject where
  f_globals : Nat
  f_builtins : Nat
  deriving DecidableEq, Repr

/-- The function `guard_globals_check`; `frame` is `tstate->frame`, which may be
`NULL`.  The function asserts that it is not and then reads through it. -/
def guard_globals_check (heap : Heap) (frame : Option PyFrameObject)
    (guard : GuardDictObject) : Option (Int × GuardDictObject) :=
  match frame with
  | none => none
  | some frame =>
    if some frame.f_globals ≠ guard.dict then some (2, guard)
    else guard_dict_check heap guard

/-- The check of a globals guard in the words of the specification: compare the
active globals mapping with the stored one by identity, fail on a mismatch
without touching the version and key logic, and on a match delegate to the
check of the keyed-mapping guard. -/
def globals_check_spec (heap : Heap) (active_globals : Nat) (guard : GuardDictObject) :
    Option (Int × GuardDictObject) :=
  if some active_globals = guard.dict then guard_dict_check heap guard
  else some (2, guard)

/-- The function `guard_globals_init`; `globals` is what `PyEval_GetGlobals()`
returns, the address of the active globals dictionary or `NULL`. -/
def guard_globals_init (heap : Heap) (self : GuardDictObject) (globals : Option Nat)
    (args : List PyObject) (kwargs : Option PyObject) : InitResult :=
  if kwargs.isSome then { ret := -1, self := self, exc := some PyExc.TypeError }
  else
    match globals with
    | none => { ret := -1, self := self, exc := some PyExc.RuntimeError }
    | some globals => guard_dict_init_keys heap self globals 0 (.tuple args)

/-! ## GuardBuiltins -/

/-- The struct `GuardBuiltinsObject`.  The guard on the globals, a separate
object that only this guard refers to, is held by value (`NULL` before
`init`). -/
structure GuardBuiltinsObject where
  base : GuardDictObject
  init_failed : Int
  guard_globals : Option GuardDictObject
  deriving DecidableEq, Repr

/-- Status, guard and pending exception after `guard_builtins_init` returns. -/
structure BuiltinsInitResult where
  ret : Int
  self : GuardBuiltinsObject
  exc : Option PyExc
  deriving DecidableEq, Repr

/-- The function `guard_builtins_new`: the fields of a freshly allocated guard. -/
def guard_builtins_new : GuardBuiltinsObject :=
  { base := guard_dict_new, init_failed := -1, guard_globals := none }

/-- The function `PyDict_GetItem` on an exact dictionary: the address of the
value, or `NULL` without an exception when the key is absent. -/
def PyDict_GetItem (dict : PyDictObject) (key : PyObject) : Option Nat :=
  match dict.getitem key with
  | .value v => some v
  | .raised _ => none

/-- The first `for` loop of `guard_builtins_init_guard`: `true` when it reaches a
pair whose name is in `init_builtins` with a value that is not the snapshotted
one. -/
def guard_builtins_init_modified (init_builtins : PyDictObject) : List GuardDictPair → Bool
  | [] => false
  | pair :: rest =>
    match PyDict_GetItem init_builtins pair.key with
    | some init_value =>
      if pair.value ≠ some init_value then true
      else guard_builtins_init_modified init_builtins rest
    | none => guard_builtins_init_modified init_builtins rest

/-- The second `for` loop of `guard_builtins_init_guard`: `true` when it reaches a
pair of the globals guard whose snapshot is not `NULL`. -/
def guard_builtins_init_shadowed : List GuardDictPair → Bool
  | [] => false
  | pair :: rest =>
    if pair.value ≠ none then true
    else guard_builtins_init_shadowed rest

/-- The function `guard_builtins_init_guard`; `init_builtins` is the copy of the
builtins taken when the module was loaded.  The argument `func` is not read and
is left out. -/
def guard_builtins_init_guard (init_builtins : PyDictObject) (guard : GuardBuiltinsObject) :
    Option (Int × GuardBuiltinsObject) :=
  if guard_builtins_init_modified init_builtins guard.base.pairs then
    some (1, { guard with init_failed := 1 })
  else
    match guard.guard_globals with
    | none => none
    | some globals_guard =>
      if guard_builtins_init_shadowed globals_guard.pairs then
        some (1, { guard with init_failed := 1 })
      else some (0, { guard with init_failed := 0 })

/-- The function `guard_builtins_check` from the test of `init_failed` on, once
the flag is computed; `frame` is `tstate->frame`, which may be `NULL`. -/
def guard_builtins_check_computed (heap : Heap) (frame : Option PyFrameObject)
    (guard : GuardBuiltinsObject) : Option (Int × GuardBuiltinsObject) :=
  if guard.init_failed ≠ 0 then some (2, guard)
  else
    match frame with
    | none => some (2, guard)
    | some frame =>
      match guard.guard_globals with
      | none => none
      | some guard_globals =>
        if some frame.f_globals ≠ guard_globals.dict then some (2, guard)
        else if some frame.f_builtins ≠ guard.base.dict then some (2, guard)
        else
          match guard_dict_check heap guard_globals with
          | none => none
          | some (res, guard_globals') =>
            if res ≠ 0 then some (res, { guard with guard_globals := some guard_globals' })
            else
              match guard_dict_check heap guard.base with
              | none => none
              | some (res', base') =>
                some (res', { guard with base := base',
                                         guard_globals := some guard_globals' })

/-- The function `guard_builtins_check`: when `init_failed` is still `-1` the flag
is computed by `guard_builtins_init_guard` first. -/
def guard_builtins_check (heap : Heap) (init_builtins : PyDictObject)
    (frame : Option PyFrameObject) (guard : GuardBuiltinsObject) :
    Option (Int × GuardBuiltinsObject) :=
  if guard.init_failed = -1 then
    match guard_builtins_init_guard init_builtins guard with
    | none => none
    | some (_, guard') => guard_builtins_check_computed heap frame guard'
  else guard_builtins_check_computed heap frame guard

/-- The function `guard_builtins_init`; `builtins` is what `PyEval_GetBuiltins()`
returns and `globals` what `PyEval_GetGlobals()` returns inside the call of
`GuardGlobals`. -/
def guard_builtins_init (heap : Heap) (self : GuardBuiltinsObject) (builtins : Option PyObject)
    (globals : Option Nat) (args : List PyObject) (kwargs : Option PyObject) :
    BuiltinsInitResult :=
  if kwargs.isSome then { ret := -1, self := self, exc := some PyExc.TypeError }
  else
    match builtins with
    | none => { ret := -1, self := self, exc := some PyExc.RuntimeError }
    | some builtins =>
      if !PyDict_Check builtins then
        { ret := -1, self := self, exc := some PyExc.RuntimeError }
      else
        match builtins with
        | .dict builtins_addr =>
          let guard_globals := guard_globals_init heap guard_dict_new globals args none
          if guard_globals.ret ≠ 0 then { ret := -1, self := self, exc := guard_globals.exc }
          else
            let base := guard_dict_init_keys heap self.base builtins_addr 0 (.tuple args)
            if base.ret < 0 then
              { ret := -1, self := { self with base := base.self }, exc := base.exc }
            else
              { ret := 0,
                self := { self with base := base.self,
                                    guard_globals := some guard_globals.self },
                exc := none }
        | _ => { ret := -1, self := self, exc := some PyExc.RuntimeError }

/-! ## The guard capability -/

/-- A guard object of one of the five types of the module: what a
`PyFuncGuardObject *` of a specialization points to. -/
inductive Guard
  | arg_type (guard : GuardArgTypeObject)
  | func (guard : GuardFuncObject)
  | dict (guard : GuardDictObject)
  | globals (guard : GuardDictObject)
  | builtins (guard : GuardBuiltinsObject)
  deriving DecidableEq, Repr

/-- The call `guard->check(guard, stack, nargs, kwnames)` through the hook that
the `new` function of each type stores in `base.check`: the status and the guard
after the call.  `guard_arg_type_check` and `guard_func_check` contain no store,
so the guard they leave is the guard they got. -/
def guard_check (heap : Heap) (funcs : Functions) (init_builtins : PyDictObject)
    (frame : Option PyFrameObject) (stack : List PyObject) (nargs : Int)
    (kwnames : Option (List PyObject)) : Guard → Option (Int × Guard)
  | .arg_type guard =>
    match guard_arg_type_check guard stack nargs kwnames with
    | none => none
    | some res => some (res, .arg_type guard)
  | .func guard =>
    match guard_func_check funcs guard stack nargs kwnames with
    | none => none
    | some res => some (res, .func guard)
  | .dict guard =>
    match guard_dict_check heap guard with
    | none => none
    | some (res, guard') => some (res, .dict guard')
  | .globals guard =>
    match guard_globals_check heap frame guard with
    | none => none
    | some (res, guard') => some (res, .globals guard')
  | .builtins guard =>
    match guard_builtins_check heap init_builtins frame guard with
    | none => none
    | some (res, guard') => some (res, .builtins guard')

/-- Two keyed-mapping guards that differ at most in the cached `dict_version`. -/
def SameButVersion (guard guard' : GuardDictObject) : Prop :=
  guard'.dict = guard.dict ∧ guard'.pairs = guard.pairs

/-- Two guards of the same type that differ at most in what a check memoises: the
cached `dict_version` of a keyed-mapping guard, its own or that of the embedded
globals guard, and the flag `init_failed` of a builtins guard. -/
def SameButMemo : Guard → Guard → Prop
  | .arg_type guard, .arg_type guard' => guard' = guard
  | .func guard, .func guard' => guard' = guard
  | .dict guard, .dict guard' => SameButVersion guard guard'
  | .globals guard, .globals guard' => SameButVersion guard guard'
  | .builtins guard, .builtins guard' =>
    SameButVersion guard.base guard'.base
    ∧ (match guard.guard_globals, guard'.guard_globals with
       | some globals_guard, some globals_guard' => SameButVersion globals_guard globals_guard'
       | none, none => True
       | _, _ => False)
  | _, _ => False

/-! ## Module functions -/

/-- Address of the static type object `PyTuple_Type`. -/
def PyTuple_Type : Nat := 5

/-- The function `fat_guard_type_dict`, from the point where `PyArg_ParseTuple`
has delivered `type` and `keys`; the format `O!` lets only a type through.
`tp_dict` gives the address of the dictionary of the type at an address.  The
call `PyObject_CallFunction(&GuardDict_Type, "OO", type_dict, keys)` runs
`guard_dict_new` and `guard_dict_init` on the argument tuple
`(type_dict, keys)`. -/
def fat_guard_type_dict (heap : Heap) (tp_dict : Nat → Nat) (type keys : PyObject) :
    InitResult :=
  if !PyType_Check type then { ret := -1, self := guard_dict_new, exc := some PyExc.TypeError }
  else
    match type with
    | .type addr =>
      let type_dict := tp_dict addr
      guard_dict_init heap guard_dict_new [.dict type_dict, keys] none
    | _ => { ret := -1, self := guard_dict_new, exc := some PyExc.TypeError }

/-- The function `replace_consts`; `mapping` is the lookup `PyDict_GetItem(mapping, ·)`
of the dictionary, which answers the new constant or `NULL` and suppresses the
errors of the lookup itself.  No exception is pending when the module function
is called, so the test `new_value == NULL && PyErr_Occurred()` is not met. -/
def replace_consts (mapping : PyObject → Option PyObject) : List PyObject → List PyObject
  | [] => []
  | value :: rest =>
    (match mapping value with
     | some new_value => new_value
     | none => value) :: replace_consts mapping rest

/-- What `fat_replace_consts` reads of a `PyCodeObject`. -/
structure PyCodeObject where
  co_argcount : Int
  co_kwonlyargcount : Int
  co_nlocals : Int
  co_stacksize : Int
  co_flags : Int
  co_code : PyObject
  co_consts : List PyObject
  co_names : PyObject
  co_varnames : PyObject
  co_freevars : PyObject
  co_cellvars : PyObject
  co_filename : PyObject
  co_name : PyObject
  co_firstlineno : Int
  co_lnotab : PyObject
  deriving DecidableEq, Repr

/-- Modelled from the spec: the host function `PyCode_New`, which `fat.c` calls
and does not define.  The new body is "identical in every respect except" the
constants it is given, so on arguments that come from an existing code object
it is the code object holding them. -/
def PyCode_New (argcount kwonlyargcount nlocals stacksize flags : Int) (code : PyObject)
    (consts : List PyObject) (names varnames freevars cellvars filename name : PyObject)
    (firstlineno : Int) (lnotab : PyObject) : PyCodeObject :=
  { co_argcount := argcount, co_kwonlyargcount := kwonlyargcount, co_nlocals := nlocals,
    co_stacksize := stacksize, co_flags := flags, co_code := code, co_consts := consts,
    co_names := names, co_varnames := varnames, co_freevars := freevars,
    co_cellvars := cellvars, co_filename := filename, co_name := name,
    co_firstlineno := firstlineno, co_lnotab := lnotab }

/-- The function `fat_replace_consts`, from the point where `PyArg_ParseTuple` has
delivered the code object and the dictionary. -/
def fat_replace_consts (code : PyCodeObject) (mapping : PyObject → Option PyObject) :
    PyCodeObject :=
  let new_consts := replace_consts mapping code.co_consts
  PyCode_New code.co_argcount code.co_kwonlyargcount code.co_nlocals code.co_stacksize
    code.co_flags code.co_code new_consts code.co_names code.co_varnames code.co_freevars
    code.co_cellvars code.co_filename code.co_name code.co_firstlineno code.co_lnotab

/-- A record of the specialization table of a function: a body and its guards. -/
structure SpecializedCode where
  code : PyObject
  guards : List Guard
  deriving DecidableEq, Repr

/-- The specialization tables of the functions, by function address. -/
abbrev SpecializationTable := Nat → List SpecializedCode

/-- Modelled from the spec: the host function `PyFunction_Specialize`, which
`fat.c` calls and does not define.  It "appends a new record to the callable's
ordered specialization list" and "never rejects based on guard content"; the
status is `0`. -/
def PyFunction_Specialize (table : SpecializationTable) (func : Nat) (code : PyObject)
    (guards : List Guard) : Int × SpecializationTable :=
  (0, fun f => if f = func then table f ++ [{ code := code, guards := guards }] else table f)

/-- Modelled from the spec: the host function `PyFunction_GetSpecializedCodes`,
which `fat.c` calls and does not define.  It "returns the ordered list of
`(body, guards)` pairs, in insertion order". -/
def PyFunction_GetSpecializedCodes (table : SpecializationTable) (func : Nat) :
    List SpecializedCode :=
  table func

/-- The function `fat_specialize`, from the point where `PyArg_ParseTuple` has
delivered `func`, `code` and `guards`; the format `O!` lets only a function
through.  The result is `true` for `None`, `false` for `NULL`, with the table
after the call. -/
def fat_specialize (table : SpecializationTable) (func code : PyObject)
    (guards : List Guard) : Bool × SpecializationTable :=
  if !PyFunction_Check func then (false, table)
  else
    match func with
    | .object addr _ =>
      let res := PyFunction_Specialize table addr code guards
      if res.1 < 0 then (false, res.2)
      else (true, res.2)
    | _ => (false, table)

/-- The function `fat_get_specialized`, from the point where `PyArg_ParseTuple`
has delivered `func`; `NULL` when it is not a function. -/
def fat_get_specialized (table : SpecializationTable) (func : PyObject) :
    Option (List SpecializedCode) :=
  if !PyFunction_Check func then none
  else
    match func with
    | .object addr _ => some (PyFunction_GetSpecializedCodes table addr)
    | _ => none

/-! ## Histories of a keyed-mapping guard -/

/-- What can happen to a guard and the dictionaries around it: the dictionaries
are changed to a new state, or the guard is checked. -/
inductive Event
  | mutate (heap' : Heap)
  | check

/-- The dictionaries and the guard after a sequence of events.  A check with no
result leaves the guard as it is. -/
def runEvents (heap : Heap) (guard : GuardDictObject) : List Event → Heap × GuardDictObject
  | [] => (heap, guard)
  | .mutate heap' :: es => runEvents heap' guard es
  | .check :: es =>
    match guard_dict_check heap guard with
    | some (_, guard') => runEvents heap guard' es
    | none => runEvents heap guard es

/-- The statuses returned by the checks of a sequence of events, in order. -/
def checkResults (heap : Heap) (guard : GuardDictObject) : List Event → List (Option Int)
  | [] => []
  | .mutate heap' :: es => checkResults heap' guard es
  | .check :: es =>
    match guard_dict_check heap guard with
    | some (res, guard') => some res :: checkResults heap guard' es
    | none => none :: checkResults heap guard es

/-- The lookup outcome that a snapshot stands for: the value at that address, or
`KeyError` for an absent key. -/
def snapshot_binding : Option Nat → GetItem
  | some v => .value v
  | none => .raised PyExc.KeyError

/-- The key of `pair` is bound in `dict` exactly as in the snapshot: to the
identical value, or still absent. -/
def Unchanged (dict : PyDictObject) (pair : GuardDictPair) : Prop :=
  dict.getitem pair.key = snapshot_binding pair.value

instance (dict : PyDictObject) (pair : GuardDictPair) : Decidable (Unchanged dict pair) := by
  unfold Unchanged
  infer_instance

/-- The snapshot that `guard_dict_init_keys` stores for the current binding of
`key`: the value found, `NULL` when the lookup raised. -/
def snapshot_of (dict : PyDictObject) (key : PyObject) : Option Nat :=
  match dict.getitem key with
  | .value v => some v
  | .raised _ => none

/-- Version discipline of the dictionary at address `p` along a sequence of
events, `seen` being the versions it had before the current one.  At every
mutation: if the binding of some key changes, the new version is one the
dictionary never had; and in any case the version is a counter, it stays as it
is or takes a value the dictionary never had. -/
def VersionDiscipline (p : Nat) : List Nat → Heap → List Event → Prop
  | _, _, [] => True
  | seen, heap, .check :: es => VersionDiscipline p seen heap es
  | seen, heap, .mutate heap' :: es =>
    ((∃ k, (heap' p).getitem k ≠ (heap p).getitem k) →
        (heap' p).ma_version_tag ∉ (heap p).ma_version_tag :: seen)
    ∧ ((heap' p).ma_version_tag = (heap p).ma_version_tag
        ∨ (heap' p).ma_version_tag ∉ (heap p).ma_version_tag :: seen)
    ∧ VersionDiscipline p ((heap p).ma_version_tag :: seen) heap' es

/-- Every mutation of the sequence leaves the lookups of the keys `watched` in the
dictionary at address `p` as they are (other keys and the version are free). -/
def OnlyUnwatched (p : Nat) (watched : List PyObject) : Heap → List Event → Prop
  | _, [] => True
  | heap, .check :: es => OnlyUnwatched p watched heap es
  | heap, .mutate heap' :: es =>
    (∀ k ∈ watched, (heap' p).getitem k = (heap p).getitem k)
    ∧ OnlyUnwatched p watched heap' es

/-- No mutation of the sequence gives the dictionary at address `p` the version
`cached`. -/
def VersionAvoids (p : Nat) (cached : Nat) : List Event → Prop
  | [] => True
  | .check :: es => VersionAvoids p cached es
  | .mutate heap' :: es => (heap' p).ma_version_tag ≠ cached ∧ VersionAvoids p cached es

/-- At every check of the sequence the dictionary at `p` does not have the
version `cached`, and some pair of `pairs` is not bound as snapshotted. -/
def SomeWatchedDiffers (p : Nat) (cached : Nat) (pairs : List GuardDictPair) :
    Heap → List Event → Prop
  | _, [] => True
  | heap, .check :: es =>
    ((heap p).ma_version_tag ≠ cached ∧ ∃ pair ∈ pairs, ¬ Unchanged (heap p) pair)
    ∧ SomeWatchedDiffers p cached pairs heap es
  | _, .mutate heap' :: es => SomeWatchedDiffers p cached pairs heap' es

/-- At every check of the sequence the lookup of every key of `pairs` in the
dictionary at `p` answers a value or `KeyError`. -/
def WatchedLookupsAnswer (p : Nat) (pairs : List GuardDictPair) : Heap → List Event → Prop
  | _, [] => True
  | heap, .check :: es =>
    (∀ pair ∈ pairs, ∀ e, (heap p).getitem pair.key = .raised e → e = PyExc.KeyError)
    ∧ WatchedLookupsAnswer p pairs heap es
  | _, .mutate heap' :: es => WatchedLookupsAnswer p pairs heap' es

/-- What can happen to a builtins guard and the dictionaries around it: the
dictionaries are changed to a new state, or the guard is checked while
`tstate->frame` is `frame`. -/
inductive BuiltinsEvent
  | mutate (heap' : Heap)
  | check (frame : Option PyFrameObject)

/-- The statuses returned by the checks of a sequence of events on a builtins
guard, in order.  A check with no result leaves the guard as it is. -/
def builtinsCheckResults (init_builtins : PyDictObject) (heap : Heap)
    (guard : GuardBuiltinsObject) : List BuiltinsEvent → List (Option Int)
  | [] => []
  | .mutate heap' :: es => builtinsCheckResults init_builtins heap' guard es
  | .check frame :: es =>
    match guard_builtins_check heap init_builtins frame guard with
    | some (res, guard') => some res :: builtinsCheckResults init_builtins heap guard' es
    | none => none :: builtinsCheckResults init_builtins heap guard es

/-- The dictionaries and the builtins guard after a sequence of events.  A check
with no result leaves the guard as it is. -/
def runBuiltinsEvents (init_builtins : PyDictObject) (heap : Heap)
    (guard : GuardBuiltinsObject) : List BuiltinsEvent → Heap × GuardBuiltinsObject
  | [] => (heap, guard)
  | .mutate heap' :: es => runBuiltinsEvents init_builtins heap' guard es
  | .check frame :: es =>
    match guard_builtins_check heap init_builtins frame guard with
    | some (_, guard') => runBuiltinsEvents init_builtins heap guard' es
    | none => runBuiltinsEvents init_builtins heap guard es

/-- An event on a builtins guard without the frame of the check. -/
def BuiltinsEvent.forgetFrame : BuiltinsEvent → Event
  | .mutate heap' => .mutate heap'
  | .check _ => .check

/-- The invariant of a keyed-mapping guard on the dictionary at `p` with the
pairs `pairs0`, `seen` being the versions the dictionary had before the current
one: the cached version is one the dictionary has or had, and when it is the
current one every watched key is bound as snapshotted. -/
def GuardInv (p : Nat) (pairs0 : List GuardDictPair) (seen : List Nat) (heap : Heap)
    (guard : GuardDictObject) : Prop :=
  guard.dict = some p ∧ guard.pairs = pairs0
  ∧ guard.dict_version ∈ (heap p).ma_version_tag :: seen
  ∧ ((heap p).ma_version_tag = guard.dict_version →
      ∀ pair ∈ pairs0, Unchanged (heap p) pair)

/-- The invariant of a builtins guard on the globals at `g` and the builtins at
`b`: its globals guard and its own keyed-mapping part satisfy `GuardInv`, and a
flag `init_failed = 0` stands for both loops of `guard_builtins_init_guard`
having found nothing. -/
def BuiltinsInv (init_builtins : PyDictObject) (g b : Nat)
    (gpairs bpairs : List GuardDictPair) (seen_g seen_b : List Nat) (heap : Heap)
    (guard : GuardBuiltinsObject) : Prop :=
  (∃ globals_guard, guard.guard_globals = some globals_guard
      ∧ GuardInv g gpairs seen_g heap globals_guard)
  ∧ GuardInv b bpairs seen_b heap guard.base
  ∧ (guard.init_failed = 0 →
      guard_builtins_init_modified init_builtins bpairs = false
      ∧ guard_builtins_init_shadowed gpairs = false)

/-! ## Concrete dictionaries and guards used as inputs -/

/-- A plain dictionary with string keys: its version and its items.  A key that
is not among the items raises `KeyError`. -/
def plainDict (version : Nat) (items : List (String × Nat)) : PyDictObject :=
  { ma_version_tag := version,
    getitem := fun k =>
      match k with
      | .unicode s =>
        match items.lookup s with
        | some v => .value v
        | none => .raised PyExc.KeyError
      | _ => .raised PyExc.KeyError }

/-- A dictionary whose lookup raises `RuntimeError` for every key, as a subclass
of `dict` with its own `__getitem__` can. -/
def brokenDict (version : Nat) : PyDictObject :=
  { ma_version_tag := version, getitem := fun _ => .raised PyExc.RuntimeError }

/-- The interpreter with the dictionary `d` at address `7` and empty dictionaries
elsewhere. -/
def heapWith (d : PyDictObject) : Heap :=
  fun a => if a = 7 then d else plainDict 0 []

/-- The mapping `{x: 1, y: 2}`, the integers `1` and `2` living at the addresses
`101` and `102`. -/
def heapXY : Heap := heapWith (plainDict 1 [("x", 101), ("y", 102)])

/-- The mapping after `y = 99`. -/
def heapY99 : Heap := heapWith (plainDict 2 [("x", 101), ("y", 199)])

/-- The mapping after `x = 2`. -/
def heapX2 : Heap := heapWith (plainDict 3 [("x", 102), ("y", 199)])

/-- The mapping after `x = 1` again: the very object snapshotted. -/
def heapX1 : Heap := heapWith (plainDict 4 [("x", 101), ("y", 199)])

/-- The mapping `{x: 1, y: 2}` after `x = 2`. -/
def heapSetX2 : Heap := heapWith (plainDict 2 [("x", 102), ("y", 102)])

/-- The mapping `{x: 2, y: 2}` after `x = 1`: `x` is bound to the object it had at
first. -/
def heapSetX1 : Heap := heapWith (plainDict 3 [("x", 101), ("y", 102)])

/-- The guard that `GuardArgType(1, (T20, T30))` builds, `T20` and `T30` being the
types at the addresses `20` and `30`. -/
def guardArg1 : GuardArgTypeObject := { arg_index := 1, arg_types := [20, 30] }

/-- Three positional arguments, of the types at `40`, `30` and `20`. -/
def stack3 : List PyObject := [.object 201 40, .object 202 30, .object 203 20]

/-- The interpreter's functions with the code object at address `code` in the
function at address `50`. -/
def functionsWith (code : Nat) : Functions :=
  fun a => if a = 50 then { func_code := code } else { func_code := 900 + a }

/-- The interpreter with the globals dictionary at address `7`, the builtins
dictionary at address `8` and empty dictionaries elsewhere. -/
def heapGB (globals builtins : PyDictObject) : Heap :=
  fun a => if a = 7 then globals else if a = 8 then builtins else plainDict 0 []

/-- The frame of a call whose globals are at address `7` and builtins at `8`. -/
def frameGB : PyFrameObject := { f_globals := 7, f_builtins := 8 }

/-- The builtins as copied when the module was loaded: `len` at address `301`. -/
def initBuiltins : PyDictObject := plainDict 0 [("len", 301)]

/-- A builtins guard on the name `len` before its first check, with the given
snapshots of `len` in the globals and in the builtins. -/
def guardLen (globals_value builtins_value : Option Nat) : GuardBuiltinsObject :=
  { base := { dict := some 8, dict_version := 1,
              pairs := [{ key := .unicode "len", value := builtins_value }] },
    init_failed := -1,
    guard_globals := some { dict := some 7, dict_version := 1,
                            pairs := [{ key := .unicode "len", value := globals_value }] } }

/-- Globals `{len: <object at 77>}` shadowing the builtin `len`. -/
def heapShadow : Heap := heapGB (plainDict 1 [("len", 77)]) (plainDict 1 [("len", 301)])

/-- The same dictionaries after `del len` in the globals. -/
def heapUnshadow : Heap := heapGB (plainDict 2 []) (plainDict 1 [("len", 301)])

/-- Globals without `len` and builtins with the original `len`. -/
def heapLen : Heap := heapGB (plainDict 1 [("x", 101)]) (plainDict 1 [("len", 301)])

/-- The same dictionaries after `x = 2` in the globals. -/
def heapLenX2 : Heap := heapGB (plainDict 2 [("x", 102)]) (plainDict 1 [("len", 301)])

/-- A constant mapping given by its items. -/
def constMapping (items : List (PyObject × PyObject)) : PyObject → Option PyObject :=
  fun k => items.lookup k

/-- The integer constants `1`, `2`, `3` as objects of the type at address `70`. -/
def const1 : PyObject := .object 1001 70

/-- The integer constant `2`. -/
def const2 : PyObject := .object 1002 70

/-- The integer constant `3`. -/
def const3 : PyObject := .object 1003 70

/-- A code object with the constants `(1, "s", 1, 2)`. -/
def codeEx : PyCodeObject :=
  { co_argcount := 1, co_kwonlyargcount := 0, co_nlocals := 2, co_stacksize := 3,
    co_flags := 67, co_code := .object 2001 71,
    co_consts := [const1, .unicode "s", const1, const2],
    co_names := .object 2002 PyTuple_Type, co_varnames := .object 2003 PyTuple_Type,
    co_freevars := .object 2004 PyTuple_Type, co_cellvars := .object 2005 PyTuple_Type,
    co_filename := .unicode "file.py", co_name := .unicode "f",
    co_firstlineno := 10, co_lnotab := .object 2006 71 }

/-- The function at address `50` as an object. -/
def funcF : PyObject := .object 50 PyFunction_Type

/-- The specialization tables when no function is specialized. -/
def emptyTable : SpecializationTable := fun _ => []

/-- Two code objects used as specialized bodies. -/
def body1 : PyObject := .object 3001 72

/-- The second specialized body. -/
def body2 : PyObject := .object 3002 72

/-- The mapping `{x: 2, y: 2}` after `x = 3`: `x` is bound to a third object. -/
def heapSetX3 : Heap := heapWith (plainDict 3 [("x", 103), ("y", 102)])

/-- The guard that `GuardDict({x: 1, y: 2}, "x")` builds. -/
def guardX : GuardDictObject :=
  { dict := some 7, dict_version := 1, pairs := [{ key := .unicode "x", value := some 101 }] }

/-- A guard watching `x`, `y` and `z` of `{x: 1, y: 2}`. -/
def guardXYZ : GuardDictObject :=
  { dict := some 7, dict_version := 1,
    pairs := [{ key := .unicode "x", value := some 101 },
              { key := .unicode "y", value := some 102 },
              { key := .unicode "z", value := none }] }

/-! ## Lemmas on the pair check and the rescan loop -/

theorem check_dict_pair_guard_eq_zero_iff (dict : PyDictObject) (pair : GuardDictPair) :
    check_dict_pair_guard dict pair = 0 ↔ Unchanged dict pair := by
  unfold check_dict_pair_guard Unchanged
  rcases pair with ⟨key, value⟩
  cases hg : dict.getitem key with
  | value v =>
    cases value with
    | none => simp [snapshot_binding]
    | some w => by_cases h : v = w <;> simp [snapshot_binding, h]
  | raised e =>
    cases value with
    | none => cases e <;> simp [snapshot_binding]
    | some w => cases e <;> simp [snapshot_binding]

theorem check_dict_pair_guard_cases (dict : PyDictObject) (pair : GuardDictPair) :
    check_dict_pair_guard dict pair = 0 ∨ check_dict_pair_guard dict pair = 2
      ∨ check_dict_pair_guard dict pair = -1 := by
  unfold check_dict_pair_guard
  split
  · split
    · exact Or.inr (Or.inr rfl)
    · split
      · exact Or.inl rfl
      · exact Or.inr (Or.inl rfl)
  · split
    · exact Or.inl rfl
    · exact Or.inr (Or.inl rfl)

theorem check_dict_pair_guard_raised (dict : PyDictObject) (pair : GuardDictPair) (e : PyExc)
    (hg : dict.getitem pair.key = .raised e) (he : e ≠ PyExc.KeyError) :
    check_dict_pair_guard dict pair = -1 := by
  unfold check_dict_pair_guard
  rw [hg]
  simp [he]

theorem check_dict_pair_guard_changed (dict : PyDictObject) (pair : GuardDictPair)
    (hg : ∀ e, dict.getitem pair.key = .raised e → e = PyExc.KeyError)
    (hne : ¬ Unchanged dict pair) :
    check_dict_pair_guard dict pair = 2 := by
  rcases check_dict_pair_guard_cases dict pair with h | h | h
  · exact absurd ((check_dict_pair_guard_eq_zero_iff dict pair).1 h) hne
  · exact h
  · exfalso
    unfold check_dict_pair_guard at h
    cases hk : dict.getitem pair.key with
    | value v =>
      rw [hk] at h
      by_cases hv : some v = pair.value <;> simp [hv] at h
    | raised e =>
      rw [hk] at h
      have := hg e hk
      subst this
      by_cases hv : (none : Option Nat) = pair.value <;> simp [hv] at h

theorem check_dict_pair_guard_congr (d d' : PyDictObject) (pair : GuardDictPair)
    (h : d'.getitem pair.key = d.getitem pair.key) :
    check_dict_pair_guard d' pair = check_dict_pair_guard d pair := by
  unfold check_dict_pair_guard
  rw [h]

theorem guard_dict_check_pairs_eq_zero_iff (dict : PyDictObject) (pairs : List GuardDictPair) :
    guard_dict_check_pairs dict pairs = 0 ↔ ∀ pair ∈ pairs, Unchanged dict pair := by
  induction pairs with
  | nil => simp [guard_dict_check_pairs]
  | cons pair rest ih =>
    simp only [guard_dict_check_pairs, List.mem_cons, forall_eq_or_imp]
    rw [← check_dict_pair_guard_eq_zero_iff, ← ih]
    by_cases h : check_dict_pair_guard dict pair = 0
    · simp [h]
    · simp [h]

theorem guard_dict_check_pairs_append (dict : PyDictObject) (pre rest : List GuardDictPair)
    (hpre : ∀ q ∈ pre, Unchanged dict q) :
    guard_dict_check_pairs dict (pre ++ rest) = guard_dict_check_pairs dict rest := by
  induction pre with
  | nil => rfl
  | cons q pre ih =>
    have hq : check_dict_pair_guard dict q = 0 :=
      (check_dict_pair_guard_eq_zero_iff dict q).2 (hpre q (List.mem_cons_self _ _))
    simp only [List.cons_append, guard_dict_check_pairs, hq]
    simpa using ih (fun r hr => hpre r (List.mem_cons_of_mem _ hr))

theorem guard_dict_check_pairs_congr (d d' : PyDictObject) (pairs : List GuardDictPair)
    (h : ∀ q ∈ pairs, d'.getitem q.key = d.getitem q.key) :
    guard_dict_check_pairs d' pairs = guard_dict_check_pairs d pairs := by
  induction pairs with
  | nil => rfl
  | cons q rest ih =>
    simp only [guard_dict_check_pairs]
    rw [check_dict_pair_guard_congr d d' q (h q (List.mem_cons_self _ _)),
      ih (fun r hr => h r (List.mem_cons_of_mem _ hr))]

/-- The three ways `guard_dict_check` ends for a guard whose `dict` is set. -/
theorem guard_dict_check_eq (heap : Heap) (guard : GuardDictObject) (p : Nat)
    (hd : guard.dict = some p) :
    guard_dict_check heap guard =
      if (heap p).ma_version_tag ≠ guard.dict_version then
        if guard.pairs = [] then none
        else if guard_dict_check_pairs (heap p) guard.pairs ≠ 0 then
          some (guard_dict_check_pairs (heap p) guard.pairs, guard)
        else some (0, { guard with dict_version := (heap p).ma_version_tag })
      else some (0, guard) := by
  unfold guard_dict_check
  rw [hd]
  simp only [GuardDictObject.npair]
  by_cases hv : (heap p).ma_version_tag = guard.dict_version
  · simp [hv]
  · cases hp : guard.pairs with
    | nil => simp [hv]
    | cons q rest => simp [hv]

/-! ## The check of a keyed-mapping guard -/

/-- C5: version fast path and fast-forward of `guard_dict_check`.  For a guard on
the dictionary at `p`: when the dictionary's version is the cached one the check
passes and returns the guard as it was, and it does so whatever the lookups of
the dictionary would answer (no key is read); when the versions differ and
every watched key is bound as in its snapshot, the check passes and sets
`dict_version` to the dictionary's version; after any passing check
`dict_version` is the dictionary's current version. -/
theorem guard_dict_check_version_paths (heap : Heap) (guard : GuardDictObject) (p : Nat)
    (hd : guard.dict = some p) :
    ((heap p).ma_version_tag = guard.dict_version →
        guard_dict_check heap guard = some (0, guard)
        ∧ ∀ heap' : Heap, (heap' p).ma_version_tag = (heap p).ma_version_tag →
            guard_dict_check heap' guard = some (0, guard))
    ∧ ((heap p).ma_version_tag ≠ guard.dict_version → guard.pairs ≠ [] →
        (∀ pair ∈ guard.pairs, Unchanged (heap p) pair) →
        guard_dict_check heap guard
          = some (0, { guard with dict_version := (heap p).ma_version_tag }))
    ∧ (∀ guard', guard_dict_check heap guard = some (0, guard') →
        guard'.dict_version = (heap p).ma_version_tag
        ∧ guard'.dict = guard.dict ∧ guard'.pairs = guard.pairs) := by
  refine ⟨?_, ?_, ?_⟩
  · intro hv
    refine ⟨?_, ?_⟩
    · rw [guard_dict_check_eq heap guard p hd]
      simp [hv]
    · intro heap' hv'
      rw [guard_dict_check_eq heap' guard p hd]
      simp [hv', hv]
  · intro hv hne hall
    rw [guard_dict_check_eq heap guard p hd]
    have h0 := (guard_dict_check_pairs_eq_zero_iff (heap p) guard.pairs).2 hall
    simp [hv, hne, h0]
  · intro guard' h
    rw [guard_dict_check_eq heap guard p hd] at h
    by_cases hv : (heap p).ma_version_tag = guard.dict_version
    · simp only [hv, ne_eq, not_true_eq_false, if_false, Option.some.injEq, Prod.mk.injEq,
        true_and] at h
      subst h
      exact ⟨hv.symm, rfl, rfl⟩
    · by_cases hne : guard.pairs = []
      · simp [hv, hne] at h
      · by_cases h0 : guard_dict_check_pairs (heap p) guard.pairs = 0
        · simp only [ne_eq, hv, not_false_eq_true, if_true, hne, if_false, h0, not_true_eq_false,
            Option.some.injEq, Prod.mk.injEq, true_and] at h
          subst h
          exact ⟨rfl, rfl, rfl⟩
        · simp only [ne_eq, hv, not_false_eq_true, if_true, hne, if_false, h0,
            Option.some.injEq, Prod.mk.injEq] at h
          exact h.1.elim

/-- Witness of C5 on `{x: 1, y: 2}` after `y = 99`: the version moved from `1` to
`2`, `x` is unchanged, the check passes and caches version `2`. -/
theorem guard_dict_check_version_paths_witness :
    guardX.dict = some 7
    ∧ guard_dict_check heapY99 guardX = some (0, { guardX with dict_version := 2 }) :=
  ⟨rfl, (guard_dict_check_version_paths heapY99 guardX 7 rfl).2.1
    (by decide) (by decide) (by decide)⟩

theorem guard_dict_check_pairs_first_changed (dict : PyDictObject)
    (pre post : List GuardDictPair) (pair : GuardDictPair)
    (hpre : ∀ q ∈ pre, Unchanged dict q) (hne : ¬ Unchanged dict pair) :
    guard_dict_check_pairs dict (pre ++ pair :: post) = check_dict_pair_guard dict pair
      ∧ check_dict_pair_guard dict pair ≠ 0 := by
  have h0 : check_dict_pair_guard dict pair ≠ 0 :=
    fun h => hne ((check_dict_pair_guard_eq_zero_iff dict pair).1 h)
  refine ⟨?_, h0⟩
  rw [guard_dict_check_pairs_append dict pre _ hpre]
  simp [guard_dict_check_pairs, h0]

theorem guard_dict_check_rescan (heap : Heap) (guard : GuardDictObject) (p : Nat)
    (pre post : List GuardDictPair) (pair : GuardDictPair)
    (hd : guard.dict = some p)
    (hv : (heap p).ma_version_tag ≠ guard.dict_version)
    (hp : guard.pairs = pre ++ pair :: post)
    (hpre : ∀ q ∈ pre, Unchanged (heap p) q)
    (hne : ¬ Unchanged (heap p) pair) :
    guard_dict_check heap guard = some (check_dict_pair_guard (heap p) pair, guard) := by
  have hnil : guard.pairs ≠ [] := by rw [hp]; simp
  obtain ⟨h1, h2⟩ := guard_dict_check_pairs_first_changed (heap p) pre post pair hpre hne
  rw [guard_dict_check_eq heap guard p hd, hp] at *
  rw [h1]
  simp [hv, h2]

/-- C6: the rescan path of `guard_dict_check`.  When the versions differ and
`pair` is the first watched pair, in stored order, that is not bound as in its
snapshot, the check returns `-1` if the lookup of its key raised something else
than `KeyError` and `2` otherwise, in both cases with the guard (and so its
`dict_version`) as it was; the result is the same in any state of the
dictionary that agrees on the version and on the keys up to `pair`, whatever the
later keys are bound to; and a lookup that raises `KeyError` makes the pair
check answer `0` or `2`, never `-1`. -/
theorem guard_dict_check_rescan_first_changed (heap : Heap) (guard : GuardDictObject)
    (p : Nat) (pre post : List GuardDictPair) (pair : GuardDictPair)
    (hd : guard.dict = some p)
    (hv : (heap p).ma_version_tag ≠ guard.dict_version)
    (hp : guard.pairs = pre ++ pair :: post)
    (hpre : ∀ q ∈ pre, Unchanged (heap p) q)
    (hne : ¬ Unchanged (heap p) pair) :
    (∀ e, (heap p).getitem pair.key = .raised e → e ≠ PyExc.KeyError →
        guard_dict_check heap guard = some (-1, guard))
    ∧ ((∀ e, (heap p).getitem pair.key = .raised e → e = PyExc.KeyError) →
        guard_dict_check heap guard = some (2, guard))
    ∧ (∀ heap' : Heap, (heap' p).ma_version_tag = (heap p).ma_version_tag →
        (∀ q ∈ pre ++ [pair], (heap' p).getitem q.key = (heap p).getitem q.key) →
        guard_dict_check heap' guard = guard_dict_check heap guard)
    ∧ (∀ q : GuardDictPair, (heap p).getitem q.key = .raised PyExc.KeyError →
        check_dict_pair_guard (heap p) q = if q.value = none then 0 else 2) := by
  have hres := guard_dict_check_rescan heap guard p pre post pair hd hv hp hpre hne
  refine ⟨?_, ?_, ?_, ?_⟩
  · intro e hg he
    rw [hres, check_dict_pair_guard_raised (heap p) pair e hg he]
  · intro hg
    rw [hres, check_dict_pair_guard_changed (heap p) pair hg hne]
  · intro heap' hv' hsame
    have hpre' : ∀ q ∈ pre, Unchanged (heap' p) q := by
      intro q hq
      have := hsame q (List.mem_append_left _ hq)
      unfold Unchanged
      rw [this]
      exact hpre q hq
    have hpair := hsame pair (List.mem_append_right _ (List.mem_singleton_self _))
    have hne' : ¬ Unchanged (heap' p) pair := by
      unfold Unchanged
      rw [hpair]
      exact hne
    rw [hres, guard_dict_check_rescan heap' guard p pre post pair hd (by rw [hv']; exact hv)
      hp hpre' hne', check_dict_pair_guard_congr (heap p) (heap' p) pair hpair]
  · intro q hq
    unfold check_dict_pair_guard
    rw [hq]
    cases q.value <;> simp

/-- Witness of C6 on a guard watching `x`, `y`, `z` after `x = 2`: the pair of `x`
is the first one changed and the check returns `2` without touching the guard. -/
theorem guard_dict_check_rescan_first_changed_witness :
    guard_dict_check heapX2 guardXYZ = some (2, guardXYZ) :=
  (guard_dict_check_rescan_first_changed heapX2 guardXYZ 7 []
    [{ key := .unicode "y", value := some 102 }, { key := .unicode "z", value := none }]
    { key := .unicode "x", value := some 101 }
    rfl (by decide) rfl (by decide) (by decide)).2.1
    (fun e h => by
      rw [show (heapX2 7).getitem (PyObject.unicode "x") = GetItem.value 102 from by decide] at h
      cases h)

theorem guard_dict_check_pairs_eq_two (dict : PyDictObject) (pairs : List GuardDictPair)
    (hall : ∀ q ∈ pairs, check_dict_pair_guard dict q = 0 ∨ check_dict_pair_guard dict q = 2)
    (hex : ∃ q ∈ pairs, check_dict_pair_guard dict q = 2) :
    guard_dict_check_pairs dict pairs = 2 := by
  induction pairs with
  | nil => simp at hex
  | cons q rest ih =>
    simp only [guard_dict_check_pairs]
    rcases hall q (List.mem_cons_self _ _) with h0 | h2
    · simp only [h0, ne_eq, not_true_eq_false, if_false]
      apply ih (fun r hr => hall r (List.mem_cons_of_mem _ hr))
      obtain ⟨r, hr, hr2⟩ := hex
      rcases List.mem_cons.1 hr with rfl | hr'
      · rw [h0] at hr2; exact absurd hr2 (by decide)
      · exact ⟨r, hr', hr2⟩
    · simp [h2]

/-- C3: a guard in a passing state (its cached version is the dictionary's and
every watched key is bound as in its snapshot) fails at the next check once one
watched key `key` is mutated: the version changes, every other key is bound as
before, and `key` is bound to another object, deleted, or inserted, so that its
binding is no longer the snapshotted one.  The check returns `2` and leaves the
guard as it was. -/
theorem guard_dict_check_fails_after_watched_mutation (heap heap' : Heap)
    (guard : GuardDictObject) (p : Nat) (key : PyObject)
    (hd : guard.dict = some p)
    (hcached : guard.dict_version = (heap p).ma_version_tag)
    (hpass : ∀ pair ∈ guard.pairs, Unchanged (heap p) pair)
    (hkey : key ∈ guard_dict_get_keys guard)
    (hver : (heap' p).ma_version_tag ≠ (heap p).ma_version_tag)
    (hother : ∀ k, k ≠ key → (heap' p).getitem k = (heap p).getitem k)
    (hnew : ∀ e, (heap' p).getitem key = .raised e → e = PyExc.KeyError)
    (hchanged : (heap' p).getitem key ≠ (heap p).getitem key) :
    guard_dict_check heap' guard = some (2, guard) := by
  have hmem : ∃ q ∈ guard.pairs, q.key = key := by
    simpa [guard_dict_get_keys] using hkey
  have hnil : guard.pairs ≠ [] := by
    obtain ⟨q, hq, _⟩ := hmem
    exact List.ne_nil_of_mem hq
  have hat : ∀ q ∈ guard.pairs, q.key = key → check_dict_pair_guard (heap' p) q = 2 := by
    intro q hq hk
    apply check_dict_pair_guard_changed
    · rw [hk]; exact hnew
    · intro hu
      have h1 := hpass q hq
      unfold Unchanged at hu h1
      rw [hk] at hu h1
      exact hchanged (hu.trans h1.symm)
  have hall : ∀ q ∈ guard.pairs,
      check_dict_pair_guard (heap' p) q = 0 ∨ check_dict_pair_guard (heap' p) q = 2 := by
    intro q hq
    by_cases hk : q.key = key
    · exact Or.inr (hat q hq hk)
    · left
      rw [check_dict_pair_guard_congr (heap p) (heap' p) q (hother q.key hk)]
      exact (check_dict_pair_guard_eq_zero_iff (heap p) q).2 (hpass q hq)
  have h2 : guard_dict_check_pairs (heap' p) guard.pairs = 2 := by
    apply guard_dict_check_pairs_eq_two _ _ hall
    obtain ⟨q, hq, hk⟩ := hmem
    exact ⟨q, hq, hat q hq hk⟩
  rw [guard_dict_check_eq heap' guard p hd, h2, hcached]
  simp [hver, hnil]

theorem heapX2_other_keys (k : PyObject) (hk : k ≠ PyObject.unicode "x") :
    (heapX2 7).getitem k = (heapY99 7).getitem k := by
  cases k with
  | unicode s =>
    have hs : s ≠ "x" := fun h => hk (by rw [h])
    have hb : (s == "x") = false := by simpa using hs
    simp [heapX2, heapY99, heapWith, plainDict, List.lookup, hb]
  | dict a => rfl
  | type a => rfl
  | object a t => rfl

/-- Witness of C3 on `{x: 1, y: 99}` at version `2`, watched key `x`, after
`x = 2`. -/
theorem guard_dict_check_fails_after_watched_mutation_witness :
    guard_dict_check heapY99 { guardX with dict_version := 2 }
        = some (0, { guardX with dict_version := 2 })
    ∧ guard_dict_check heapX2 { guardX with dict_version := 2 }
        = some (2, { guardX with dict_version := 2 }) :=
  ⟨by decide,
   guard_dict_check_fails_after_watched_mutation heapY99 heapX2
    { guardX with dict_version := 2 } 7 (PyObject.unicode "x")
    rfl (by decide) (by decide) (by decide) (by decide) heapX2_other_keys
    (fun e h => by
      rw [show (heapX2 7).getitem (PyObject.unicode "x") = GetItem.value 102 from by decide] at h
      cases h)
    (by decide)⟩

/-! ## Construction of a keyed-mapping guard -/

theorem guard_dict_init_pairs_of_str (dict : PyDictObject) (keys : List PyObject)
    (hstr : ∀ k ∈ keys, PyUnicode_Check k = true)
    (hlook : ∀ k ∈ keys, ∀ e, dict.getitem k = .raised e → e = PyExc.KeyError) :
    guard_dict_init_pairs dict keys
      = .ok (keys.map (fun k => { key := k, value := snapshot_of dict k })) := by
  induction keys with
  | nil => rfl
  | cons k rest ih =>
    have ih' := ih (fun r hr => hstr r (List.mem_cons_of_mem _ hr))
      (fun r hr => hlook r (List.mem_cons_of_mem _ hr))
    have hk := hstr k (List.mem_cons_self _ _)
    simp only [guard_dict_init_pairs, hk, Bool.not_true, Bool.false_eq_true, if_false, ih',
      List.map_cons]
    cases hg : dict.getitem k with
    | value v => simp [snapshot_of, hg]
    | raised e =>
      have he := hlook k (List.mem_cons_self _ _) e hg
      subst he
      simp [snapshot_of, hg]

theorem guard_dict_init_pairs_ok (dict : PyDictObject) (keys : List PyObject)
    (pairs : List GuardDictPair) (h : guard_dict_init_pairs dict keys = .ok pairs) :
    (∀ k ∈ keys, PyUnicode_Check k = true)
      ∧ (∀ k ∈ keys, ∀ e, dict.getitem k = .raised e → e = PyExc.KeyError) := by
  induction keys generalizing pairs with
  | nil => simp
  | cons k rest ih =>
    simp only [guard_dict_init_pairs] at h
    by_cases hk : PyUnicode_Check k = true
    · simp only [hk, Bool.not_true, Bool.false_eq_true, if_false] at h
      cases hg : dict.getitem k with
      | value v =>
        rw [hg] at h
        cases hr : guard_dict_init_pairs dict rest with
        | error e' => rw [hr] at h; cases h
        | ok ps =>
          obtain ⟨h1, h2⟩ := ih ps hr
          refine ⟨?_, ?_⟩
          · intro r hr'
            rcases List.mem_cons.1 hr' with rfl | hr''
            · exact hk
            · exact h1 r hr''
          · intro r hr' e he
            rcases List.mem_cons.1 hr' with rfl | hr''
            · rw [hg] at he; cases he
            · exact h2 r hr'' e he
      | raised e =>
        rw [hg] at h
        by_cases he : e = PyExc.KeyError
        · subst he
          simp only [ne_eq, not_true_eq_false, if_false] at h
          cases hr : guard_dict_init_pairs dict rest with
          | error e' => rw [hr] at h; cases h
          | ok ps =>
            obtain ⟨h1, h2⟩ := ih ps hr
            refine ⟨?_, ?_⟩
            · intro r hr'
              rcases List.mem_cons.1 hr' with rfl | hr''
              · exact hk
              · exact h1 r hr''
            · intro r hr' e he
              rcases List.mem_cons.1 hr' with rfl | hr''
              · rw [hg] at he; cases he; rfl
              · exact h2 r hr'' e he
        · simp [he] at h
    · simp [hk] at h

theorem snapshot_of_unchanged (dict : PyDictObject) (k : PyObject)
    (hlook : ∀ e, dict.getitem k = .raised e → e = PyExc.KeyError) :
    Unchanged dict { key := k, value := snapshot_of dict k } := by
  unfold Unchanged snapshot_of
  cases hg : dict.getitem k with
  | value v => rfl
  | raised e =>
    have := hlook e hg
    subst this
    rfl

/-- A successful `guard_dict_init_keys`, spelled out. -/
theorem guard_dict_init_keys_ok (heap : Heap) (self : GuardDictObject) (dict first_key : Nat)
    (keys : KeysArg) (h : (guard_dict_init_keys heap self dict first_key keys).ret = 0) :
    ∃ items, keys = .tuple items ∧ first_key < items.length
      ∧ (∀ k ∈ items.drop first_key, PyUnicode_Check k = true)
      ∧ (∀ k ∈ items.drop first_key, ∀ e, (heap dict).getitem k = .raised e → e = PyExc.KeyError)
      ∧ guard_dict_init_keys heap self dict first_key keys
          = { ret := 0,
              self := { dict := some dict, dict_version := (heap dict).ma_version_tag,
                        pairs := (items.drop first_key).map
                          (fun k => { key := k, value := snapshot_of (heap dict) k }) },
              exc := none } := by
  cases keys with
  | nontuple o => simp [guard_dict_init_keys] at h
  | tuple items =>
    refine ⟨items, rfl, ?_⟩
    unfold guard_dict_init_keys at h ⊢
    simp only at h ⊢
    by_cases hlen : (items.length : Int) - (first_key : Int) ≤ 0
    · simp [hlen] at h
    · simp only [hlen, if_false] at h ⊢
      cases hr : guard_dict_init_pairs (heap dict) (items.drop first_key) with
      | error e => rw [hr] at h; simp at h
      | ok pairs =>
        obtain ⟨h1, h2⟩ := guard_dict_init_pairs_ok _ _ _ hr
        have hp := guard_dict_init_pairs_of_str _ _ h1 h2
        rw [hr] at hp
        injection hp with hp
        subst hp
        refine ⟨by omega, h1, h2, ?_⟩
        simp [guard_dict_clear]

theorem guard_dict_init_keys_of_str (heap : Heap) (self : GuardDictObject)
    (dict first_key : Nat) (items : List PyObject)
    (hfk : first_key < items.length)
    (hstr : ∀ k ∈ items.drop first_key, PyUnicode_Check k = true)
    (hlook : ∀ k ∈ items.drop first_key, ∀ e,
      (heap dict).getitem k = .raised e → e = PyExc.KeyError) :
    guard_dict_init_keys heap self dict first_key (.tuple items)
      = { ret := 0,
          self := { dict := some dict, dict_version := (heap dict).ma_version_tag,
                    pairs := (items.drop first_key).map
                      (fun k => { key := k, value := snapshot_of (heap dict) k }) },
          exc := none } := by
  have hlen : ¬ ((items.length : Int) - (first_key : Int) ≤ 0) := by omega
  unfold guard_dict_init_keys
  simp only [hlen, if_false, guard_dict_init_pairs_of_str _ _ hstr hlook]

/-- C7, as amended: for every dictionary, every key tuple and every offset
`first_key` below its length such that the keys from `first_key` on are all
strings and each of their lookups answers a value or `KeyError`, construction
succeeds; the guard holds `n - first_key` pairs, the `i`-th being
`keys[first_key + i]` with the value just looked up (`NULL` for a missing key),
each pair bound in the dictionary as snapshotted; its `dict` is the dictionary
and its `dict_version` the dictionary's version; the getter `keys` returns the
keys from `first_key` on in order; and `guard_dict_init` is this construction
with offset `1` over its argument tuple. -/
theorem guard_dict_init_keys_snapshot (heap : Heap) (self : GuardDictObject)
    (dict first_key : Nat) (items : List PyObject)
    (hfk : first_key < items.length)
    (hstr : ∀ k ∈ items.drop first_key, PyUnicode_Check k = true)
    (hlook : ∀ k ∈ items.drop first_key, ∀ e,
      (heap dict).getitem k = .raised e → e = PyExc.KeyError) :
    (guard_dict_init_keys heap self dict first_key (.tuple items)).ret = 0
    ∧ (guard_dict_init_keys heap self dict first_key (.tuple items)).exc = none
    ∧ (guard_dict_init_keys heap self dict first_key (.tuple items)).self.dict = some dict
    ∧ (guard_dict_init_keys heap self dict first_key (.tuple items)).self.dict_version
        = (heap dict).ma_version_tag
    ∧ (guard_dict_init_keys heap self dict first_key (.tuple items)).self.npair
        = items.length - first_key
    ∧ (∀ i, i < items.length - first_key → ∃ k, items[first_key + i]? = some k
        ∧ (guard_dict_init_keys heap self dict first_key (.tuple items)).self.pairs[i]?
            = some { key := k, value := snapshot_of (heap dict) k })
    ∧ (∀ pair ∈ (guard_dict_init_keys heap self dict first_key (.tuple items)).self.pairs,
        Unchanged (heap dict) pair)
    ∧ guard_dict_get_keys (guard_dict_init_keys heap self dict first_key (.tuple items)).self
        = items.drop first_key
    ∧ (first_key = 1 → (∃ rest, items = .dict dict :: rest) →
        guard_dict_init heap self items none
          = guard_dict_init_keys heap self dict 1 (.tuple items)) := by
  rw [guard_dict_init_keys_of_str heap self dict first_key items hfk hstr hlook]
  refine ⟨rfl, rfl, rfl, rfl, ?_, ?_, ?_, ?_, ?_⟩
  · simp [GuardDictObject.npair]
  · intro i hi
    have hlt : first_key + i < items.length := by omega
    refine ⟨items[first_key + i], List.getElem?_eq_getElem hlt, ?_⟩
    simp only [List.getElem?_map, List.getElem?_drop, List.getElem?_eq_getElem hlt,
      Option.map_some']
  · intro pair hp
    simp only [List.mem_map] at hp
    obtain ⟨k, hk, rfl⟩ := hp
    exact snapshot_of_unchanged (heap dict) k (hlook k hk)
  · simp [guard_dict_get_keys, Function.comp_def]
  · rintro h1 ⟨rest, rfl⟩
    subst h1
    simp [guard_dict_init, PyDict_Check]

/-- Witness of C7, as amended: `GuardDict({x: 1, y: 2}, "x", "z")`, whose argument
tuple is read from offset `1`; `z` is missing and is snapshotted as `NULL`. -/
theorem guard_dict_init_keys_snapshot_witness :
    (guard_dict_init_keys heapXY guard_dict_new 7 1
        (.tuple [.dict 7, .unicode "x", .unicode "z"])).self
      = { dict := some 7, dict_version := 1,
          pairs := [{ key := .unicode "x", value := some 101 },
                    { key := .unicode "z", value := none }] }
    ∧ (guard_dict_init_keys heapXY guard_dict_new 7 1
        (.tuple [.dict 7, .unicode "x", .unicode "z"])).ret = 0 :=
  ⟨by decide,
   (guard_dict_init_keys_snapshot heapXY guard_dict_new 7 1
      [.dict 7, .unicode "x", .unicode "z"] (by decide) (by decide)
      (by
        intro k hk e he
        have hk' : k = .unicode "x" ∨ k = .unicode "z" := by simpa using hk
        rcases hk' with rfl | rfl
        · rw [show (heapXY 7).getitem (PyObject.unicode "x") = GetItem.value 101
            from by decide] at he
          cases he
        · rw [show (heapXY 7).getitem (PyObject.unicode "z") = GetItem.raised PyExc.KeyError
            from by decide] at he
          cases he
          rfl)).1⟩

/-- Counterexample to C7 as stated: the key tuple `("x",)` holds one string and
the offset is `0`, yet construction over a dictionary whose lookup raises
`RuntimeError` fails, with that exception, and leaves the guard as it was. -/
theorem guard_dict_init_keys_lookup_error :
    (∀ k ∈ [PyObject.unicode "x"].drop 0, PyUnicode_Check k = true)
    ∧ guard_dict_init_keys (heapWith (brokenDict 1)) guard_dict_new 7 0
        (.tuple [.unicode "x"])
      = { ret := -1, self := guard_dict_new, exc := some PyExc.RuntimeError } := by
  decide

/-- C8, as amended: construction with no key at or after the offset `first_key`
fails (status `-1`, guard untouched), and the exception set is `TypeError`
(`keys must at least contain one key`), not `ValueError`. -/
theorem guard_dict_init_keys_no_key (heap : Heap) (self : GuardDictObject)
    (dict first_key : Nat) (items : List PyObject) (hlen : items.length ≤ first_key) :
    guard_dict_init_keys heap self dict first_key (.tuple items)
      = { ret := -1, self := self, exc := some PyExc.TypeError } := by
  have h : (items.length : Int) - (first_key : Int) ≤ 0 := by omega
  simp [guard_dict_init_keys, h]

/-- Witness of C8, as amended: the argument tuple of `GuardDict({x: 1, y: 2})`
read from offset `1`. -/
theorem guard_dict_init_keys_no_key_witness :
    guard_dict_init_keys heapXY guard_dict_new 7 1 (.tuple [.dict 7])
      = { ret := -1, self := guard_dict_new, exc := some PyExc.TypeError } :=
  guard_dict_init_keys_no_key heapXY guard_dict_new 7 1 [.dict 7] (by decide)

/-- Counterexample to C8 as stated: `GuardGlobals()`-style construction with the
empty key tuple at offset `0` fails with `TypeError`, which is not
`ValueError`; so does `GuardDict(d)` through `guard_dict_init`. -/
theorem guard_dict_init_keys_empty_is_type_error :
    (guard_dict_init_keys heapXY guard_dict_new 7 0 (.tuple [])).ret = -1
    ∧ (guard_dict_init_keys heapXY guard_dict_new 7 0 (.tuple [])).exc = some PyExc.TypeError
    ∧ (guard_dict_init_keys heapXY guard_dict_new 7 0 (.tuple [])).exc ≠ some PyExc.ValueError
    ∧ (guard_dict_init heapXY guard_dict_new [.dict 7] none).exc = some PyExc.TypeError := by
  decide

theorem guard_dict_init_pairs_of_nonstr (dict : PyDictObject) (keys : List PyObject)
    (hlook : ∀ k, PyUnicode_Check k = true → ∀ e,
      dict.getitem k = .raised e → e = PyExc.KeyError)
    (hex : ∃ k ∈ keys, PyUnicode_Check k = false) :
    guard_dict_init_pairs dict keys = .error PyExc.TypeError := by
  induction keys with
  | nil => simp at hex
  | cons k rest ih =>
    simp only [guard_dict_init_pairs]
    by_cases hk : PyUnicode_Check k = true
    · have hrest : ∃ r ∈ rest, PyUnicode_Check r = false := by
        obtain ⟨r, hr, hr'⟩ := hex
        rcases List.mem_cons.1 hr with rfl | hr''
        · rw [hk] at hr'; cases hr'
        · exact ⟨r, hr'', hr'⟩
      simp only [hk, Bool.not_true, Bool.false_eq_true, if_false, ih hrest]
      cases hg : dict.getitem k with
      | value v => rfl
      | raised e =>
        have he := hlook k hk e hg
        subst he
        simp
    · simp [hk]

theorem mem_drop_iff_index (items : List PyObject) (first_key : Nat) (P : PyObject → Prop) :
    (∃ k ∈ items.drop first_key, P k)
      ↔ ∃ i k, first_key ≤ i ∧ items[i]? = some k ∧ P k := by
  constructor
  · rintro ⟨k, hk, hP⟩
    obtain ⟨n, hn⟩ := List.mem_iff_getElem?.1 hk
    rw [List.getElem?_drop] at hn
    exact ⟨first_key + n, k, Nat.le_add_right _ _, hn, hP⟩
  · rintro ⟨i, k, hi, hk, hP⟩
    refine ⟨k, List.mem_iff_getElem?.2 ⟨i - first_key, ?_⟩, hP⟩
    rw [List.getElem?_drop]
    have : first_key + (i - first_key) = i := by omega
    rw [this]
    exact hk

/-- C9: for a key tuple with a key at or after `first_key`, and a dictionary
whose lookup of a string key answers a value or `KeyError`,
`guard_dict_init_keys` fails with `TypeError` exactly when some key at an index
`≥ first_key` is not a string, and succeeds otherwise; the keys before
`first_key` are not looked at: two tuples with the same keys from `first_key` on
give the same result. -/
theorem guard_dict_init_keys_type_error_iff (heap : Heap) (self : GuardDictObject)
    (dict first_key : Nat) (items : List PyObject)
    (hne : first_key < items.length)
    (hlook : ∀ k, PyUnicode_Check k = true → ∀ e,
      (heap dict).getitem k = .raised e → e = PyExc.KeyError) :
    (((guard_dict_init_keys heap self dict first_key (.tuple items)).ret = -1
        ∧ (guard_dict_init_keys heap self dict first_key (.tuple items)).exc
            = some PyExc.TypeError)
      ↔ ∃ i k, first_key ≤ i ∧ items[i]? = some k ∧ PyUnicode_Check k = false)
    ∧ ((guard_dict_init_keys heap self dict first_key (.tuple items)).ret = 0
      ↔ ¬ ∃ i k, first_key ≤ i ∧ items[i]? = some k ∧ PyUnicode_Check k = false)
    ∧ (∀ items' : List PyObject, items'.drop first_key = items.drop first_key →
        guard_dict_init_keys heap self dict first_key (.tuple items')
          = guard_dict_init_keys heap self dict first_key (.tuple items)) := by
  have hlen : ¬ ((items.length : Int) - (first_key : Int) ≤ 0) := by omega
  rw [← mem_drop_iff_index items first_key (fun k => PyUnicode_Check k = false)]
  by_cases hex : ∃ k ∈ items.drop first_key, PyUnicode_Check k = false
  · have hfail : guard_dict_init_keys heap self dict first_key (.tuple items)
        = { ret := -1, self := self, exc := some PyExc.TypeError } := by
      unfold guard_dict_init_keys
      simp only [hlen, if_false, guard_dict_init_pairs_of_nonstr _ _ hlook hex]
    refine ⟨?_, ?_, ?_⟩
    · rw [hfail]; simp [hex]
    · rw [hfail]; simp [hex]
    · intro items' hdrop
      have hlen' : ¬ ((items'.length : Int) - (first_key : Int) ≤ 0) := by
        have h1 : (items'.drop first_key).length = (items.drop first_key).length := by
          rw [hdrop]
        simp only [List.length_drop] at h1
        omega
      unfold guard_dict_init_keys
      simp only [hlen, hlen', if_false, hdrop]
  · have hstr : ∀ k ∈ items.drop first_key, PyUnicode_Check k = true := by
      intro k hk
      by_contra hc
      exact hex ⟨k, hk, by simpa using hc⟩
    have hok := guard_dict_init_keys_of_str heap self dict first_key items hne hstr
      (fun k hk e he => hlook k (hstr k hk) e he)
    refine ⟨?_, ?_, ?_⟩
    · rw [hok]; simp [hex]
    · rw [hok]; simp [hex]
    · intro items' hdrop
      have hlen' : ¬ ((items'.length : Int) - (first_key : Int) ≤ 0) := by
        have h1 : (items'.drop first_key).length = (items.drop first_key).length := by
          rw [hdrop]
        simp only [List.length_drop] at h1
        omega
      unfold guard_dict_init_keys
      simp only [hlen, hlen', if_false, hdrop]

theorem plainDict_lookup (version : Nat) (items : List (String × Nat)) (k : PyObject)
    (e : PyExc) (h : (plainDict version items).getitem k = .raised e) :
    e = PyExc.KeyError := by
  unfold plainDict at h
  cases k with
  | unicode s =>
    simp only at h
    cases hl : List.lookup s items with
    | none => rw [hl] at h; injection h with h; exact h.symm
    | some v => rw [hl] at h; cases h
  | dict a => injection h with h; exact h.symm
  | type a => injection h with h; exact h.symm
  | object a t => injection h with h; exact h.symm

/-- Witness of C9: `GuardDict({x: 1, y: 2}, "x", 5)`: the argument tuple is read
from offset `1`, so the dictionary at index `0` is not looked at, and the integer
at index `2` makes construction fail with `TypeError`. -/
theorem guard_dict_init_keys_type_error_iff_witness :
    (guard_dict_init_keys heapXY guard_dict_new 7 1
        (.tuple [.dict 7, .unicode "x", .object 105 50])).ret = -1
    ∧ (guard_dict_init_keys heapXY guard_dict_new 7 1
        (.tuple [.dict 7, .unicode "x", .object 105 50])).exc = some PyExc.TypeError :=
  (guard_dict_init_keys_type_error_iff heapXY guard_dict_new 7 1
    [.dict 7, .unicode "x", .object 105 50] (by decide)
    (fun k _ e he => plainDict_lookup 1 [("x", 101), ("y", 102)] k e he)).1.2
    ⟨2, .object 105 50, by decide, by decide, by decide⟩

/-! ## The check of an argument-type guard -/

theorem guard_arg_type_check_types_eq_zero_iff (type : Nat) (arg_types : List Nat) :
    guard_arg_type_check_types type arg_types = 0 ↔ type ∈ arg_types := by
  induction arg_types with
  | nil => simp [guard_arg_type_check_types]
  | cons t rest ih =>
    simp only [guard_arg_type_check_types, List.mem_cons]
    by_cases h : t = type
    · simp [h]
    · have h' : ¬ type = t := fun e => h e.symm
      simp [h, h', ih]

/-- C10: `guard_arg_type_check` returns `0` exactly when there is no keyword
argument (`kwnames` is `NULL` or empty), `arg_index < nargs`, the argument
`stack[arg_index]` exists and the address of its exact type is one of the
entries of `arg_types`; an argument whose type is not among the entries never
passes, whatever relation (such as subclassing) its type has to an entry; and
the result is the same for two argument arrays that hold the same object at
`arg_index`, and for two non-empty tuples of keyword names. -/
theorem guard_arg_type_check_pass_iff (guard : GuardArgTypeObject) (stack : List PyObject)
    (nargs : Int) (kwnames : Option (List PyObject)) :
    (guard_arg_type_check guard stack nargs kwnames = some 0
      ↔ (kwnames = none ∨ kwnames = some []) ∧ guard.arg_index < nargs
        ∧ ∃ arg, stack_at stack guard.arg_index = some arg
            ∧ Py_TYPE arg ∈ guard.arg_types)
    ∧ (∀ (related : Nat → Nat → Prop) (arg : PyObject),
        stack_at stack guard.arg_index = some arg → Py_TYPE arg ∉ guard.arg_types →
        (∃ t ∈ guard.arg_types, related (Py_TYPE arg) t) →
        guard_arg_type_check guard stack nargs kwnames ≠ some 0)
    ∧ (∀ stack' : List PyObject,
        stack_at stack' guard.arg_index = stack_at stack guard.arg_index →
        guard_arg_type_check guard stack' nargs kwnames
          = guard_arg_type_check guard stack nargs kwnames)
    ∧ (∀ kw kw' : List PyObject, kw ≠ [] → kw' ≠ [] →
        guard_arg_type_check guard stack nargs (some kw)
          = guard_arg_type_check guard stack nargs (some kw')) := by
  have key : guard_arg_type_check guard stack nargs kwnames = some 0
      ↔ (kwnames = none ∨ kwnames = some []) ∧ guard.arg_index < nargs
        ∧ ∃ arg, stack_at stack guard.arg_index = some arg
            ∧ Py_TYPE arg ∈ guard.arg_types := by
    unfold guard_arg_type_check
    by_cases hkw : kwnames.isSome ∧ (kwnames.getD []).length ≠ 0
    · have hno : ¬ (kwnames = none ∨ kwnames = some []) := by
        rintro (h | h)
        · rw [h] at hkw; simp at hkw
        · rw [h] at hkw; simp at hkw
      simp [hkw, hno]
    · have hyes : kwnames = none ∨ kwnames = some [] := by
        cases kwnames with
        | none => exact Or.inl rfl
        | some kw =>
          cases kw with
          | nil => exact Or.inr rfl
          | cons a l => simp at hkw
      simp only [hkw, if_false, hyes, true_and]
      by_cases hn : guard.arg_index ≥ nargs
      · have : ¬ guard.arg_index < nargs := by omega
        simp [hn, this]
      · have hlt : guard.arg_index < nargs := by omega
        simp only [hn, if_false, hlt, true_and]
        cases hs : stack_at stack guard.arg_index with
        | none => simp
        | some arg =>
          simp only [Option.some.injEq, exists_eq_left']
          exact guard_arg_type_check_types_eq_zero_iff _ _
  refine ⟨key, ?_, ?_, ?_⟩
  · intro related arg harg hnot _ hpass
    obtain ⟨_, _, arg', harg', hmem⟩ := key.1 hpass
    rw [harg] at harg'
    injection harg' with harg'
    subst harg'
    exact hnot hmem
  · intro stack' hsame
    unfold guard_arg_type_check
    rw [hsame]
  · intro kw kw' hkw hkw'
    unfold guard_arg_type_check
    simp [hkw, hkw']

/-- Witness of C10: the second of three positional arguments has the type at
address `30`, which the guard allows. -/
theorem guard_arg_type_check_pass_iff_witness :
    guard_arg_type_check guardArg1 stack3 3 none = some 0 :=
  (guard_arg_type_check_pass_iff guardArg1 stack3 3 none).1.2
    ⟨Or.inl rfl, by decide, .object 202 30, by decide, by decide⟩

/-! ## Histories of mutations and checks -/

/-- What one `guard_dict_check` does to an initialised guard: it has a result,
keeps `dict` and `pairs`, changes `dict_version` only to the dictionary's version
and only when every watched key is bound as snapshotted, and passes only on
equal versions or unchanged bindings. -/
theorem guard_dict_check_spec (heap : Heap) (guard : GuardDictObject) (p : Nat)
    (hd : guard.dict = some p) (hne : guard.pairs ≠ []) :
    ∃ res guard', guard_dict_check heap guard = some (res, guard')
      ∧ guard'.dict = some p ∧ guard'.pairs = guard.pairs
      ∧ (guard' = guard ∨ (guard'.dict_version = (heap p).ma_version_tag
            ∧ ∀ pair ∈ guard.pairs, Unchanged (heap p) pair))
      ∧ (res = 0 → (heap p).ma_version_tag = guard.dict_version
            ∨ ∀ pair ∈ guard.pairs, Unchanged (heap p) pair)
      ∧ ((∀ pair ∈ guard.pairs, Unchanged (heap p) pair) → res = 0) := by
  rw [guard_dict_check_eq heap guard p hd]
  by_cases hv : (heap p).ma_version_tag = guard.dict_version
  · exact ⟨0, guard, by simp [hv], hd, rfl, Or.inl rfl, fun _ => Or.inl hv, fun _ => rfl⟩
  · by_cases h0 : guard_dict_check_pairs (heap p) guard.pairs = 0
    · have hall := (guard_dict_check_pairs_eq_zero_iff (heap p) guard.pairs).1 h0
      exact ⟨0, { guard with dict_version := (heap p).ma_version_tag },
        by simp [hv, hne, h0], hd, rfl, Or.inr ⟨rfl, hall⟩, fun _ => Or.inr hall, fun _ => rfl⟩
    · refine ⟨guard_dict_check_pairs (heap p) guard.pairs, guard, by simp [hv, hne, h0], hd,
        rfl, Or.inl rfl, fun h => absurd h h0, fun hall => ?_⟩
      exact (guard_dict_check_pairs_eq_zero_iff (heap p) guard.pairs).2 hall

theorem runEvents_invariant (p : Nat) (pairs0 : List GuardDictPair) (hne : pairs0 ≠ []) :
    ∀ (es : List Event) (seen : List Nat) (heap : Heap) (guard : GuardDictObject),
      guard.dict = some p → guard.pairs = pairs0 →
      guard.dict_version ∈ (heap p).ma_version_tag :: seen →
      ((heap p).ma_version_tag = guard.dict_version →
        ∀ pair ∈ pairs0, Unchanged (heap p) pair) →
      VersionDiscipline p seen heap es →
      (runEvents heap guard es).2.dict = some p
      ∧ (runEvents heap guard es).2.pairs = pairs0
      ∧ (((runEvents heap guard es).1 p).ma_version_tag
            = (runEvents heap guard es).2.dict_version →
          ∀ pair ∈ pairs0, Unchanged ((runEvents heap guard es).1 p) pair) := by
  intro es
  induction es with
  | nil =>
    intro seen heap guard hd hp _ hinv _
    exact ⟨hd, hp, hinv⟩
  | cons ev es ih =>
    intro seen heap guard hd hp hseen hinv hdisc
    cases ev with
    | mutate heap' =>
      simp only [runEvents]
      simp only [VersionDiscipline] at hdisc
      obtain ⟨hchg, hctr, hrest⟩ := hdisc
      apply ih ((heap p).ma_version_tag :: seen) heap' guard hd hp _ _ hrest
      · exact List.mem_cons_of_mem _ hseen
      · intro hv
        rcases hctr with hsame | hfresh
        · have hbind : ∀ k, (heap' p).getitem k = (heap p).getitem k := by
            intro k
            by_contra hk
            exact hchg ⟨k, hk⟩ (by rw [hsame]; exact List.mem_cons_self _ _)
          intro pair hpair
          unfold Unchanged
          rw [hbind]
          exact hinv (hsame.symm.trans hv) pair hpair
        · rw [hv] at hfresh
          exact absurd hseen hfresh
    | check =>
      simp only [VersionDiscipline] at hdisc
      obtain ⟨res, guard', hc, hd', hp', hstate, _, _⟩ :=
        guard_dict_check_spec heap guard p hd (by rw [hp]; exact hne)
      simp only [runEvents, hc]
      apply ih seen heap guard' hd' (hp'.trans hp) _ _ hdisc
      · rcases hstate with rfl | ⟨hv, _⟩
        · exact hseen
        · rw [hv]; exact List.mem_cons_self _ _
      · intro hv
        rcases hstate with rfl | ⟨_, hall⟩
        · exact hinv hv
        · rw [← hp]; exact hall

/-- C1: soundness of a passing keyed-mapping guard.  Let the guard be built by
`guard_dict_init_keys` over the dictionary at `dict`, and let any sequence of
mutations and checks follow in which every mutation that changes the binding of
some key gives the dictionary a version it never had since construction, the
version being a counter that otherwise stays or moves on to a value it never
had.  Then, in the state reached: if the cached `dict_version`
is the dictionary's version, every watched key is bound as snapshotted at
construction; and if a check now returns `0`, every watched key is bound as
snapshotted at construction.  The watched pairs and `dict` are those of
construction. -/
theorem guard_dict_pass_sound (heap : Heap) (self : GuardDictObject) (dict first_key : Nat)
    (keys : KeysArg) (es : List Event) (guard0 guardN : GuardDictObject) (heapN : Heap)
    (hret : (guard_dict_init_keys heap self dict first_key keys).ret = 0)
    (hself : (guard_dict_init_keys heap self dict first_key keys).self = guard0)
    (hdisc : VersionDiscipline dict [] heap es)
    (hrun : runEvents heap guard0 es = (heapN, guardN)) :
    (guardN.dict_version = (heapN dict).ma_version_tag →
        ∀ pair ∈ guard0.pairs, Unchanged (heapN dict) pair)
    ∧ (∀ guard', guard_dict_check heapN guardN = some (0, guard') →
        ∀ pair ∈ guard0.pairs, Unchanged (heapN dict) pair)
    ∧ guardN.pairs = guard0.pairs ∧ guardN.dict = some dict
    ∧ (∀ pair ∈ guard0.pairs, Unchanged (heap dict) pair)
    ∧ guard0.dict_version = (heap dict).ma_version_tag := by
  obtain ⟨items, _, hfk, hstr, hlook, heq⟩ :=
    guard_dict_init_keys_ok heap self dict first_key keys hret
  rw [heq] at hself
  simp only at hself
  have hd0 : guard0.dict = some dict := by rw [← hself]
  have hv0 : guard0.dict_version = (heap dict).ma_version_tag := by rw [← hself]
  have hp0 : guard0.pairs = (items.drop first_key).map
      (fun k => { key := k, value := snapshot_of (heap dict) k }) := by rw [← hself]
  have hne : guard0.pairs ≠ [] := by
    rw [hp0]
    intro h
    have h' := congrArg List.length h
    simp only [List.length_map, List.length_drop, List.length_nil] at h'
    omega
  have hinit : ∀ pair ∈ guard0.pairs, Unchanged (heap dict) pair := by
    intro pair hpair
    rw [hp0] at hpair
    simp only [List.mem_map] at hpair
    obtain ⟨k, hk, rfl⟩ := hpair
    exact snapshot_of_unchanged (heap dict) k (hlook k hk)
  have hinv := runEvents_invariant dict guard0.pairs hne es [] heap guard0 hd0 rfl
    (by rw [hv0]; exact List.mem_cons_self _ _) (fun _ => hinit) hdisc
  rw [hrun] at hinv
  obtain ⟨hdN, hpN, hI⟩ := hinv
  refine ⟨fun h => hI h.symm, ?_, hpN, hdN, hinit, hv0⟩
  intro guard' hc
  obtain ⟨res, g', hc', _, _, _, hpass, _⟩ :=
    guard_dict_check_spec heapN guardN dict hdN (by rw [hpN]; exact hne)
  rw [hc] at hc'
  injection hc' with hc'
  injection hc' with hres _
  rcases hpass hres.symm with hv | hall
  · exact hI hv
  · rw [← hpN]; exact hall

/-- Witness of C1 on `GuardDict({x: 1, y: 2}, "x")` followed by `y = 99`, a check,
`x = 2`, a check, and `x = 1`, every mutation moving the version to a new value:
the check in the last state passes and `x` is bound to the snapshotted object. -/
theorem guard_dict_pass_sound_witness :
    (guard_dict_init_keys heapXY guard_dict_new 7 0 (.tuple [.unicode "x"])).ret = 0
    ∧ guard_dict_check heapX1 { guardX with dict_version := 2 }
        = some (0, { guardX with dict_version := 4 })
    ∧ Unchanged (heapX1 7) { key := .unicode "x", value := some 101 } :=
  ⟨by decide, by decide,
   (guard_dict_pass_sound heapXY guard_dict_new 7 0 (.tuple [.unicode "x"])
      [.mutate heapY99, .check, .mutate heapX2, .check, .mutate heapX1]
      guardX { guardX with dict_version := 2 } heapX1
      (by decide) (by decide)
      ⟨fun _ => by decide, Or.inr (by decide), fun _ => by decide, Or.inr (by decide),
        fun _ => by decide, Or.inr (by decide), trivial⟩
      rfl).2.1 { guardX with dict_version := 4 } (by decide)
      { key := .unicode "x", value := some 101 } (by decide)⟩

theorem checkResults_unwatched (p : Nat) (pairs0 : List GuardDictPair) (hne : pairs0 ≠ []) :
    ∀ (es : List Event) (heap : Heap) (guard : GuardDictObject),
      guard.dict = some p → guard.pairs = pairs0 →
      (∀ pair ∈ pairs0, Unchanged (heap p) pair) →
      OnlyUnwatched p (pairs0.map (fun pair => pair.key)) heap es →
      ∀ r ∈ checkResults heap guard es, r = some 0 := by
  intro es
  induction es with
  | nil =>
    intro heap guard _ _ _ _ r hr
    simp [checkResults] at hr
  | cons ev es ih =>
    intro heap guard hd hp hall hun
    cases ev with
    | mutate heap' =>
      simp only [OnlyUnwatched] at hun
      obtain ⟨hkeep, hrest⟩ := hun
      simp only [checkResults]
      apply ih heap' guard hd hp _ hrest
      intro pair hpair
      unfold Unchanged
      rw [hkeep pair.key (List.mem_map.2 ⟨pair, hpair, rfl⟩)]
      exact hall pair hpair
    | check =>
      simp only [OnlyUnwatched] at hun
      obtain ⟨res, guard', hc, hd', hp', _, _, hzero⟩ :=
        guard_dict_check_spec heap guard p hd (by rw [hp]; exact hne)
      have hres : res = 0 := hzero (by rw [hp]; exact hall)
      simp only [checkResults, hc, List.mem_cons]
      rintro r (rfl | hr)
      · rw [hres]
      · exact ih heap guard' hd' (hp'.trans hp) hall hun r hr

/-- C2: let a guard be built by `guard_dict_init_keys` over the dictionary at
`dict`, and let any sequence of mutations and checks follow in which every
mutation leaves the lookups of the watched keys as they are (any other key may
be inserted, overwritten or deleted, and the version may change or not).  Then
every check of the sequence returns `0`. -/
theorem guard_dict_unwatched_mutations_pass (heap : Heap) (self : GuardDictObject)
    (dict first_key : Nat) (keys : KeysArg) (es : List Event)
    (hret : (guard_dict_init_keys heap self dict first_key keys).ret = 0)
    (hun : OnlyUnwatched dict
      (guard_dict_get_keys (guard_dict_init_keys heap self dict first_key keys).self)
      heap es) :
    ∀ r ∈ checkResults heap (guard_dict_init_keys heap self dict first_key keys).self es,
      r = some 0 := by
  obtain ⟨items, _, hfk, hstr, hlook, heq⟩ :=
    guard_dict_init_keys_ok heap self dict first_key keys hret
  rw [heq] at hun ⊢
  simp only at hun ⊢
  refine checkResults_unwatched dict
    ((items.drop first_key).map (fun k => { key := k, value := snapshot_of (heap dict) k }))
    ?_ es heap _ rfl rfl ?_ hun
  · intro h
    have h' := congrArg List.length h
    simp only [List.length_map, List.length_drop, List.length_nil] at h'
    omega
  · intro pair hpair
    simp only [List.mem_map] at hpair
    obtain ⟨k, hk, rfl⟩ := hpair
    exact snapshot_of_unchanged (heap dict) k (hlook k hk)

theorem heapXY_to_Y99_keeps_x :
    ∀ k ∈ [PyObject.unicode "x"], (heapY99 7).getitem k = (heapXY 7).getitem k := by
  decide

theorem heapY99_to_DelY_keeps_x :
    ∀ k ∈ [PyObject.unicode "x"],
      (heapWith (plainDict 2 [("x", 101)]) 7).getitem k = (heapY99 7).getitem k := by
  decide

/-- Witness of C2 on `GuardDict({x: 1, y: 2}, "x")`: a check, `y = 99`, a check,
`del y`, a check, each mutation with a new version; all three checks pass. -/
theorem guard_dict_unwatched_mutations_pass_witness :
    checkResults heapXY
        (guard_dict_init_keys heapXY guard_dict_new 7 0 (.tuple [.unicode "x"])).self
        [.check, .mutate heapY99, .check, .mutate (heapWith (plainDict 3 [("x", 101)])), .check]
      = [some 0, some 0, some 0]
    ∧ ∀ r ∈ checkResults heapXY
        (guard_dict_init_keys heapXY guard_dict_new 7 0 (.tuple [.unicode "x"])).self
        [.check, .mutate heapY99, .check, .mutate (heapWith (plainDict 3 [("x", 101)])), .check],
        r = some 0 :=
  ⟨by decide,
   guard_dict_unwatched_mutations_pass heapXY guard_dict_new 7 0 (.tuple [.unicode "x"])
    [.check, .mutate heapY99, .check, .mutate (heapWith (plainDict 3 [("x", 101)])), .check]
    (by decide) ⟨heapXY_to_Y99_keeps_x, heapY99_to_DelY_keeps_x, trivial⟩⟩

theorem checkResults_still_failed (p : Nat) (guard : GuardDictObject)
    (hd : guard.dict = some p) (hne : guard.pairs ≠ []) :
    ∀ (es : List Event) (heap : Heap),
      (heap p).ma_version_tag ≠ guard.dict_version →
      guard_dict_check_pairs (heap p) guard.pairs = 2 →
      OnlyUnwatched p (guard_dict_get_keys guard) heap es →
      VersionAvoids p guard.dict_version es →
      ∀ r ∈ checkResults heap guard es, r = some 2 := by
  intro es
  induction es with
  | nil =>
    intro heap _ _ _ _ r hr
    simp [checkResults] at hr
  | cons ev es ih =>
    intro heap hv h2 hun hav
    cases ev with
    | mutate heap' =>
      simp only [OnlyUnwatched] at hun
      simp only [VersionAvoids] at hav
      simp only [checkResults]
      apply ih heap' hav.1 _ hun.2 hav.2
      rw [guard_dict_check_pairs_congr (heap p) (heap' p) guard.pairs
        (fun q hq => hun.1 q.key (List.mem_map.2 ⟨q, hq, rfl⟩))]
      exact h2
    | check =>
      simp only [OnlyUnwatched] at hun
      simp only [VersionAvoids] at hav
      have hc : guard_dict_check heap guard = some (2, guard) := by
        rw [guard_dict_check_eq heap guard p hd, h2]
        simp [hv, hne]
      simp only [checkResults, hc, List.mem_cons]
      rintro r (rfl | hr)
      · rfl
      · exact ih heap hv h2 hun hav r hr

theorem guard_dict_check_pairs_cases (dict : PyDictObject) (pairs : List GuardDictPair) :
    guard_dict_check_pairs dict pairs = 0 ∨ guard_dict_check_pairs dict pairs = 2
      ∨ guard_dict_check_pairs dict pairs = -1 := by
  induction pairs with
  | nil => exact Or.inl rfl
  | cons q rest ih =>
    simp only [guard_dict_check_pairs]
    rcases check_dict_pair_guard_cases dict q with h | h | h
    · simpa [h] using ih
    · simp [h]
    · simp [h]

theorem checkResults_while_differs (p : Nat) (guard : GuardDictObject)
    (hd : guard.dict = some p) :
    ∀ (es : List Event) (heap : Heap),
      SomeWatchedDiffers p guard.dict_version guard.pairs heap es →
      (∀ r ∈ checkResults heap guard es, r = some 2 ∨ r = some (-1))
      ∧ (WatchedLookupsAnswer p guard.pairs heap es →
          ∀ r ∈ checkResults heap guard es, r = some 2) := by
  intro es
  induction es with
  | nil =>
    intro heap _
    refine ⟨?_, fun _ => ?_⟩ <;> intro r hr <;> simp [checkResults] at hr
  | cons ev es ih =>
    intro heap hdiff
    cases ev with
    | mutate heap' =>
      simp only [SomeWatchedDiffers] at hdiff
      simp only [checkResults, WatchedLookupsAnswer]
      exact ih heap' hdiff
    | check =>
      simp only [SomeWatchedDiffers] at hdiff
      obtain ⟨⟨hv, q, hq, hqne⟩, hrest⟩ := hdiff
      have hne : guard.pairs ≠ [] := List.ne_nil_of_mem hq
      have h0 : guard_dict_check_pairs (heap p) guard.pairs ≠ 0 := by
        intro h0
        exact hqne ((guard_dict_check_pairs_eq_zero_iff (heap p) guard.pairs).1 h0 q hq)
      have hc : guard_dict_check heap guard
          = some (guard_dict_check_pairs (heap p) guard.pairs, guard) := by
        rw [guard_dict_check_eq heap guard p hd]
        simp [hv, hne, h0]
      obtain ⟨ih1, ih2⟩ := ih heap hrest
      refine ⟨?_, ?_⟩
      · simp only [checkResults, hc, List.mem_cons]
        rintro r (rfl | hr)
        · rcases guard_dict_check_pairs_cases (heap p) guard.pairs with h | h | h
          · exact absurd h h0
          · exact Or.inl (by rw [h])
          · exact Or.inr (by rw [h])
        · exact ih1 r hr
      · intro hans
        simp only [WatchedLookupsAnswer] at hans
        obtain ⟨hlook, hansrest⟩ := hans
        have h2 : guard_dict_check_pairs (heap p) guard.pairs = 2 := by
          apply guard_dict_check_pairs_eq_two
          · intro r hr
            by_cases hu : Unchanged (heap p) r
            · exact Or.inl ((check_dict_pair_guard_eq_zero_iff (heap p) r).2 hu)
            · exact Or.inr (check_dict_pair_guard_changed (heap p) r (hlook r hr) hu)
          · exact ⟨q, hq, check_dict_pair_guard_changed (heap p) q (hlook q hq) hqne⟩
        simp only [checkResults, hc, List.mem_cons]
        rintro r (rfl | hr)
        · rw [h2]
        · exact ih2 hansrest r hr

/-- C4, as amended: a `guard_dict_check` that returns `2` leaves the guard as it
was, and every later check returns `2` as well, whatever the mutations in
between, provided that at the time of the check some watched key is not bound as
snapshotted, the lookups of the watched keys answer a value or `KeyError`, and
the dictionary does not have the cached version; without the condition on the
lookups the later checks return `2` or `-1`, never `0`.  The same holds when the
mutations leave the watched keys bound as they were at the failing check and do
not give the dictionary the cached version.  The guard keeps no record of the
failure: in any state in which every watched key is again bound to the
snapshotted object, the check returns `0`. -/
theorem guard_dict_check_fail_not_latched (heap : Heap) (guard guard' : GuardDictObject)
    (p : Nat) (es : List Event)
    (hd : guard.dict = some p)
    (hfail : guard_dict_check heap guard = some (2, guard')) :
    guard' = guard
    ∧ (SomeWatchedDiffers p guard.dict_version guard.pairs heap es →
        (∀ r ∈ checkResults heap guard es, r = some 2 ∨ r = some (-1))
        ∧ (WatchedLookupsAnswer p guard.pairs heap es →
            ∀ r ∈ checkResults heap guard es, r = some 2))
    ∧ (OnlyUnwatched p (guard_dict_get_keys guard) heap es →
        VersionAvoids p guard.dict_version es →
        ∀ r ∈ checkResults heap guard es, r = some 2)
    ∧ (∀ heap' : Heap, (∀ pair ∈ guard.pairs, Unchanged (heap' p) pair) →
        ∃ guard'', guard_dict_check heap' guard = some (0, guard'')) := by
  have hfail' := hfail
  rw [guard_dict_check_eq heap guard p hd] at hfail'
  have hv : (heap p).ma_version_tag ≠ guard.dict_version := by
    intro hv
    simp [hv] at hfail'
  have hne : guard.pairs ≠ [] := by
    intro hne
    simp [hv, hne] at hfail'
  have h0 : guard_dict_check_pairs (heap p) guard.pairs ≠ 0 := by
    intro h0
    simp [hv, hne, h0] at hfail'
  simp only [ne_eq, hv, not_false_eq_true, if_true, hne, if_false, h0, Option.some.injEq,
    Prod.mk.injEq] at hfail'
  obtain ⟨h2, hg⟩ := hfail'
  refine ⟨hg.symm, ?_, ?_, ?_⟩
  · intro hdiff
    exact checkResults_while_differs p guard hd es heap hdiff
  · intro hun hav
    exact checkResults_still_failed p guard hd hne es heap hv h2 hun hav
  · intro heap' hall
    obtain ⟨res, g, hc, _, _, _, _, hzero⟩ := guard_dict_check_spec heap' guard p hd hne
    exact ⟨g, by rw [hc, hzero hall]⟩

theorem heapSetX2_keeps_x :
    ∀ k ∈ [PyObject.unicode "x"],
      (heapWith (plainDict 7 [("x", 102), ("y", 199)]) 7).getitem k
        = (heapSetX2 7).getitem k := by
  decide

theorem watched_x_answers (heap : Heap)
    (h : (heap 7).getitem (PyObject.unicode "x") = GetItem.value 102
      ∨ (heap 7).getitem (PyObject.unicode "x") = GetItem.value 103) :
    ∀ pair ∈ guardX.pairs, ∀ e, (heap 7).getitem pair.key = .raised e → e = PyExc.KeyError := by
  intro pair hpair e he
  have hk : pair = { key := .unicode "x", value := some 101 } := by
    simpa [guardX] using hpair
  subst hk
  rcases h with h | h <;> rw [h] at he <;> cases he

/-- Witness of C4, as amended, on `{x: 1, y: 2}` watching `x`, after `x = 2`: the
check fails, it fails again after `x = 3`, a binding other than the one at the
failing check, and once more after `y = 99`. -/
theorem guard_dict_check_fail_not_latched_witness :
    guard_dict_check heapSetX2 guardX = some (2, guardX)
    ∧ checkResults heapSetX2 guardX [.check, .mutate heapSetX3, .check] = [some 2, some 2]
    ∧ (∀ r ∈ checkResults heapSetX2 guardX [.check, .mutate heapSetX3, .check], r = some 2)
    ∧ ∀ r ∈ checkResults heapSetX2 guardX
        [.check, .mutate (heapWith (plainDict 7 [("x", 102), ("y", 199)])), .check],
        r = some 2 :=
  ⟨by decide, by decide,
   ((guard_dict_check_fail_not_latched heapSetX2 guardX guardX 7
      [.check, .mutate heapSetX3, .check] rfl (by decide)).2.1
      ⟨⟨by decide, { key := .unicode "x", value := some 101 }, by decide, by decide⟩,
       ⟨by decide, { key := .unicode "x", value := some 101 }, by decide, by decide⟩,
       trivial⟩).2
      ⟨watched_x_answers heapSetX2 (Or.inl (by decide)),
       watched_x_answers heapSetX3 (Or.inr (by decide)), trivial⟩,
   (guard_dict_check_fail_not_latched heapSetX2 guardX guardX 7
      [.check, .mutate (heapWith (plainDict 7 [("x", 102), ("y", 199)])), .check]
      rfl (by decide)).2.2.1
      ⟨heapSetX2_keeps_x, trivial⟩ ⟨by decide, trivial⟩⟩

/-- Counterexample to C4 as stated: `GuardDict({x: 1, y: 2}, "x")`; after `x = 2`
the check returns `2`; after `x = 1`, the object snapshotted, the next check
returns `0`. -/
theorem guard_dict_check_heals :
    (guard_dict_init_keys heapXY guard_dict_new 7 0 (.tuple [.unicode "x"])).ret = 0
    ∧ (guard_dict_init_keys heapXY guard_dict_new 7 0 (.tuple [.unicode "x"])).self = guardX
    ∧ checkResults heapXY guardX
        [.mutate heapSetX2, .check, .mutate heapSetX1, .check] = [some 2, some 0]
    ∧ guard_dict_check heapSetX2 guardX = some (2, guardX)
    ∧ guard_dict_check heapSetX1 guardX = some (0, { guardX with dict_version := 3 }) := by
  decide

/-! ## The argument-type guard: other statuses and construction -/

/-- C11: when the call passes at least one keyword argument, or passes no more
than `arg_index` positional arguments, `guard_arg_type_check` returns `1`,
whatever the arguments are and whatever `arg_types` holds. -/
theorem guard_arg_type_check_inapplicable (guard : GuardArgTypeObject)
    (stack : List PyObject) (nargs : Int) (kwnames : Option (List PyObject))
    (h : (∃ kw, kwnames = some kw ∧ kw ≠ []) ∨ nargs ≤ guard.arg_index) :
    guard_arg_type_check guard stack nargs kwnames = some 1 := by
  unfold guard_arg_type_check
  by_cases hkw : kwnames.isSome ∧ (kwnames.getD []).length ≠ 0
  · simp [hkw]
  · rcases h with ⟨kw, rfl, hne⟩ | hn
    · exfalso
      apply hkw
      cases kw with
      | nil => exact absurd rfl hne
      | cons a l => simp
    · have hge : guard.arg_index ≥ nargs := hn
      simp [hkw, hge]

/-- Witness of C11: a call with one keyword argument, and a call with a single
positional argument for a guard on the argument at index `1`. -/
theorem guard_arg_type_check_inapplicable_witness :
    guard_arg_type_check guardArg1 stack3 3 (some [.unicode "key"]) = some 1
    ∧ guard_arg_type_check guardArg1 [.object 201 20] 1 none = some 1 :=
  ⟨guard_arg_type_check_inapplicable guardArg1 stack3 3 (some [.unicode "key"])
      (Or.inl ⟨[.unicode "key"], rfl, by decide⟩),
   guard_arg_type_check_inapplicable guardArg1 [.object 201 20] 1 none
      (Or.inr (by decide))⟩

theorem guard_arg_type_check_types_cases (type : Nat) (arg_types : List Nat) :
    guard_arg_type_check_types type arg_types = 0
      ∨ guard_arg_type_check_types type arg_types = 1 := by
  induction arg_types with
  | nil => exact Or.inr rfl
  | cons t rest ih =>
    simp only [guard_arg_type_check_types]
    by_cases h : t = type
    · simp [h]
    · simpa [h] using ih

theorem guard_arg_type_check_never_two (guard : GuardArgTypeObject) (stack : List PyObject)
    (nargs : Int) (kwnames : Option (List PyObject)) :
    guard_arg_type_check guard stack nargs kwnames ≠ some 2 := by
  unfold guard_arg_type_check
  split
  · simp
  · split
    · simp
    · split
      · simp
      · rename_i arg _
        rcases guard_arg_type_check_types_cases (Py_TYPE arg) guard.arg_types with h | h
          <;> simp [h]

/-- C12, as amended: for a call without keyword arguments that supplies the
position `arg_index`, if the argument's type is no entry of `arg_types` then
`guard_arg_type_check` returns `1`, the status it also returns for keyword
arguments and for a missing argument, and not `2`; no call of
`guard_arg_type_check` returns `2`. -/
theorem guard_arg_type_check_mismatch (guard : GuardArgTypeObject) (stack : List PyObject)
    (nargs : Int) (kwnames : Option (List PyObject)) (arg : PyObject)
    (hkw : kwnames = none ∨ kwnames = some [])
    (hn : guard.arg_index < nargs)
    (harg : stack_at stack guard.arg_index = some arg)
    (hno : Py_TYPE arg ∉ guard.arg_types) :
    guard_arg_type_check guard stack nargs kwnames = some 1
    ∧ guard_arg_type_check guard stack nargs kwnames ≠ some 2
    ∧ (∀ kw : List PyObject, kw ≠ [] →
        guard_arg_type_check guard stack nargs (some kw)
          = guard_arg_type_check guard stack nargs kwnames)
    ∧ (∀ nargs' : Int, nargs' ≤ guard.arg_index →
        guard_arg_type_check guard stack nargs' kwnames
          = guard_arg_type_check guard stack nargs kwnames)
    ∧ (∀ (g : GuardArgTypeObject) (s : List PyObject) (n : Int) (k : Option (List PyObject)),
        guard_arg_type_check g s n k ≠ some 2) := by
  have h1 : guard_arg_type_check guard stack nargs kwnames = some 1 := by
    have hnot : ¬ (kwnames.isSome ∧ (kwnames.getD []).length ≠ 0) := by
      rcases hkw with h | h <;> simp [h]
    have hge : ¬ guard.arg_index ≥ nargs := by omega
    have hty : guard_arg_type_check_types (Py_TYPE arg) guard.arg_types = 1 := by
      rcases guard_arg_type_check_types_cases (Py_TYPE arg) guard.arg_types with h | h
      · exact absurd ((guard_arg_type_check_types_eq_zero_iff _ _).1 h) hno
      · exact h
    unfold guard_arg_type_check
    simp only [hnot, if_false, hge, harg, hty]
  refine ⟨h1, by rw [h1]; decide, ?_, ?_, guard_arg_type_check_never_two⟩
  · intro kw hne
    rw [h1]
    cases kw with
    | nil => exact absurd rfl hne
    | cons a l => simp [guard_arg_type_check]
  · intro nargs' hle
    rw [h1]
    unfold guard_arg_type_check
    have hnot : ¬ (kwnames.isSome ∧ (kwnames.getD []).length ≠ 0) := by
      rcases hkw with h | h <;> simp [h]
    have hge : guard.arg_index ≥ nargs' := hle
    simp only [hnot, if_false, hge, if_true]

/-- Witness of C12, as amended: the second argument has the type at address
`30`, and the guard allows the types at `20` and `40` only. -/
theorem guard_arg_type_check_mismatch_witness :
    guard_arg_type_check { arg_index := 1, arg_types := [20, 40] } stack3 3 none = some 1 :=
  (guard_arg_type_check_mismatch { arg_index := 1, arg_types := [20, 40] } stack3 3 none
    (.object 202 30) (Or.inl rfl) (by decide) (by decide) (by decide)).1

/-- Counterexample to C12 as stated: the first of three positional arguments
has the type at address `40`, which the guard does not allow; the check returns
`1`, not `2`, exactly as for a call with a keyword argument. -/
theorem guard_arg_type_check_mismatch_is_one :
    guard_arg_type_check { arg_index := 0, arg_types := [20, 30] } stack3 3 none = some 1
    ∧ guard_arg_type_check { arg_index := 0, arg_types := [20, 30] } stack3 3 none ≠ some 2
    ∧ guard_arg_type_check { arg_index := 0, arg_types := [20, 30] } stack3 3
        (some [.unicode "key"]) = some 1 := by
  decide

theorem guard_arg_type_init_types_ok (seq : List PyObject)
    (h : ∀ o ∈ seq, PyType_Check o = true) :
    ∃ types : List Nat, seq = types.map PyObject.type
      ∧ guard_arg_type_init_types seq = .ok types := by
  induction seq with
  | nil => exact ⟨[], rfl, rfl⟩
  | cons o rest ih =>
    obtain ⟨types, hrest, hok⟩ := ih (fun r hr => h r (List.mem_cons_of_mem _ hr))
    have ho := h o (List.mem_cons_self _ _)
    cases o with
    | type addr =>
      refine ⟨addr :: types, by rw [hrest]; rfl, ?_⟩
      simp [guard_arg_type_init_types, PyType_Check, hok]
    | unicode s => simp [PyType_Check] at ho
    | dict a => simp [PyType_Check] at ho
    | object a t => simp [PyType_Check] at ho

theorem guard_arg_type_init_types_error (seq : List PyObject)
    (h : ∃ o ∈ seq, PyType_Check o = false) :
    guard_arg_type_init_types seq = .error PyExc.TypeError := by
  induction seq with
  | nil => simp at h
  | cons o rest ih =>
    by_cases ho : PyType_Check o = true
    · have hrest : ∃ r ∈ rest, PyType_Check r = false := by
        obtain ⟨r, hr, hr'⟩ := h
        rcases List.mem_cons.1 hr with rfl | hr''
        · rw [ho] at hr'; cases hr'
        · exact ⟨r, hr'', hr'⟩
      cases o with
      | type addr => simp [guard_arg_type_init_types, PyType_Check, ih hrest]
      | unicode s => simp [PyType_Check] at ho
      | dict a => simp [PyType_Check] at ho
      | object a t => simp [PyType_Check] at ho
    · simp [guard_arg_type_init_types, ho]

/-- C13: `guard_arg_type_init` on a sequence `seq` of allowed types.  When `seq`
is empty it fails with `ValueError`; when `seq` is not empty and some item is
not a type it fails with `TypeError`; in both cases the guard is left as it
was.  Otherwise it succeeds and stores `arg_index` and the addresses of the
given types, all of them and in the given order.  A guard that it has accepted
has `nb_arg_type ≥ 1`. -/
theorem guard_arg_type_init_spec (self : GuardArgTypeObject) (arg_index : Int)
    (seq : List PyObject) :
    (seq = [] →
        guard_arg_type_init self arg_index (.iterable seq)
          = { ret := -1, self := self, exc := some PyExc.ValueError })
    ∧ (seq ≠ [] → (∃ o ∈ seq, PyType_Check o = false) →
        guard_arg_type_init self arg_index (.iterable seq)
          = { ret := -1, self := self, exc := some PyExc.TypeError })
    ∧ (seq ≠ [] → (∀ o ∈ seq, PyType_Check o = true) →
        (guard_arg_type_init self arg_index (.iterable seq)).ret = 0
        ∧ (guard_arg_type_init self arg_index (.iterable seq)).exc = none
        ∧ (guard_arg_type_init self arg_index (.iterable seq)).self.arg_index = arg_index
        ∧ (guard_arg_type_init self arg_index (.iterable seq)).self.arg_types.map PyObject.type
            = seq
        ∧ (guard_arg_type_init self arg_index (.iterable seq)).self.nb_arg_type = seq.length)
    ∧ ((guard_arg_type_init self arg_index (.iterable seq)).ret = 0 →
        1 ≤ (guard_arg_type_init self arg_index (.iterable seq)).self.nb_arg_type) := by
  have hok : seq ≠ [] → (∀ o ∈ seq, PyType_Check o = true) →
      ∃ types : List Nat, seq = types.map PyObject.type
        ∧ guard_arg_type_init self arg_index (.iterable seq)
          = { ret := 0, self := { arg_index := arg_index, arg_types := types }, exc := none } := by
    intro hne hall
    obtain ⟨types, hseq, hty⟩ := guard_arg_type_init_types_ok seq hall
    refine ⟨types, hseq, ?_⟩
    have hlen : seq.length ≠ 0 := fun h => hne (List.length_eq_zero.1 h)
    simp [guard_arg_type_init, hlen, hty]
  have herr : seq ≠ [] → (∃ o ∈ seq, PyType_Check o = false) →
      guard_arg_type_init self arg_index (.iterable seq)
        = { ret := -1, self := self, exc := some PyExc.TypeError } := by
    intro hne hex
    have hlen : seq.length ≠ 0 := fun h => hne (List.length_eq_zero.1 h)
    simp [guard_arg_type_init, hlen, guard_arg_type_init_types_error seq hex]
  refine ⟨?_, herr, ?_, ?_⟩
  · intro h
    subst h
    simp [guard_arg_type_init]
  · intro hne hall
    obtain ⟨types, hseq, heq⟩ := hok hne hall
    rw [heq]
    refine ⟨rfl, rfl, rfl, hseq.symm, ?_⟩
    simp [GuardArgTypeObject.nb_arg_type, hseq]
  · intro hret
    by_cases hne : seq = []
    · subst hne
      simp [guard_arg_type_init] at hret
    · by_cases hall : ∀ o ∈ seq, PyType_Check o = true
      · obtain ⟨types, hseq, heq⟩ := hok hne hall
        rw [heq]
        have hpos : 0 < seq.length := List.length_pos.2 hne
        simp only [GuardArgTypeObject.nb_arg_type]
        rw [hseq, List.length_map] at hpos
        exact hpos
      · have hex : ∃ o ∈ seq, PyType_Check o = false := by
          by_contra hc
          apply hall
          intro o ho
          by_contra hf
          exact hc ⟨o, ho, by simpa using hf⟩
        rw [herr hne hex] at hret
        simp at hret

/-- Witness of C13: `GuardArgType(2, (T20, T30, T20))` keeps the three entries,
the empty tuple raises `ValueError`, and a string among the types raises
`TypeError`. -/
theorem guard_arg_type_init_spec_witness :
    guard_arg_type_init guard_arg_type_new 2 (.iterable [.type 20, .type 30, .type 20])
      = { ret := 0, self := { arg_index := 2, arg_types := [20, 30, 20] }, exc := none }
    ∧ guard_arg_type_init guard_arg_type_new 2 (.iterable [])
      = { ret := -1, self := guard_arg_type_new, exc := some PyExc.ValueError }
    ∧ guard_arg_type_init guard_arg_type_new 2 (.iterable [.type 20, .unicode "int"])
      = { ret := -1, self := guard_arg_type_new, exc := some PyExc.TypeError } :=
  ⟨by decide,
   (guard_arg_type_init_spec guard_arg_type_new 2 []).1 rfl,
   (guard_arg_type_init_spec guard_arg_type_new 2 [.type 20, .unicode "int"]).2.1
     (by decide) ⟨.unicode "int", by decide, by decide⟩⟩

/-- C14, the behaviour of the code at a negative index: `GuardArgType(-1, (T20,))`
is accepted with `arg_index = -1`, and a check of that guard on a call with three
positional arguments gets past the test `arg_index >= nargs` and reads
`stack[-1]`, outside of the argument array. -/
theorem guard_arg_type_negative_index :
    guard_arg_type_init guard_arg_type_new (-1) (.iterable [.type 20])
      = { ret := 0, self := { arg_index := -1, arg_types := [20] }, exc := none }
    ∧ ¬ (0 ≤ (guard_arg_type_init guard_arg_type_new (-1) (.iterable [.type 20])).self.arg_index)
    ∧ stack_at stack3 (-1) = none
    ∧ guard_arg_type_check { arg_index := -1, arg_types := [20] } stack3 3 none = none := by
  decide

/-! ## The function-identity guard -/

/-- A successful `guard_func_init`, spelled out. -/
theorem guard_func_init_ok (funcs : Functions) (self : GuardFuncObject) (func : PyObject)
    (h : (guard_func_init funcs self func).ret = 0) :
    ∃ f, func = .object f PyFunction_Type
      ∧ guard_func_init funcs self func
          = { ret := 0, self := { func := some f, code := some (funcs f).func_code },
              exc := none } := by
  cases func with
  | unicode s => simp [guard_func_init, PyFunction_Check] at h
  | dict a => simp [guard_func_init, PyFunction_Check] at h
  | type a => simp [guard_func_init, PyFunction_Check] at h
  | object a t =>
    by_cases ht : t = PyFunction_Type
    · subst ht
      exact ⟨a, rfl, by simp [guard_func_init, PyFunction_Check]⟩
    · simp [guard_func_init, PyFunction_Check, ht] at h

/-- C15: let a guard be built by `guard_func_init` over the function `func` when
the functions were in the state `funcs0`.  In any later state `funcs`, and for
every call, `guard_func_check` returns `0` exactly when the function's current
code object is the one snapshotted, and `2` otherwise; it returns `0` right
after construction, and again in any state in which the function has the
snapshotted code object back; the result is the same for all arguments of the
call. -/
theorem guard_func_check_iff (funcs0 funcs : Functions) (self : GuardFuncObject)
    (func : PyObject) (stack : List PyObject) (nargs : Int)
    (kwnames : Option (List PyObject))
    (hret : (guard_func_init funcs0 self func).ret = 0) :
    ∃ f, func = .object f PyFunction_Type
      ∧ (guard_func_init funcs0 self func).self.func = some f
      ∧ (guard_func_init funcs0 self func).self.code = some (funcs0 f).func_code
      ∧ (guard_func_check funcs (guard_func_init funcs0 self func).self stack nargs kwnames
            = some 0 ↔ (funcs f).func_code = (funcs0 f).func_code)
      ∧ (guard_func_check funcs (guard_func_init funcs0 self func).self stack nargs kwnames
            = some 2 ↔ (funcs f).func_code ≠ (funcs0 f).func_code)
      ∧ guard_func_check funcs0 (guard_func_init funcs0 self func).self stack nargs kwnames
            = some 0
      ∧ (∀ (stack' : List PyObject) (nargs' : Int) (kwnames' : Option (List PyObject)),
          guard_func_check funcs (guard_func_init funcs0 self func).self stack' nargs' kwnames'
            = guard_func_check funcs (guard_func_init funcs0 self func).self
                stack nargs kwnames) := by
  obtain ⟨f, hf, heq⟩ := guard_func_init_ok funcs0 self func hret
  refine ⟨f, hf, ?_⟩
  rw [heq]
  refine ⟨rfl, rfl, ?_, ?_, ?_, ?_⟩
  · by_cases hc : (funcs f).func_code = (funcs0 f).func_code
    · simp [guard_func_check, hc]
    · simp [guard_func_check, hc]
  · by_cases hc : (funcs f).func_code = (funcs0 f).func_code
    · simp [guard_func_check, hc]
    · simp [guard_func_check, hc]
  · simp [guard_func_check]
  · intro stack' nargs' kwnames'
    rfl

/-- Witness of C15 on the function at address `50` with its code object at
`500`: the check passes after construction, fails once the code object is the
one at `501`, and passes again when the code object at `500` is put back. -/
theorem guard_func_check_iff_witness :
    guard_func_check (functionsWith 500)
        (guard_func_init (functionsWith 500) guard_func_new (.object 50 PyFunction_Type)).self
        stack3 3 none = some 0
    ∧ guard_func_check (functionsWith 501)
        (guard_func_init (functionsWith 500) guard_func_new (.object 50 PyFunction_Type)).self
        stack3 3 none = some 2
    ∧ ∃ f, PyObject.object 50 PyFunction_Type = .object f PyFunction_Type
        ∧ (guard_func_init (functionsWith 500) guard_func_new
            (.object 50 PyFunction_Type)).self.func = some f :=
  ⟨by decide, by decide,
   (guard_func_check_iff (functionsWith 500) (functionsWith 500) guard_func_new
      (.object 50 PyFunction_Type) stack3 3 none (by decide)).imp
      (fun _ h => ⟨h.1, h.2.1⟩)⟩

/-- C16: for a guard watching the function at `w` and an owner function at `f`,
the hook `guard_func_init_guard` returns `-1` with `ValueError` exactly when `f`
is `w`, and `0` with no exception otherwise; the guard is as it was in both
cases. -/
theorem guard_func_init_guard_iff (guard : GuardFuncObject) (w f : Nat)
    (hw : guard.func = some w) :
    (((guard_func_init_guard guard (some f)).ret = -1
        ∧ (guard_func_init_guard guard (some f)).exc = some PyExc.ValueError) ↔ f = w)
    ∧ (((guard_func_init_guard guard (some f)).ret = 0
        ∧ (guard_func_init_guard guard (some f)).exc = none) ↔ f ≠ w)
    ∧ (guard_func_init_guard guard (some f)).self = guard := by
  unfold guard_func_init_guard
  rw [hw]
  by_cases h : f = w
  · simp [h]
  · simp [h]

/-- Witness of C16: a guard on the function at `50` is rejected by the function
at `50` and accepted by the function at `51`. -/
theorem guard_func_init_guard_iff_witness :
    (guard_func_init_guard { func := some 50, code := some 500 } (some 50)).ret = -1
    ∧ (guard_func_init_guard { func := some 50, code := some 500 } (some 50)).exc
        = some PyExc.ValueError
    ∧ (guard_func_init_guard { func := some 50, code := some 500 } (some 51)).ret = 0 :=
  ⟨((guard_func_init_guard_iff { func := some 50, code := some 500 } 50 50 rfl).1.2 rfl).1,
   ((guard_func_init_guard_iff { func := some 50, code := some 500 } 50 50 rfl).1.2 rfl).2,
   by decide⟩

/-! ## The globals guard -/

/-- C17: `guard_globals_check` in a call whose frame is `frame`.  When the
frame's globals dictionary is not the guard's dictionary the result is `2` and
the guard, so its `dict_version` and its pairs, is as it was, in every state of
the dictionaries, also one in which `guard_dict_check` would pass; when it is
the guard's dictionary, the status and the guard after the call are those of
`guard_dict_check` on the same guard.  This is the check as the specification
words it. -/
theorem guard_globals_check_refines (heap : Heap) (frame : PyFrameObject)
    (guard : GuardDictObject) :
    (some frame.f_globals ≠ guard.dict →
        guard_globals_check heap (some frame) guard = some (2, guard)
        ∧ ∀ heap' : Heap, guard_globals_check heap' (some frame) guard = some (2, guard))
    ∧ (some frame.f_globals = guard.dict →
        guard_globals_check heap (some frame) guard = guard_dict_check heap guard)
    ∧ guard_globals_check heap (some frame) guard
        = globals_check_spec heap frame.f_globals guard := by
  refine ⟨?_, ?_, ?_⟩
  · intro h
    exact ⟨by simp [guard_globals_check, h], fun heap' => by simp [guard_globals_check, h]⟩
  · intro h
    simp [guard_globals_check, h]
  · by_cases h : some frame.f_globals = guard.dict
    · simp [guard_globals_check, globals_check_spec, h]
    · simp [guard_globals_check, globals_check_spec, h]

/-- Witness of C17: the guard on `x` of the dictionary at address `7` passes
`guard_dict_check`, and fails `guard_globals_check` in a frame whose globals are
at address `9`. -/
theorem guard_globals_check_refines_witness :
    guard_dict_check heapXY guardX = some (0, guardX)
    ∧ guard_globals_check heapXY (some { f_globals := 9, f_builtins := 8 }) guardX
        = some (2, guardX)
    ∧ guard_globals_check heapXY (some frameGB) guardX = guard_dict_check heapXY guardX :=
  ⟨by decide,
   ((guard_globals_check_refines heapXY { f_globals := 9, f_builtins := 8 } guardX).1
      (by decide)).1,
   (guard_globals_check_refines heapXY frameGB guardX).2.1 (by decide)⟩

/-- C18, the behaviour of the code without a frame: when `tstate->frame` is
`NULL`, `guard_globals_check` has no result (it asserts `frame != NULL` and
reads `frame->f_globals`), in every state and for every guard, whereas
`guard_builtins_check_computed` tests `frame == NULL` and returns `2`. -/
theorem guard_globals_check_no_frame (heap : Heap) (guard : GuardDictObject) :
    guard_globals_check heap none guard = none
    ∧ guard_globals_check heap none guard ≠ some (2, guard)
    ∧ ∀ b : GuardBuiltinsObject, b.init_failed = 0 →
        guard_builtins_check_computed heap none b = some (2, b) := by
  refine ⟨rfl, by simp [guard_globals_check], ?_⟩
  intro b hb
  simp [guard_builtins_check_computed, hb]

/-! ## The builtins guard -/

theorem guard_builtins_init_modified_iff (init_builtins : PyDictObject)
    (pairs : List GuardDictPair) :
    guard_builtins_init_modified init_builtins pairs = true
      ↔ ∃ pair ∈ pairs, ∃ v, PyDict_GetItem init_builtins pair.key = some v
          ∧ pair.value ≠ some v := by
  induction pairs with
  | nil => simp [guard_builtins_init_modified]
  | cons pair rest ih =>
    simp only [guard_builtins_init_modified, List.mem_cons, exists_eq_or_imp]
    cases hg : PyDict_GetItem init_builtins pair.key with
    | none => simp [ih]
    | some init_value =>
      by_cases hv : pair.value = some init_value
      · simp [hv, ih]
      · simp [hv]

theorem guard_builtins_init_shadowed_iff (pairs : List GuardDictPair) :
    guard_builtins_init_shadowed pairs = true ↔ ∃ pair ∈ pairs, pair.value ≠ none := by
  induction pairs with
  | nil => simp [guard_builtins_init_shadowed]
  | cons pair rest ih =>
    simp only [guard_builtins_init_shadowed, List.mem_cons, exists_eq_or_imp]
    by_cases hv : pair.value = none
    · simp [hv, ih]
    · simp [hv]

theorem guard_builtins_init_guard_cases (init_builtins : PyDictObject)
    (guard : GuardBuiltinsObject) (r : Int) (guard' : GuardBuiltinsObject)
    (h : guard_builtins_init_guard init_builtins guard = some (r, guard')) :
    (r = 1 ∧ guard' = { guard with init_failed := 1 })
      ∨ (r = 0 ∧ guard' = { guard with init_failed := 0 }) := by
  unfold guard_builtins_init_guard at h
  split at h
  · injection h with h
    injection h with h1 h2
    exact Or.inl ⟨h1.symm, h2.symm⟩
  · split at h
    · cases h
    · split at h
      · injection h with h
        injection h with h1 h2
        exact Or.inl ⟨h1.symm, h2.symm⟩
      · injection h with h
        injection h with h1 h2
        exact Or.inr ⟨h1.symm, h2.symm⟩

theorem guard_builtins_check_computed_init_failed (heap : Heap)
    (frame : Option PyFrameObject) (guard guard' : GuardBuiltinsObject) (res : Int)
    (h : guard_builtins_check_computed heap frame guard = some (res, guard')) :
    guard'.init_failed = guard.init_failed := by
  unfold guard_builtins_check_computed at h
  split at h
  · injection h with h; injection h with _ h2; rw [← h2]
  · split at h
    · injection h with h; injection h with _ h2; rw [← h2]
    · split at h
      · cases h
      · split at h
        · injection h with h; injection h with _ h2; rw [← h2]
        · split at h
          · injection h with h; injection h with _ h2; rw [← h2]
          · split at h
            · cases h
            · split at h
              · injection h with h; injection h with _ h2; rw [← h2]
              · split at h
                · cases h
                · injection h with h; injection h with _ h2; rw [← h2]

theorem guard_builtins_check_init_failed (heap : Heap) (init_builtins : PyDictObject)
    (frame : Option PyFrameObject) (guard guard' : GuardBuiltinsObject) (res : Int)
    (h : guard_builtins_check heap init_builtins frame guard = some (res, guard')) :
    (guard.init_failed ≠ -1 ∧ guard'.init_failed = guard.init_failed)
      ∨ (guard.init_failed = -1 ∧ (guard'.init_failed = 0 ∨ guard'.init_failed = 1)) := by
  unfold guard_builtins_check at h
  by_cases hi : guard.init_failed = -1
  · right
    refine ⟨hi, ?_⟩
    simp only [hi, if_true] at h
    cases hg : guard_builtins_init_guard init_builtins guard with
    | none => rw [hg] at h; cases h
    | some rg =>
      obtain ⟨r, g1⟩ := rg
      rw [hg] at h
      have h' := guard_builtins_check_computed_init_failed heap frame g1 guard' res h
      rcases guard_builtins_init_guard_cases init_builtins guard r g1 hg with ⟨_, rfl⟩ | ⟨_, rfl⟩
      · exact Or.inr h'
      · exact Or.inl h'
  · left
    simp only [hi, if_false] at h
    exact ⟨hi, guard_builtins_check_computed_init_failed heap frame guard guard' res h⟩

theorem guard_builtins_check_computed_returns (heap : Heap) (frame : Option PyFrameObject)
    (guard : GuardBuiltinsObject) (globals_guard : GuardDictObject)
    (hgg : guard.guard_globals = some globals_guard)
    (hgd : globals_guard.dict ≠ none) (hgp : globals_guard.pairs ≠ [])
    (hbd : guard.base.dict ≠ none) (hbp : guard.base.pairs ≠ []) :
    ∃ res guard', guard_builtins_check_computed heap frame guard = some (res, guard') := by
  obtain ⟨p, hp⟩ := Option.ne_none_iff_exists'.1 hgd
  obtain ⟨q, hq⟩ := Option.ne_none_iff_exists'.1 hbd
  obtain ⟨r1, g1, hc1, _⟩ := guard_dict_check_spec heap globals_guard p hp hgp
  obtain ⟨r2, g2, hc2, _⟩ := guard_dict_check_spec heap guard.base q hq hbp
  unfold guard_builtins_check_computed
  by_cases hf : guard.init_failed ≠ 0
  · exact ⟨2, guard, by simp [hf]⟩
  · simp only [hf, if_false]
    cases frame with
    | none => exact ⟨2, guard, rfl⟩
    | some fr =>
      simp only [hgg]
      by_cases h1 : some fr.f_globals ≠ globals_guard.dict
      · exact ⟨2, guard, by simp [h1]⟩
      · by_cases h2 : some fr.f_builtins ≠ guard.base.dict
        · exact ⟨2, guard, by simp [h1, h2]⟩
        · simp only [h1, h2, if_false, hc1, hc2]
          by_cases h3 : r1 ≠ 0
          · rw [if_pos h3]
            exact ⟨_, _, rfl⟩
          · rw [if_neg h3]
            exact ⟨_, _, rfl⟩

theorem guard_builtins_check_returns (heap : Heap) (init_builtins : PyDictObject)
    (frame : Option PyFrameObject) (guard : GuardBuiltinsObject)
    (globals_guard : GuardDictObject)
    (hgg : guard.guard_globals = some globals_guard)
    (hgd : globals_guard.dict ≠ none) (hgp : globals_guard.pairs ≠ [])
    (hbd : guard.base.dict ≠ none) (hbp : guard.base.pairs ≠ []) :
    ∃ res guard', guard_builtins_check heap init_builtins frame guard = some (res, guard') := by
  unfold guard_builtins_check
  by_cases hi : guard.init_failed = -1
  · simp only [hi, if_true]
    have hret : ∃ r g1, guard_builtins_init_guard init_builtins guard = some (r, g1) := by
      unfold guard_builtins_init_guard
      rw [hgg]
      by_cases ha : guard_builtins_init_modified init_builtins guard.base.pairs = true
      · rw [if_pos ha]
        exact ⟨_, _, rfl⟩
      · rw [if_neg ha]
        show ∃ r g1, (if guard_builtins_init_shadowed globals_guard.pairs = true then _ else _)
          = some (r, g1)
        by_cases hb : guard_builtins_init_shadowed globals_guard.pairs = true
        · rw [if_pos hb]
          exact ⟨_, _, rfl⟩
        · rw [if_neg hb]
          exact ⟨_, _, rfl⟩
    obtain ⟨r, g1, hg1⟩ := hret
    rw [hg1]
    rcases guard_builtins_init_guard_cases init_builtins guard r g1 hg1 with ⟨_, rfl⟩ | ⟨_, rfl⟩
    · exact guard_builtins_check_computed_returns heap frame _ globals_guard hgg hgd hgp hbd hbp
    · exact guard_builtins_check_computed_returns heap frame _ globals_guard hgg hgd hgp hbd hbp
  · simp only [hi, if_false]
    exact guard_builtins_check_computed_returns heap frame guard globals_guard hgg hgd hgp hbd hbp

/-- C19: the flag computed by `guard_builtins_init_guard` for a guard whose
globals guard is set.  It returns `1` and sets `init_failed` to `1` exactly when
(a) some watched name is in `init_builtins` with a value that is not the guard's
snapshot for that name (a `NULL` snapshot included), or (b) some pair of the
globals guard has a snapshot that is not `NULL`; otherwise it returns `0` and
sets `init_failed` to `0`.  When no watched name is in `init_builtins`, only (b)
decides.  After a `guard_builtins_check` that returns, `init_failed` is not
`-1`: it is `0` or `1` when it was `-1` before, and as before otherwise; and the
check does return when both guards have their dictionary and at least one
pair. -/
theorem guard_builtins_init_guard_iff (init_builtins : PyDictObject)
    (guard : GuardBuiltinsObject) (globals_guard : GuardDictObject)
    (hgg : guard.guard_globals = some globals_guard) :
    (guard_builtins_init_guard init_builtins guard = some (1, { guard with init_failed := 1 })
      ↔ (∃ pair ∈ guard.base.pairs, ∃ v, PyDict_GetItem init_builtins pair.key = some v
            ∧ pair.value ≠ some v)
          ∨ ∃ pair ∈ globals_guard.pairs, pair.value ≠ none)
    ∧ (guard_builtins_init_guard init_builtins guard = some (0, { guard with init_failed := 0 })
      ↔ ¬ ((∃ pair ∈ guard.base.pairs, ∃ v, PyDict_GetItem init_builtins pair.key = some v
              ∧ pair.value ≠ some v)
            ∨ ∃ pair ∈ globals_guard.pairs, pair.value ≠ none))
    ∧ ((∀ pair ∈ guard.base.pairs, PyDict_GetItem init_builtins pair.key = none) →
        (guard_builtins_init_guard init_builtins guard
            = some (1, { guard with init_failed := 1 })
          ↔ ∃ pair ∈ globals_guard.pairs, pair.value ≠ none))
    ∧ (∀ (heap : Heap) (frame : Option PyFrameObject) (res : Int)
        (guard' : GuardBuiltinsObject),
        guard_builtins_check heap init_builtins frame guard = some (res, guard') →
        guard'.init_failed ≠ -1
        ∧ (guard.init_failed = -1 → guard'.init_failed = 0 ∨ guard'.init_failed = 1)
        ∧ (guard.init_failed ≠ -1 → guard'.init_failed = guard.init_failed))
    ∧ (globals_guard.dict ≠ none → globals_guard.pairs ≠ [] →
        guard.base.dict ≠ none → guard.base.pairs ≠ [] →
        ∀ (heap : Heap) (frame : Option PyFrameObject),
          ∃ res guard', guard_builtins_check heap init_builtins frame guard
            = some (res, guard')) := by
  have hA := guard_builtins_init_modified_iff init_builtins guard.base.pairs
  have hB := guard_builtins_init_shadowed_iff globals_guard.pairs
  have h1 : guard_builtins_init_guard init_builtins guard
        = some (1, { guard with init_failed := 1 })
      ↔ (∃ pair ∈ guard.base.pairs, ∃ v, PyDict_GetItem init_builtins pair.key = some v
            ∧ pair.value ≠ some v)
          ∨ ∃ pair ∈ globals_guard.pairs, pair.value ≠ none := by
    rw [← hA, ← hB]
    unfold guard_builtins_init_guard
    rw [hgg]
    by_cases ha : guard_builtins_init_modified init_builtins guard.base.pairs = true
    · simp [ha]
    · by_cases hb : guard_builtins_init_shadowed globals_guard.pairs = true
      · simp [ha, hb]
      · simp [ha, hb]
  have h0 : guard_builtins_init_guard init_builtins guard
        = some (0, { guard with init_failed := 0 })
      ↔ ¬ ((∃ pair ∈ guard.base.pairs, ∃ v, PyDict_GetItem init_builtins pair.key = some v
              ∧ pair.value ≠ some v)
            ∨ ∃ pair ∈ globals_guard.pairs, pair.value ≠ none) := by
    rw [← hA, ← hB]
    unfold guard_builtins_init_guard
    rw [hgg]
    by_cases ha : guard_builtins_init_modified init_builtins guard.base.pairs = true
    · simp [ha]
    · by_cases hb : guard_builtins_init_shadowed globals_guard.pairs = true
      · simp [ha, hb]
      · simp [ha, hb]
  refine ⟨h1, h0, ?_, ?_, fun hgd hgp hbd hbp heap frame =>
    guard_builtins_check_returns heap init_builtins frame guard globals_guard hgg hgd hgp
      hbd hbp⟩
  · intro habs
    rw [h1]
    constructor
    · rintro (⟨pair, hp, v, hv, _⟩ | hb)
      · rw [habs pair hp] at hv
        cases hv
      · exact hb
    · exact Or.inr
  · intro heap frame res guard' hc
    rcases guard_builtins_check_init_failed heap init_builtins frame guard guard' res hc with
      ⟨hne, heq⟩ | ⟨hm, h01⟩
    · exact ⟨by rw [heq]; exact hne, fun h => absurd h hne, fun _ => heq⟩
    · refine ⟨?_, fun _ => h01, fun h => absurd hm h⟩
      rcases h01 with h | h <;> rw [h] <;> decide

/-- Witness of C19 on guards watching `len`, the original `len` being at `301`: a
guard that snapshotted `301` and no global gets `0`; one that snapshotted another
object, one that found no builtin `len`, and one that found a global `len` get
`1`. -/
theorem guard_builtins_init_guard_iff_witness :
    guard_builtins_init_guard initBuiltins (guardLen none (some 301))
      = some (0, { guardLen none (some 301) with init_failed := 0 })
    ∧ guard_builtins_init_guard initBuiltins (guardLen none (some 302))
      = some (1, { guardLen none (some 302) with init_failed := 1 })
    ∧ guard_builtins_init_guard initBuiltins (guardLen none none)
      = some (1, { guardLen none none with init_failed := 1 })
    ∧ guard_builtins_init_guard initBuiltins (guardLen (some 77) (some 301))
      = some (1, { guardLen (some 77) (some 301) with init_failed := 1 }) :=
  ⟨by decide, by decide, by decide,
   (guard_builtins_init_guard_iff initBuiltins (guardLen (some 77) (some 301))
      { dict := some 7, dict_version := 1,
        pairs := [{ key := .unicode "len", value := some 77 }] } rfl).1.2
      (Or.inr ⟨{ key := .unicode "len", value := some 77 }, by decide, by decide⟩)⟩

theorem guard_builtins_check_failed (heap : Heap) (init_builtins : PyDictObject)
    (frame : Option PyFrameObject) (guard : GuardBuiltinsObject)
    (h : guard.init_failed = 1) :
    guard_builtins_check heap init_builtins frame guard = some (2, guard) := by
  simp [guard_builtins_check, guard_builtins_check_computed, h]

theorem guard_builtins_check_first (heap : Heap) (init_builtins : PyDictObject)
    (frame : Option PyFrameObject) (guard : GuardBuiltinsObject)
    (h : guard.init_failed = -1)
    (hinit : guard_builtins_init_guard init_builtins guard
      = some (1, { guard with init_failed := 1 })) :
    guard_builtins_check heap init_builtins frame guard
      = some (2, { guard with init_failed := 1 }) := by
  simp [guard_builtins_check, guard_builtins_check_computed, h, hinit]

theorem builtinsCheckResults_failed (init_builtins : PyDictObject) :
    ∀ (es : List BuiltinsEvent) (heap : Heap) (guard : GuardBuiltinsObject),
      (guard.init_failed = 1
        ∨ (guard.init_failed = -1
            ∧ guard_builtins_init_guard init_builtins guard
                = some (1, { guard with init_failed := 1 }))) →
      ∀ r ∈ builtinsCheckResults init_builtins heap guard es, r = some 2 := by
  intro es
  induction es with
  | nil =>
    intro heap guard _ r hr
    simp [builtinsCheckResults] at hr
  | cons ev es ih =>
    intro heap guard hinv
    cases ev with
    | mutate heap' =>
      simp only [builtinsCheckResults]
      exact ih heap' guard hinv
    | check frame =>
      rcases hinv with h1 | ⟨hm, hinit⟩
      · simp only [builtinsCheckResults,
          guard_builtins_check_failed heap init_builtins frame guard h1, List.mem_cons]
        rintro r (rfl | hr)
        · rfl
        · exact ih heap guard (Or.inl h1) r hr
      · simp only [builtinsCheckResults,
          guard_builtins_check_first heap init_builtins frame guard hm hinit, List.mem_cons]
        rintro r (rfl | hr)
        · rfl
        · exact ih heap { guard with init_failed := 1 } (Or.inl rfl) r hr

/-- A successful `guard_builtins_init`: the flag is untouched and the globals
guard is the one that `GuardGlobals(*keys)` builds. -/
theorem guard_builtins_init_ok (heap : Heap) (self : GuardBuiltinsObject)
    (builtins : Option PyObject) (globals : Nat) (args : List PyObject)
    (kwargs : Option PyObject)
    (h : (guard_builtins_init heap self builtins (some globals) args kwargs).ret = 0) :
    (guard_builtins_init heap self builtins (some globals) args kwargs).self.init_failed
        = self.init_failed
    ∧ (guard_builtins_init heap self builtins (some globals) args kwargs).self.guard_globals
        = some (guard_dict_init_keys heap guard_dict_new globals 0 (.tuple args)).self
    ∧ (guard_dict_init_keys heap guard_dict_new globals 0 (.tuple args)).ret = 0 := by
  unfold guard_builtins_init at h ⊢
  by_cases hk : kwargs.isSome = true
  · simp [hk] at h
  · simp only [hk, Bool.false_eq_true, if_false] at h ⊢
    cases builtins with
    | none => simp at h
    | some b =>
      cases b with
      | unicode s => simp [PyDict_Check] at h
      | type a => simp [PyDict_Check] at h
      | object a t => simp [PyDict_Check] at h
      | dict baddr =>
        simp only [PyDict_Check, Bool.not_true, Bool.false_eq_true, if_false,
          guard_globals_init, Option.isSome_none] at h ⊢
        by_cases hg : (guard_dict_init_keys heap guard_dict_new globals 0 (.tuple args)).ret = 0
        · simp only [hg, ne_eq, not_true_eq_false, if_false] at h ⊢
          by_cases hb : (guard_dict_init_keys heap self.base baddr 0 (.tuple args)).ret < 0
          · simp [hb] at h
          · simp only [hb, if_false]
            exact ⟨trivial, trivial, trivial⟩
        · simp [hg] at h

/-- C20: let a builtins guard be built by `guard_builtins_new` and
`guard_builtins_init` while some watched name is bound in the globals
dictionary.  Then, whatever sequence of mutations of the dictionaries and of
checks in any frame, or in none, follows, every check returns `2`: the first
one and every later one. -/
theorem guard_builtins_shadow_permanent (heap : Heap) (init_builtins : PyDictObject)
    (builtins : Option PyObject) (globals : Nat) (args : List PyObject)
    (kwargs : Option PyObject) (es : List BuiltinsEvent)
    (hret : (guard_builtins_init heap guard_builtins_new builtins (some globals)
      args kwargs).ret = 0)
    (hshadow : ∃ k ∈ args, ∃ v, (heap globals).getitem k = .value v) :
    ∀ r ∈ builtinsCheckResults init_builtins heap
        (guard_builtins_init heap guard_builtins_new builtins (some globals) args kwargs).self
        es,
      r = some 2 := by
  obtain ⟨hflag, hgg, hgret⟩ :=
    guard_builtins_init_ok heap guard_builtins_new builtins globals args kwargs hret
  obtain ⟨items, hitems, _, _, _, heq⟩ :=
    guard_dict_init_keys_ok heap guard_dict_new globals 0 (.tuple args) hgret
  injection hitems with hitems
  subst hitems
  rw [heq] at hgg
  simp only [List.drop_zero] at hgg
  apply builtinsCheckResults_failed
  right
  refine ⟨hflag, ?_⟩
  have hsh : guard_builtins_init_shadowed
      (args.map (fun k => { key := k, value := snapshot_of (heap globals) k })) = true := by
    rw [guard_builtins_init_shadowed_iff]
    obtain ⟨k, hk, v, hv⟩ := hshadow
    refine ⟨{ key := k, value := snapshot_of (heap globals) k },
      List.mem_map.2 ⟨k, hk, rfl⟩, ?_⟩
    simp [snapshot_of, hv]
  unfold guard_builtins_init_guard
  rw [hgg]
  by_cases hm : guard_builtins_init_modified init_builtins
      (guard_builtins_init heap guard_builtins_new builtins (some globals) args
        kwargs).self.base.pairs = true
  · simp [hm]
  · simp [hm, hsh]

/-- Witness of C20: `GuardBuiltins("len")` built while the globals bind `len`; a
check, `del len` in the globals, a check in the same frame, a check in a frame
with other globals, and a check without a frame all return `2`. -/
theorem guard_builtins_shadow_permanent_witness :
    builtinsCheckResults initBuiltins heapShadow
        (guard_builtins_init heapShadow guard_builtins_new (some (.dict 8)) (some 7)
          [.unicode "len"] none).self
        [.check (some frameGB), .mutate heapUnshadow, .check (some frameGB),
         .check (some { f_globals := 9, f_builtins := 8 }), .check none]
      = [some 2, some 2, some 2, some 2]
    ∧ ∀ r ∈ builtinsCheckResults initBuiltins heapShadow
        (guard_builtins_init heapShadow guard_builtins_new (some (.dict 8)) (some 7)
          [.unicode "len"] none).self
        [.check (some frameGB), .mutate heapUnshadow, .check (some frameGB),
         .check (some { f_globals := 9, f_builtins := 8 }), .check none],
        r = some 2 :=
  ⟨by decide,
   guard_builtins_shadow_permanent heapShadow initBuiltins (some (.dict 8)) 7
    [.unicode "len"] none
    [.check (some frameGB), .mutate heapUnshadow, .check (some frameGB),
     .check (some { f_globals := 9, f_builtins := 8 }), .check none]
    (by decide) ⟨.unicode "len", by decide, 77, by decide⟩⟩

/-- C21: for a builtins guard that is not permanently failed (its flag is `0`,
or is still `-1` and `guard_builtins_init_guard` computes `0`), the check returns
`2` when there is no frame, when the frame's globals are not the dictionary of
the globals guard, and when the frame's builtins are not the guard's
dictionary; the guard after the call is the guard with its flag at `0`, so
neither its `dict_version` nor that of the globals guard is touched. -/
theorem guard_builtins_check_context_mismatch (heap : Heap) (init_builtins : PyDictObject)
    (frame : Option PyFrameObject) (guard : GuardBuiltinsObject)
    (globals_guard : GuardDictObject)
    (hgg : guard.guard_globals = some globals_guard)
    (hflag : guard.init_failed = 0
      ∨ (guard.init_failed = -1
          ∧ guard_builtins_init_guard init_builtins guard
              = some (0, { guard with init_failed := 0 })))
    (hctx : frame = none
      ∨ ∃ fr, frame = some fr
          ∧ (some fr.f_globals ≠ globals_guard.dict ∨ some fr.f_builtins ≠ guard.base.dict)) :
    guard_builtins_check heap init_builtins frame guard
        = some (2, { guard with init_failed := 0 })
    ∧ ∀ guard' : GuardBuiltinsObject,
        guard_builtins_check heap init_builtins frame guard = some (2, guard') →
        guard'.base = guard.base ∧ guard'.guard_globals = some globals_guard
        ∧ guard'.base.dict_version = guard.base.dict_version
        ∧ ∀ g, guard'.guard_globals = some g → g.dict_version = globals_guard.dict_version := by
  have hcomp : guard_builtins_check_computed heap frame { guard with init_failed := 0 }
      = some (2, { guard with init_failed := 0 }) := by
    unfold guard_builtins_check_computed
    rcases hctx with rfl | ⟨fr, rfl, hmis⟩
    · simp
    · simp only [ne_eq, not_true_eq_false, if_false, hgg]
      by_cases h1 : some fr.f_globals = globals_guard.dict
      · rcases hmis with h | h
        · exact absurd h1 h
        · simp [h1, h]
      · simp [h1]
  have hmain : guard_builtins_check heap init_builtins frame guard
      = some (2, { guard with init_failed := 0 }) := by
    unfold guard_builtins_check
    rcases hflag with h0 | ⟨hm, hinit⟩
    · have hne : guard.init_failed ≠ -1 := by rw [h0]; decide
      have hg : ({ guard with init_failed := 0 } : GuardBuiltinsObject) = guard := by
        cases guard
        simp only at h0
        subst h0
        rfl
      rw [if_neg hne]
      rw [hg] at hcomp ⊢
      exact hcomp
    · rw [if_pos hm, hinit]
      exact hcomp
  refine ⟨hmain, ?_⟩
  intro guard' h
  rw [hmain] at h
  injection h with h
  injection h with _ h
  subst h
  refine ⟨rfl, hgg, rfl, ?_⟩
  intro g hg
  rw [show ({ guard with init_failed := 0 } : GuardBuiltinsObject).guard_globals
    = guard.guard_globals from rfl, hgg] at hg
  injection hg with hg
  rw [hg]

/-- Witness of C21: a guard on `len` whose flag is still `-1` and computes to `0`,
checked without a frame, and checked in a frame whose builtins are at address
`9`. -/
theorem guard_builtins_check_context_mismatch_witness :
    guard_builtins_check heapLen initBuiltins none (guardLen none (some 301))
      = some (2, { guardLen none (some 301) with init_failed := 0 })
    ∧ guard_builtins_check heapLen initBuiltins (some { f_globals := 7, f_builtins := 9 })
        (guardLen none (some 301))
      = some (2, { guardLen none (some 301) with init_failed := 0 })
    ∧ guard_builtins_check heapLen initBuiltins (some frameGB) (guardLen none (some 301))
      = some (0, { guardLen none (some 301) with init_failed := 0 }) :=
  ⟨(guard_builtins_check_context_mismatch heapLen initBuiltins none (guardLen none (some 301))
      { dict := some 7, dict_version := 1,
        pairs := [{ key := .unicode "len", value := none }] }
      rfl (Or.inr ⟨rfl, by decide⟩) (Or.inl rfl)).1,
   (guard_builtins_check_context_mismatch heapLen initBuiltins
      (some { f_globals := 7, f_builtins := 9 }) (guardLen none (some 301))
      { dict := some 7, dict_version := 1,
        pairs := [{ key := .unicode "len", value := none }] }
      rfl (Or.inr ⟨rfl, by decide⟩)
      (Or.inr ⟨{ f_globals := 7, f_builtins := 9 }, rfl, Or.inr (by decide)⟩)).1,
   by decide⟩

/-! ## Constant substitution -/

theorem replace_consts_eq_map (mapping : PyObject → Option PyObject) (consts : List PyObject) :
    replace_consts mapping consts = consts.map (fun value => (mapping value).getD value) := by
  induction consts with
  | nil => rfl
  | cons value rest ih =>
    simp only [replace_consts, List.map_cons, ih]
    cases mapping value <;> rfl

/-- C22: `replace_consts` returns a tuple of the length of `consts` whose element
at every index `i` is the value that `mapping` gives for `consts[i]` when
`consts[i]` is one of its keys, and `consts[i]` itself when it is not; so every
occurrence of a mapped constant is replaced and every other position is as it
was. -/
theorem replace_consts_spec (mapping : PyObject → Option PyObject) (consts : List PyObject) :
    (replace_consts mapping consts).length = consts.length
    ∧ (∀ (i : Nat) (value new_value : PyObject), consts[i]? = some value →
        mapping value = some new_value →
        (replace_consts mapping consts)[i]? = some new_value)
    ∧ (∀ (i : Nat) (value : PyObject), consts[i]? = some value → mapping value = none →
        (replace_consts mapping consts)[i]? = some value)
    ∧ (∀ i : Nat, consts[i]? = none → (replace_consts mapping consts)[i]? = none) := by
  rw [replace_consts_eq_map]
  refine ⟨by simp, ?_, ?_, ?_⟩
  · intro i value new_value hi hm
    simp [List.getElem?_map, hi, hm]
  · intro i value hi hm
    simp [List.getElem?_map, hi, hm]
  · intro i hi
    simp [List.getElem?_map, hi]

/-- Witness of C22: in `(1, "s", 1, 2)` with the mapping `{1: 3}` both occurrences
of `1` become `3` and the other two constants stay. -/
theorem replace_consts_spec_witness :
    replace_consts (constMapping [(const1, const3)]) [const1, .unicode "s", const1, const2]
      = [const3, .unicode "s", const3, const2]
    ∧ (replace_consts (constMapping [(const1, const3)])
        [const1, .unicode "s", const1, const2]).length = 4 :=
  ⟨by decide,
   (replace_consts_spec (constMapping [(const1, const3)])
      [const1, .unicode "s", const1, const2]).1⟩

theorem replace_consts_of_no_key (mapping : PyObject → Option PyObject)
    (consts : List PyObject) (h : ∀ c ∈ consts, mapping c = none) :
    replace_consts mapping consts = consts := by
  induction consts with
  | nil => rfl
  | cons value rest ih =>
    simp only [replace_consts, h value (List.mem_cons_self _ _),
      ih (fun c hc => h c (List.mem_cons_of_mem _ hc))]

/-- C23: when no constant of the code object is a key of the mapping, in
particular for the empty mapping, `fat_replace_consts` yields a code object
whose constants are those of the original, element for element, and whose other
fields are those of the original.  The other fields are those of the original
for every mapping. -/
theorem fat_replace_consts_identity (code : PyCodeObject)
    (mapping : PyObject → Option PyObject)
    (h : ∀ c ∈ code.co_consts, mapping c = none) :
    fat_replace_consts code mapping = code
    ∧ (fat_replace_consts code mapping).co_consts = code.co_consts
    ∧ fat_replace_consts code (fun _ => none) = code
    ∧ (∀ mapping' : PyObject → Option PyObject,
        fat_replace_consts code mapping'
          = { code with co_consts := replace_consts mapping' code.co_consts }) := by
  have hc : replace_consts mapping code.co_consts = code.co_consts :=
    replace_consts_of_no_key mapping code.co_consts h
  have hn : replace_consts (fun _ => none) code.co_consts = code.co_consts :=
    replace_consts_of_no_key (fun _ => none) code.co_consts (fun _ _ => rfl)
  refine ⟨?_, ?_, ?_, fun _ => rfl⟩
  · simp only [fat_replace_consts, PyCode_New, hc]
  · simp only [fat_replace_consts, PyCode_New, hc]
  · simp only [fat_replace_consts, PyCode_New, hn]

/-- Witness of C23: the code object with constants `(1, "s", 1, 2)` and the
mapping `{3: 1}`, none of whose keys is a constant of the code object. -/
theorem fat_replace_consts_identity_witness :
    fat_replace_consts codeEx (constMapping [(const3, const1)]) = codeEx :=
  (fat_replace_consts_identity codeEx (constMapping [(const3, const1)]) (by decide)).1

/-- C29: constant substitution is one pass.  A constant `a` mapped to `b` becomes
`b` whatever `b` is mapped to; with `a -> b`, `b -> c` and `c` other than `b`,
substituting twice in `(a,)` differs from substituting once; substituting twice
equals substituting once for every tuple exactly when every value of the mapping
is no key of it or is mapped to itself, in particular when no value of the
mapping is a key. -/
theorem replace_consts_single_pass (mapping : PyObject → Option PyObject) :
    (∀ a b : PyObject, mapping a = some b → replace_consts mapping [a] = [b])
    ∧ (∀ a b c : PyObject, mapping a = some b → mapping b = some c → c ≠ b →
        replace_consts mapping (replace_consts mapping [a]) ≠ replace_consts mapping [a])
    ∧ ((∀ k v : PyObject, mapping k = some v → mapping v = none) →
        ∀ consts : List PyObject,
          replace_consts mapping (replace_consts mapping consts)
            = replace_consts mapping consts)
    ∧ ((∀ consts : List PyObject,
          replace_consts mapping (replace_consts mapping consts)
            = replace_consts mapping consts)
        ↔ ∀ k v : PyObject, mapping k = some v → (mapping v = none ∨ mapping v = some v)) := by
  have hidem : (∀ k v : PyObject, mapping k = some v → (mapping v = none ∨ mapping v = some v)) →
      ∀ consts : List PyObject,
        replace_consts mapping (replace_consts mapping consts)
          = replace_consts mapping consts := by
    intro hm consts
    induction consts with
    | nil => rfl
    | cons value rest ih =>
      simp only [replace_consts, ih]
      cases hv : mapping value with
      | none => simp [hv]
      | some b =>
        rcases hm value b hv with hb | hb
        · simp [hb]
        · simp [hb]
  refine ⟨?_, ?_, ?_, ?_, hidem⟩
  · intro a b hab
    simp [replace_consts, hab]
  · intro a b c hab hbc hne
    simp [replace_consts, hab, hbc, hne]
  · intro hm
    exact hidem (fun k v hkv => Or.inl (hm k v hkv))
  · intro hall k v hkv
    have h1 := hall [k]
    simp only [replace_consts, hkv] at h1
    cases hv : mapping v with
    | none => exact Or.inl rfl
    | some w =>
      rw [hv] at h1
      simp only [List.cons.injEq, and_true] at h1
      exact Or.inr (by rw [h1])

/-- Witness of C29 with the mapping `{1: 2, 2: 3}`: the constant `1` becomes `2`,
not `3`, and a second pass gives `3`. -/
theorem replace_consts_single_pass_witness :
    replace_consts (constMapping [(const1, const2), (const2, const3)]) [const1] = [const2]
    ∧ replace_consts (constMapping [(const1, const2), (const2, const3)])
        (replace_consts (constMapping [(const1, const2), (const2, const3)]) [const1])
      ≠ replace_consts (constMapping [(const1, const2), (const2, const3)]) [const1] :=
  ⟨(replace_consts_single_pass (constMapping [(const1, const2), (const2, const3)])).1
      const1 const2 (by decide),
   (replace_consts_single_pass (constMapping [(const1, const2), (const2, const3)])).2.1
      const1 const2 const3 (by decide) (by decide) (by decide)⟩

/-! ## Construction is atomic -/

theorem guard_dict_init_keys_error (heap : Heap) (self : GuardDictObject)
    (dict first_key : Nat) (keys : KeysArg)
    (h : (guard_dict_init_keys heap self dict first_key keys).ret ≠ 0) :
    (guard_dict_init_keys heap self dict first_key keys).ret = -1
    ∧ (guard_dict_init_keys heap self dict first_key keys).self = self
    ∧ (guard_dict_init_keys heap self dict first_key keys).exc ≠ none := by
  cases keys with
  | nontuple o => simp [guard_dict_init_keys]
  | tuple items =>
    unfold guard_dict_init_keys at h ⊢
    simp only at h ⊢
    by_cases hlen : (items.length : Int) - (first_key : Int) ≤ 0
    · simp [hlen]
    · simp only [hlen, if_false] at h ⊢
      cases hr : guard_dict_init_pairs (heap dict) (items.drop first_key) with
      | error e => simp
      | ok pairs => rw [hr] at h; simp at h

/-- C28: `guard_dict_init_keys` returns `0` or `-1`, and whenever it returns an
error the guard, that is its `dict`, `dict_version`, `npair` and `pairs`, is what
it was before the call, with an exception set.  It does return an error when
`keys` is not a tuple, when there is no key at or after `first_key`, when a key
at any place from `first_key` on is not a string, and when the lookup of such a
key raises something else than `KeyError`.  The guard is only replaced when
every key from `first_key` on is a string that has been looked up. -/
theorem guard_dict_init_keys_atomic (heap : Heap) (self : GuardDictObject)
    (dict first_key : Nat) (keys : KeysArg) :
    ((guard_dict_init_keys heap self dict first_key keys).ret = 0
      ∨ (guard_dict_init_keys heap self dict first_key keys).ret = -1)
    ∧ ((guard_dict_init_keys heap self dict first_key keys).ret ≠ 0 →
        (guard_dict_init_keys heap self dict first_key keys).self = self
        ∧ (guard_dict_init_keys heap self dict first_key keys).self.dict = self.dict
        ∧ (guard_dict_init_keys heap self dict first_key keys).self.dict_version
            = self.dict_version
        ∧ (guard_dict_init_keys heap self dict first_key keys).self.npair = self.npair
        ∧ (guard_dict_init_keys heap self dict first_key keys).self.pairs = self.pairs
        ∧ (guard_dict_init_keys heap self dict first_key keys).exc ≠ none)
    ∧ ((∃ o, keys = .nontuple o) →
        (guard_dict_init_keys heap self dict first_key keys).ret = -1)
    ∧ (∀ items, keys = .tuple items → items.length ≤ first_key →
        (guard_dict_init_keys heap self dict first_key keys).ret = -1)
    ∧ (∀ items pre key post, keys = .tuple items →
        items.drop first_key = pre ++ key :: post →
        (PyUnicode_Check key = false
          ∨ ∃ e, (heap dict).getitem key = .raised e ∧ e ≠ PyExc.KeyError) →
        (guard_dict_init_keys heap self dict first_key keys).ret = -1)
    ∧ ((guard_dict_init_keys heap self dict first_key keys).ret = 0 →
        ∃ items, keys = .tuple items
          ∧ (∀ k ∈ items.drop first_key, PyUnicode_Check k = true
              ∧ ∀ e, (heap dict).getitem k = .raised e → e = PyExc.KeyError)
          ∧ (guard_dict_init_keys heap self dict first_key keys).self.pairs
              = (items.drop first_key).map
                  (fun k => { key := k, value := snapshot_of (heap dict) k })) := by
  have hbad : ∀ items pre key post, keys = .tuple items →
      items.drop first_key = pre ++ key :: post →
      (PyUnicode_Check key = false
        ∨ ∃ e, (heap dict).getitem key = .raised e ∧ e ≠ PyExc.KeyError) →
      (guard_dict_init_keys heap self dict first_key keys).ret ≠ 0 := by
    intro items pre key post hk hsplit hkey hret
    obtain ⟨items', hk', _, hstr, hlook, _⟩ :=
      guard_dict_init_keys_ok heap self dict first_key keys hret
    rw [hk] at hk'
    injection hk' with hk'
    subst hk'
    have hmem : key ∈ items.drop first_key := by rw [hsplit]; simp
    rcases hkey with hns | ⟨e, he, hne⟩
    · rw [hstr key hmem] at hns
      cases hns
    · exact hne (hlook key hmem e he)
  refine ⟨?_, ?_, ?_, ?_, ?_, ?_⟩
  · by_cases h : (guard_dict_init_keys heap self dict first_key keys).ret = 0
    · exact Or.inl h
    · exact Or.inr (guard_dict_init_keys_error heap self dict first_key keys h).1
  · intro h
    obtain ⟨_, hs, he⟩ := guard_dict_init_keys_error heap self dict first_key keys h
    refine ⟨hs, ?_, ?_, ?_, ?_, he⟩ <;> rw [hs]
  · rintro ⟨o, rfl⟩
    simp [guard_dict_init_keys]
  · intro items hk hlen
    subst hk
    have h : (items.length : Int) - (first_key : Int) ≤ 0 := by omega
    simp [guard_dict_init_keys, h]
  · intro items pre key post hk hsplit hkey
    exact (guard_dict_init_keys_error heap self dict first_key keys
      (hbad items pre key post hk hsplit hkey)).1
  · intro hret
    obtain ⟨items, hk, _, hstr, hlook, heq⟩ :=
      guard_dict_init_keys_ok heap self dict first_key keys hret
    refine ⟨items, hk, fun k hk' => ⟨hstr k hk', hlook k hk'⟩, ?_⟩
    rw [heq]

/-- Witness of C28: re-initialising the guard on `x` with the keys `("y", 5)`
fails at the second key, after the pair of `y` was filled in, and leaves the
guard on `x` as it was. -/
theorem guard_dict_init_keys_atomic_witness :
    (guard_dict_init_keys heapXY guardX 7 0 (.tuple [.unicode "y", .object 105 50])).ret = -1
    ∧ (guard_dict_init_keys heapXY guardX 7 0
        (.tuple [.unicode "y", .object 105 50])).self = guardX :=
  ⟨by decide,
   ((guard_dict_init_keys_atomic heapXY guardX 7 0
      (.tuple [.unicode "y", .object 105 50])).2.1 (by decide)).1⟩

/-! ## The specialization table -/

/-- C25: when `fat_specialize(f, body1, g1)` and then `fat_specialize(f, body2, g2)`
both succeed, `fat_get_specialized(f)` returns the records that `f` had before
the two calls, unchanged, followed by `(body1, g1)` and `(body2, g2)` in that
order. -/
theorem fat_specialize_order (table t1 t2 : SpecializationTable) (func body1 body2 : PyObject)
    (g1 g2 : List Guard)
    (h1 : fat_specialize table func body1 g1 = (true, t1))
    (h2 : fat_specialize t1 func body2 g2 = (true, t2)) :
    ∃ before, fat_get_specialized table func = some before
      ∧ fat_get_specialized t2 func
          = some (before ++ [{ code := body1, guards := g1 }, { code := body2, guards := g2 }]) := by
  cases func with
  | unicode s => simp [fat_specialize, PyFunction_Check] at h1
  | dict a => simp [fat_specialize, PyFunction_Check] at h1
  | type a => simp [fat_specialize, PyFunction_Check] at h1
  | object a t =>
    by_cases ht : t = PyFunction_Type
    · subst ht
      simp only [fat_specialize, PyFunction_Check, beq_self_eq_true, Bool.not_true,
        Bool.false_eq_true, if_false, PyFunction_Specialize, Prod.mk.injEq] at h1 h2
      have e1 := h1
      have e2 := h2
      simp only [lt_self_iff_false, if_false, Prod.mk.injEq, true_and] at e1 e2
      subst e1
      subst e2
      refine ⟨table a, ?_, ?_⟩
      · simp [fat_get_specialized, PyFunction_Check, PyFunction_GetSpecializedCodes]
      · simp [fat_get_specialized, PyFunction_Check, PyFunction_GetSpecializedCodes]
    · simp [fat_specialize, PyFunction_Check, ht] at h1

/-- Witness of C25: two specializations of the function at address `50`, which
had none. -/
theorem fat_specialize_order_witness :
    fat_get_specialized
        (fat_specialize (fat_specialize emptyTable funcF body1 [.arg_type guardArg1]).2
          funcF body2 []).2 funcF
      = some [{ code := body1, guards := [.arg_type guardArg1] },
              { code := body2, guards := [] }]
    ∧ ∃ before, fat_get_specialized emptyTable funcF = some before
        ∧ fat_get_specialized
            (fat_specialize (fat_specialize emptyTable funcF body1 [.arg_type guardArg1]).2
              funcF body2 []).2 funcF
          = some (before ++ [{ code := body1, guards := [.arg_type guardArg1] },
                             { code := body2, guards := [] }]) :=
  ⟨by decide,
   fat_specialize_order emptyTable
    (fat_specialize emptyTable funcF body1 [.arg_type guardArg1]).2
    (fat_specialize (fat_specialize emptyTable funcF body1 [.arg_type guardArg1]).2
      funcF body2 []).2
    funcF body1 body2 [.arg_type guardArg1] [] rfl rfl⟩

/-- C26, the behaviour of the code on a collection of names: the type at address
`20` has its dictionary `{x: 1, y: 2}` at address `7`.  Called with a tuple of
names, `fat_guard_type_dict` hands the tuple to `GuardDict` as its single key and
fails with `TypeError`, whereas `GuardDict(type_dict, "x", "y")` builds the guard
on both names; called with the single string `"x"` it builds the guard on `x`. -/
theorem fat_guard_type_dict_collection :
    fat_guard_type_dict heapXY (fun _ => 7) (.type 20) (.object 600 PyTuple_Type)
      = { ret := -1, self := guard_dict_new, exc := some PyExc.TypeError }
    ∧ guard_dict_init heapXY guard_dict_new [.dict 7, .unicode "x", .unicode "y"] none
      = { ret := 0,
          self := { dict := some 7, dict_version := 1,
                    pairs := [{ key := .unicode "x", value := some 101 },
                              { key := .unicode "y", value := some 102 }] },
          exc := none }
    ∧ fat_guard_type_dict heapXY (fun _ => 7) (.type 20) (.unicode "x")
      = { ret := 0, self := guardX, exc := none } := by
  decide

/-! ## Checks only memoise -/

theorem guard_dict_check_same (heap : Heap) (guard guard' : GuardDictObject) (res : Int)
    (h : guard_dict_check heap guard = some (res, guard')) :
    SameButVersion guard guard' := by
  unfold guard_dict_check at h
  split at h
  · cases h
  · simp only at h
    split at h
    · split at h
      · cases h
      · split at h
        · injection h with h; injection h with _ h; subst h; exact ⟨rfl, rfl⟩
        · injection h with h; injection h with _ h; subst h; exact ⟨rfl, rfl⟩
    · injection h with h; injection h with _ h; subst h; exact ⟨rfl, rfl⟩

theorem guard_globals_check_same (heap : Heap) (frame : Option PyFrameObject)
    (guard guard' : GuardDictObject) (res : Int)
    (h : guard_globals_check heap frame guard = some (res, guard')) :
    SameButVersion guard guard' := by
  unfold guard_globals_check at h
  split at h
  · cases h
  · split at h
    · injection h with h; injection h with _ h; subst h; exact ⟨rfl, rfl⟩
    · exact guard_dict_check_same heap guard guard' res h

theorem guard_builtins_check_computed_same (heap : Heap) (frame : Option PyFrameObject)
    (guard guard' : GuardBuiltinsObject) (res : Int)
    (h : guard_builtins_check_computed heap frame guard = some (res, guard')) :
    SameButMemo (.builtins guard) (.builtins guard') := by
  have hrefl : ∀ g : GuardBuiltinsObject, SameButMemo (.builtins g) (.builtins g) := by
    intro g
    refine ⟨⟨rfl, rfl⟩, ?_⟩
    cases g.guard_globals with
    | none => trivial
    | some a => exact ⟨rfl, rfl⟩
  unfold guard_builtins_check_computed at h
  split at h
  · injection h with h; injection h with _ h; subst h; exact hrefl _
  · split at h
    · injection h with h; injection h with _ h; subst h; exact hrefl _
    · split at h
      · cases h
      · rename_i gg hgg
        split at h
        · injection h with h; injection h with _ h; subst h; exact hrefl _
        · split at h
          · injection h with h; injection h with _ h; subst h; exact hrefl _
          · split at h
            · cases h
            · rename_i r1 gg' hc1
              have hs1 := guard_dict_check_same heap gg gg' r1 hc1
              split at h
              · injection h with h; injection h with _ h; subst h
                refine ⟨⟨rfl, rfl⟩, ?_⟩
                simp only [hgg]
                exact hs1
              · split at h
                · cases h
                · rename_i r2 base' hc2
                  have hs2 := guard_dict_check_same heap guard.base base' r2 hc2
                  injection h with h; injection h with _ h; subst h
                  refine ⟨hs2, ?_⟩
                  simp only [hgg]
                  exact hs1

theorem guard_builtins_check_same (heap : Heap) (init_builtins : PyDictObject)
    (frame : Option PyFrameObject) (guard guard' : GuardBuiltinsObject) (res : Int)
    (h : guard_builtins_check heap init_builtins frame guard = some (res, guard')) :
    SameButMemo (.builtins guard) (.builtins guard') := by
  unfold guard_builtins_check at h
  by_cases hi : guard.init_failed = -1
  · simp only [hi, if_true] at h
    cases hg : guard_builtins_init_guard init_builtins guard with
    | none => rw [hg] at h; cases h
    | some rg =>
      obtain ⟨r, g1⟩ := rg
      rw [hg] at h
      have hs := guard_builtins_check_computed_same heap frame g1 guard' res h
      rcases guard_builtins_init_guard_cases init_builtins guard r g1 hg with ⟨_, rfl⟩ | ⟨_, rfl⟩
      · exact hs
      · exact hs
  · simp only [hi, if_false] at h
    exact guard_builtins_check_computed_same heap frame guard guard' res h

/-- C24: a check changes nothing in a guard but what it memoises.  For a guard
of any of the five types and any call, the guard after `check` is of the same
type; an argument-type guard and a function guard are as they were; a
keyed-mapping guard and a globals guard keep their `dict` and their pairs, keys
and snapshot values, and may differ in `dict_version` only; a builtins guard
keeps the `dict` and pairs of both its own and its globals guard, and may differ
in the two `dict_version`s and in `init_failed` only, the flag changing only
from `-1`.  The dictionaries and functions are read and not changed. -/
theorem guard_check_only_memoises (heap : Heap) (funcs : Functions)
    (init_builtins : PyDictObject) (frame : Option PyFrameObject) (stack : List PyObject)
    (nargs : Int) (kwnames : Option (List PyObject)) (guard guard' : Guard) (res : Int)
    (h : guard_check heap funcs init_builtins frame stack nargs kwnames guard
      = some (res, guard')) :
    SameButMemo guard guard'
    ∧ (∀ g : GuardArgTypeObject, guard = .arg_type g → guard' = guard)
    ∧ (∀ g : GuardFuncObject, guard = .func g → guard' = guard)
    ∧ (∀ g g' : GuardBuiltinsObject, guard = .builtins g → guard' = .builtins g' →
        g.init_failed ≠ -1 → g'.init_failed = g.init_failed) := by
  cases guard with
  | arg_type g =>
    simp only [guard_check] at h
    cases hc : guard_arg_type_check g stack nargs kwnames with
    | none =>
      rw [hc] at h
      cases h
    | some r =>
      rw [hc] at h
      injection h with h
      injection h with _ h
      subst h
      refine ⟨?_, ?_, ?_, ?_⟩
      · show g = g
        rfl
      · intro _ _
        rfl
      · intro _ hg
        cases hg
      · intro _ _ hg
        cases hg
  | func g =>
    simp only [guard_check] at h
    cases hc : guard_func_check funcs g stack nargs kwnames with
    | none =>
      rw [hc] at h
      cases h
    | some r =>
      rw [hc] at h
      injection h with h
      injection h with _ h
      subst h
      refine ⟨?_, ?_, ?_, ?_⟩
      · show g = g
        rfl
      · intro _ hg
        cases hg
      · intro _ _
        rfl
      · intro _ _ hg
        cases hg
  | dict g =>
    simp only [guard_check] at h
    cases hc : guard_dict_check heap g with
    | none =>
      rw [hc] at h
      cases h
    | some rg =>
      obtain ⟨r, g'⟩ := rg
      rw [hc] at h
      injection h with h
      injection h with _ h
      subst h
      refine ⟨guard_dict_check_same heap g g' r hc, ?_, ?_, ?_⟩
      · intro _ hg
        cases hg
      · intro _ hg
        cases hg
      · intro _ _ hg
        cases hg
  | globals g =>
    simp only [guard_check] at h
    cases hc : guard_globals_check heap frame g with
    | none =>
      rw [hc] at h
      cases h
    | some rg =>
      obtain ⟨r, g'⟩ := rg
      rw [hc] at h
      injection h with h
      injection h with _ h
      subst h
      refine ⟨guard_globals_check_same heap frame g g' r hc, ?_, ?_, ?_⟩
      · intro _ hg
        cases hg
      · intro _ hg
        cases hg
      · intro _ _ hg
        cases hg
  | builtins g =>
    simp only [guard_check] at h
    cases hc : guard_builtins_check heap init_builtins frame g with
    | none =>
      rw [hc] at h
      cases h
    | some rg =>
      obtain ⟨r, g'⟩ := rg
      rw [hc] at h
      injection h with h
      injection h with _ h
      subst h
      refine ⟨guard_builtins_check_same heap init_builtins frame g g' r hc, ?_, ?_, ?_⟩
      · intro _ hg
        cases hg
      · intro _ hg
        cases hg
      · intro g1 g1' hg hg' hne
        injection hg with hg
        injection hg' with hg'
        subst hg
        subst hg'
        rcases guard_builtins_check_init_failed heap init_builtins frame g g' r hc with
          ⟨_, heq⟩ | ⟨hm, _⟩
        · exact heq
        · exact absurd hm hne

/-- Witness of C24: the check of the guard on `x` after `y = 99` caches version
`2` and keeps the dictionary and the pair. -/
theorem guard_check_only_memoises_witness :
    guard_check heapY99 (functionsWith 500) initBuiltins (some frameGB) stack3 3 none
        (.dict guardX)
      = some (0, .dict { guardX with dict_version := 2 })
    ∧ SameButMemo (.dict guardX) (.dict { guardX with dict_version := 2 }) :=
  ⟨by decide,
   (guard_check_only_memoises heapY99 (functionsWith 500) initBuiltins (some frameGB)
      stack3 3 none (.dict guardX) (.dict { guardX with dict_version := 2 }) 0
      (by decide)).1⟩

/-! ## Soundness of a passing builtins guard -/

theorem guardInv_init (heap : Heap) (self : GuardDictObject) (dict first_key : Nat)
    (keys : KeysArg) (h : (guard_dict_init_keys heap self dict first_key keys).ret = 0) :
    GuardInv dict (guard_dict_init_keys heap self dict first_key keys).self.pairs [] heap
      (guard_dict_init_keys heap self dict first_key keys).self := by
  obtain ⟨items, _, _, _, hlook, heq⟩ :=
    guard_dict_init_keys_ok heap self dict first_key keys h
  rw [heq]
  refine ⟨rfl, rfl, List.mem_cons_self _ _, ?_⟩
  intro _ pair hpair
  simp only [List.mem_map] at hpair
  obtain ⟨k, hk, rfl⟩ := hpair
  exact snapshot_of_unchanged (heap dict) k (hlook k hk)

theorem guardInv_mutate (p : Nat) (pairs0 : List GuardDictPair) (seen : List Nat)
    (heap heap' : Heap) (guard : GuardDictObject)
    (hinv : GuardInv p pairs0 seen heap guard)
    (hchg : (∃ k, (heap' p).getitem k ≠ (heap p).getitem k) →
      (heap' p).ma_version_tag ∉ (heap p).ma_version_tag :: seen)
    (hctr : (heap' p).ma_version_tag = (heap p).ma_version_tag
      ∨ (heap' p).ma_version_tag ∉ (heap p).ma_version_tag :: seen) :
    GuardInv p pairs0 ((heap p).ma_version_tag :: seen) heap' guard := by
  obtain ⟨hd, hp, hseen, hI⟩ := hinv
  refine ⟨hd, hp, List.mem_cons_of_mem _ hseen, ?_⟩
  intro hv
  rcases hctr with hsame | hfresh
  · have hbind : ∀ k, (heap' p).getitem k = (heap p).getitem k := by
      intro k
      by_contra hk
      exact hchg ⟨k, hk⟩ (by rw [hsame]; exact List.mem_cons_self _ _)
    intro pair hpair
    unfold Unchanged
    rw [hbind]
    exact hI (hsame.symm.trans hv) pair hpair
  · rw [hv] at hfresh
    exact absurd hseen hfresh

theorem guardInv_check (p : Nat) (pairs0 : List GuardDictPair) (seen : List Nat)
    (heap : Heap) (guard guard' : GuardDictObject) (res : Int)
    (hinv : GuardInv p pairs0 seen heap guard)
    (hc : guard_dict_check heap guard = some (res, guard')) :
    GuardInv p pairs0 seen heap guard'
    ∧ (res = 0 → ∀ pair ∈ pairs0, Unchanged (heap p) pair) := by
  obtain ⟨hd, hp, hseen, hI⟩ := hinv
  rw [guard_dict_check_eq heap guard p hd] at hc
  by_cases hv : (heap p).ma_version_tag = guard.dict_version
  · simp only [hv, ne_eq, not_true_eq_false, if_false, Option.some.injEq, Prod.mk.injEq] at hc
    obtain ⟨_, hg⟩ := hc
    subst hg
    exact ⟨⟨hd, hp, hseen, hI⟩, fun _ => hI hv⟩
  · by_cases hne : guard.pairs = []
    · simp [hv, hne] at hc
    · by_cases h0 : guard_dict_check_pairs (heap p) guard.pairs = 0
      · have hall := (guard_dict_check_pairs_eq_zero_iff (heap p) guard.pairs).1 h0
        rw [hp] at hall
        simp only [ne_eq, hv, not_false_eq_true, if_true, hne, if_false, h0, not_true_eq_false,
          Option.some.injEq, Prod.mk.injEq] at hc
        obtain ⟨_, hg⟩ := hc
        subst hg
        exact ⟨⟨hd, hp, List.mem_cons_self _ _, fun _ => hall⟩, fun _ => hall⟩
      · simp only [ne_eq, hv, not_false_eq_true, if_true, hne, if_false, h0,
          Option.some.injEq, Prod.mk.injEq] at hc
        obtain ⟨hr, hg⟩ := hc
        subst hg
        refine ⟨⟨hd, hp, hseen, hI⟩, ?_⟩
        intro hres
        rw [hres] at hr
        exact absurd hr h0

theorem guard_builtins_check_computed_inv (init_builtins : PyDictObject) (g b : Nat)
    (gpairs bpairs : List GuardDictPair) (seen_g seen_b : List Nat) (heap : Heap)
    (frame : Option PyFrameObject) (guard guard' : GuardBuiltinsObject) (res : Int)
    (hinv : BuiltinsInv init_builtins g b gpairs bpairs seen_g seen_b heap guard)
    (h : guard_builtins_check_computed heap frame guard = some (res, guard')) :
    BuiltinsInv init_builtins g b gpairs bpairs seen_g seen_b heap guard'
    ∧ (res = 0 → guard.init_failed = 0
        ∧ (∃ fr, frame = some fr ∧ fr.f_globals = g ∧ fr.f_builtins = b)
        ∧ (∀ pair ∈ gpairs, Unchanged (heap g) pair)
        ∧ (∀ pair ∈ bpairs, Unchanged (heap b) pair)) := by
  obtain ⟨⟨gg, hgg, hginv⟩, hbinv, hflag⟩ := hinv
  have hsame : BuiltinsInv init_builtins g b gpairs bpairs seen_g seen_b heap guard :=
    ⟨⟨gg, hgg, hginv⟩, hbinv, hflag⟩
  have htwo : (2 : Int) ≠ 0 := by decide
  unfold guard_builtins_check_computed at h
  by_cases hf : guard.init_failed ≠ 0
  · rw [if_pos hf] at h
    injection h with h
    injection h with hr hg
    subst hg
    exact ⟨hsame, fun h0 => absurd (hr.trans h0) htwo⟩
  · rw [if_neg hf] at h
    have hf0 : guard.init_failed = 0 := by
      by_contra hc
      exact hf hc
    cases frame with
    | none =>
      simp only at h
      injection h with h
      injection h with hr hg
      subst hg
      exact ⟨hsame, fun h0 => absurd (hr.trans h0) htwo⟩
    | some fr =>
      simp only [hgg] at h
      by_cases h1 : some fr.f_globals ≠ gg.dict
      · rw [if_pos h1] at h
        injection h with h
        injection h with hr hg
        subst hg
        exact ⟨hsame, fun h0 => absurd (hr.trans h0) htwo⟩
      · rw [if_neg h1] at h
        by_cases h2 : some fr.f_builtins ≠ guard.base.dict
        · rw [if_pos h2] at h
          injection h with h
          injection h with hr hg
          subst hg
          exact ⟨hsame, fun h0 => absurd (hr.trans h0) htwo⟩
        · rw [if_neg h2] at h
          have hfg : fr.f_globals = g := by
            have : some fr.f_globals = gg.dict := by
              by_contra hc
              exact h1 hc
            rw [hginv.1] at this
            injection this
          have hfb : fr.f_builtins = b := by
            have : some fr.f_builtins = guard.base.dict := by
              by_contra hc
              exact h2 hc
            rw [hbinv.1] at this
            injection this
          cases hc1 : guard_dict_check heap gg with
          | none =>
            rw [hc1] at h
            cases h
          | some rg1 =>
            obtain ⟨r1, gg'⟩ := rg1
            rw [hc1] at h
            simp only at h
            obtain ⟨hginv', hg0⟩ := guardInv_check g gpairs seen_g heap gg gg' r1 hginv hc1
            by_cases h3 : r1 ≠ 0
            · rw [if_pos h3] at h
              injection h with h
              injection h with hr hg
              subst hg
              refine ⟨⟨⟨gg', rfl, hginv'⟩, hbinv, hflag⟩, ?_⟩
              intro h0
              exact absurd (hr.trans h0) h3
            · rw [if_neg h3] at h
              have hr1 : r1 = 0 := by
                by_contra hc
                exact h3 hc
              cases hc2 : guard_dict_check heap guard.base with
              | none =>
                rw [hc2] at h
                cases h
              | some rg2 =>
                obtain ⟨r2, base'⟩ := rg2
                rw [hc2] at h
                simp only at h
                obtain ⟨hbinv', hb0⟩ :=
                  guardInv_check b bpairs seen_b heap guard.base base' r2 hbinv hc2
                injection h with h
                injection h with hr hg
                subst hg
                refine ⟨⟨⟨gg', rfl, hginv'⟩, hbinv', hflag⟩, ?_⟩
                intro h0
                exact ⟨hf0, ⟨fr, rfl, hfg, hfb⟩, hg0 hr1, hb0 (hr.trans h0)⟩

theorem guard_builtins_init_guard_zero (init_builtins : PyDictObject)
    (guard guard' : GuardBuiltinsObject)
    (h : guard_builtins_init_guard init_builtins guard = some (0, guard')) :
    guard_builtins_init_modified init_builtins guard.base.pairs = false
    ∧ ∃ globals_guard, guard.guard_globals = some globals_guard
        ∧ guard_builtins_init_shadowed globals_guard.pairs = false := by
  unfold guard_builtins_init_guard at h
  by_cases ha : guard_builtins_init_modified init_builtins guard.base.pairs = true
  · rw [if_pos ha] at h
    injection h with h
    injection h with h _
    exact absurd h (by decide)
  · rw [if_neg ha] at h
    refine ⟨by simpa using ha, ?_⟩
    cases hgg : guard.guard_globals with
    | none =>
      rw [hgg] at h
      cases h
    | some gg =>
      rw [hgg] at h
      simp only at h
      by_cases hb : guard_builtins_init_shadowed gg.pairs = true
      · rw [if_pos hb] at h
        injection h with h
        injection h with h _
        exact absurd h (by decide)
      · exact ⟨gg, rfl, by simpa using hb⟩

theorem guard_builtins_check_inv (init_builtins : PyDictObject) (g b : Nat)
    (gpairs bpairs : List GuardDictPair) (seen_g seen_b : List Nat) (heap : Heap)
    (frame : Option PyFrameObject) (guard guard' : GuardBuiltinsObject) (res : Int)
    (hinv : BuiltinsInv init_builtins g b gpairs bpairs seen_g seen_b heap guard)
    (h : guard_builtins_check heap init_builtins frame guard = some (res, guard')) :
    BuiltinsInv init_builtins g b gpairs bpairs seen_g seen_b heap guard'
    ∧ (res = 0 →
        (∃ fr, frame = some fr ∧ fr.f_globals = g ∧ fr.f_builtins = b)
        ∧ (∀ pair ∈ gpairs, Unchanged (heap g) pair)
        ∧ (∀ pair ∈ bpairs, Unchanged (heap b) pair)
        ∧ guard_builtins_init_modified init_builtins bpairs = false
        ∧ guard_builtins_init_shadowed gpairs = false) := by
  have hfin : ∀ g1 : GuardBuiltinsObject,
      BuiltinsInv init_builtins g b gpairs bpairs seen_g seen_b heap g1 →
      guard_builtins_check_computed heap frame g1 = some (res, guard') →
      BuiltinsInv init_builtins g b gpairs bpairs seen_g seen_b heap guard'
      ∧ (res = 0 →
          (∃ fr, frame = some fr ∧ fr.f_globals = g ∧ fr.f_builtins = b)
          ∧ (∀ pair ∈ gpairs, Unchanged (heap g) pair)
          ∧ (∀ pair ∈ bpairs, Unchanged (heap b) pair)
          ∧ guard_builtins_init_modified init_builtins bpairs = false
          ∧ guard_builtins_init_shadowed gpairs = false) := by
    intro g1 hinv1 hc
    obtain ⟨hinv', hpass⟩ := guard_builtins_check_computed_inv init_builtins g b gpairs bpairs
      seen_g seen_b heap frame g1 guard' res hinv1 hc
    refine ⟨hinv', ?_⟩
    intro h0
    obtain ⟨hf0, hfr, hgu, hbu⟩ := hpass h0
    obtain ⟨hm, hs⟩ := hinv1.2.2 hf0
    exact ⟨hfr, hgu, hbu, hm, hs⟩
  unfold guard_builtins_check at h
  by_cases hi : guard.init_failed = -1
  · rw [if_pos hi] at h
    cases hg : guard_builtins_init_guard init_builtins guard with
    | none =>
      rw [hg] at h
      cases h
    | some rg =>
      obtain ⟨r, g1⟩ := rg
      rw [hg] at h
      simp only at h
      apply hfin g1 _ h
      obtain ⟨⟨gg, hgg, hginv⟩, hbinv, _⟩ := hinv
      rcases guard_builtins_init_guard_cases init_builtins guard r g1 hg with
        ⟨_, rfl⟩ | ⟨hr, rfl⟩
      · refine ⟨⟨gg, hgg, hginv⟩, hbinv, fun h1 => ?_⟩
        have h2 : (1 : Int) = 0 := h1
        exact absurd h2 (by decide)
      · refine ⟨⟨gg, hgg, hginv⟩, hbinv, fun _ => ?_⟩
        subst hr
        obtain ⟨hm, gg2, hgg2, hs⟩ := guard_builtins_init_guard_zero init_builtins guard _ hg
        rw [hgg] at hgg2
        injection hgg2 with hgg2
        subst hgg2
        rw [hbinv.2.1] at hm
        rw [hginv.2.1] at hs
        exact ⟨hm, hs⟩
  · rw [if_neg hi] at h
    exact hfin guard hinv h

theorem runBuiltinsEvents_invariant (init_builtins : PyDictObject) (g b : Nat)
    (gpairs bpairs : List GuardDictPair) :
    ∀ (es : List BuiltinsEvent) (seen_g seen_b : List Nat) (heap : Heap)
      (guard : GuardBuiltinsObject),
      BuiltinsInv init_builtins g b gpairs bpairs seen_g seen_b heap guard →
      VersionDiscipline g seen_g heap (es.map BuiltinsEvent.forgetFrame) →
      VersionDiscipline b seen_b heap (es.map BuiltinsEvent.forgetFrame) →
      ∃ seen_g' seen_b', BuiltinsInv init_builtins g b gpairs bpairs seen_g' seen_b'
        (runBuiltinsEvents init_builtins heap guard es).1
        (runBuiltinsEvents init_builtins heap guard es).2 := by
  intro es
  induction es with
  | nil =>
    intro seen_g seen_b heap guard hinv _ _
    exact ⟨seen_g, seen_b, hinv⟩
  | cons ev es ih =>
    intro seen_g seen_b heap guard hinv hdg hdb
    cases ev with
    | mutate heap' =>
      simp only [List.map_cons, BuiltinsEvent.forgetFrame, VersionDiscipline] at hdg hdb
      simp only [runBuiltinsEvents]
      obtain ⟨⟨gg, hgg, hginv⟩, hbinv, hflag⟩ := hinv
      apply ih ((heap g).ma_version_tag :: seen_g) ((heap b).ma_version_tag :: seen_b) heap'
        guard _ hdg.2.2 hdb.2.2
      exact ⟨⟨gg, hgg, guardInv_mutate g gpairs seen_g heap heap' gg hginv hdg.1 hdg.2.1⟩,
        guardInv_mutate b bpairs seen_b heap heap' guard.base hbinv hdb.1 hdb.2.1, hflag⟩
    | check frame =>
      simp only [List.map_cons, BuiltinsEvent.forgetFrame, VersionDiscipline] at hdg hdb
      simp only [runBuiltinsEvents]
      cases hc : guard_builtins_check heap init_builtins frame guard with
      | none => exact ih seen_g seen_b heap guard hinv hdg hdb
      | some rg =>
        obtain ⟨r, guard'⟩ := rg
        exact ih seen_g seen_b heap guard'
          (guard_builtins_check_inv init_builtins g b gpairs bpairs seen_g seen_b heap frame
            guard guard' r hinv hc).1 hdg hdb

/-- A successful `guard_builtins_init` of a fresh guard over the builtins
dictionary at `b`: both keyed-mapping parts are built by `guard_dict_init_keys`
from offset `0`, and the flag is `-1`. -/
theorem guard_builtins_init_new_ok (heap : Heap) (b globals : Nat) (args : List PyObject)
    (kwargs : Option PyObject)
    (h : (guard_builtins_init heap guard_builtins_new (some (.dict b)) (some globals)
      args kwargs).ret = 0) :
    (guard_dict_init_keys heap guard_dict_new globals 0 (.tuple args)).ret = 0
    ∧ (guard_dict_init_keys heap guard_dict_new b 0 (.tuple args)).ret = 0
    ∧ (guard_builtins_init heap guard_builtins_new (some (.dict b)) (some globals)
        args kwargs).self
      = { base := (guard_dict_init_keys heap guard_dict_new b 0 (.tuple args)).self,
          init_failed := -1,
          guard_globals :=
            some (guard_dict_init_keys heap guard_dict_new globals 0 (.tuple args)).self } := by
  unfold guard_builtins_init at h ⊢
  by_cases hk : kwargs.isSome = true
  · simp [hk] at h
  · simp only [hk, Bool.false_eq_true, if_false, PyDict_Check, Bool.not_true,
      guard_globals_init, Option.isSome_none, guard_builtins_new] at h ⊢
    by_cases hg : (guard_dict_init_keys heap guard_dict_new globals 0 (.tuple args)).ret = 0
    · simp only [hg, ne_eq, not_true_eq_false, if_false] at h ⊢
      by_cases hb : (guard_dict_init_keys heap guard_dict_new b 0 (.tuple args)).ret < 0
      · simp [hb] at h
      · simp only [hb, if_false]
        have hb0 : (guard_dict_init_keys heap guard_dict_new b 0 (.tuple args)).ret = 0 := by
          by_contra hne
          have := (guard_dict_init_keys_error heap guard_dict_new b 0 (.tuple args) hne).1
          rw [this] at hb
          exact hb (by decide)
        exact ⟨trivial, hb0, trivial⟩
    · simp [hg] at h

/-- C27: soundness of a passing builtins guard.  Let the guard be built by
`guard_builtins_new` and `guard_builtins_init` over the globals at `globals` and
the builtins at `b`, and let any sequence of mutations and checks follow in
which both dictionaries obey the version discipline (a mutation that changes a
binding gives a version never seen since construction, and the version is a
counter).  If a check in the state reached returns `0`, then there is a frame,
its globals and builtins are those two dictionaries, no watched name is bound in
the globals, and every watched name is bound in the builtins to what was
snapshotted at construction, which is the value of `init_builtins` for every
watched name that `init_builtins` holds. -/
theorem guard_builtins_pass_sound (heap : Heap) (init_builtins : PyDictObject)
    (b globals : Nat) (args : List PyObject) (kwargs : Option PyObject)
    (es : List BuiltinsEvent) (heapN : Heap) (guardN guard' : GuardBuiltinsObject)
    (frame : Option PyFrameObject)
    (hret : (guard_builtins_init heap guard_builtins_new (some (.dict b)) (some globals)
      args kwargs).ret = 0)
    (hdg : VersionDiscipline globals [] heap (es.map BuiltinsEvent.forgetFrame))
    (hdb : VersionDiscipline b [] heap (es.map BuiltinsEvent.forgetFrame))
    (hrun : runBuiltinsEvents init_builtins heap
      (guard_builtins_init heap guard_builtins_new (some (.dict b)) (some globals)
        args kwargs).self es = (heapN, guardN))
    (hpass : guard_builtins_check heapN init_builtins frame guardN = some (0, guard')) :
    (∃ fr, frame = some fr ∧ fr.f_globals = globals ∧ fr.f_builtins = b)
    ∧ (∀ k ∈ args, (heapN globals).getitem k = .raised PyExc.KeyError)
    ∧ (∀ k ∈ args, (heapN b).getitem k = snapshot_binding (snapshot_of (heap b) k)
        ∧ ∀ v, PyDict_GetItem init_builtins k = some v → snapshot_of (heap b) k = some v)
    ∧ (guard_builtins_init heap guard_builtins_new (some (.dict b)) (some globals)
        args kwargs).self.base.pairs
      = args.map (fun k => { key := k, value := snapshot_of (heap b) k }) := by
  obtain ⟨hgret, hbret, hself⟩ :=
    guard_builtins_init_new_ok heap b globals args kwargs hret
  obtain ⟨gitems, hgk, _, _, _, hgeq⟩ :=
    guard_dict_init_keys_ok heap guard_dict_new globals 0 (.tuple args) hgret
  obtain ⟨bitems, hbk, _, _, _, hbeq⟩ :=
    guard_dict_init_keys_ok heap guard_dict_new b 0 (.tuple args) hbret
  injection hgk with hgk
  injection hbk with hbk
  subst hgk
  subst hbk
  have hginv := guardInv_init heap guard_dict_new globals 0 (.tuple args) hgret
  have hbinv := guardInv_init heap guard_dict_new b 0 (.tuple args) hbret
  rw [hself] at hrun ⊢
  have hgp : (guard_dict_init_keys heap guard_dict_new globals 0 (.tuple args)).self.pairs
      = args.map (fun k => { key := k, value := snapshot_of (heap globals) k }) := by
    rw [hgeq]
    simp
  have hbp : (guard_dict_init_keys heap guard_dict_new b 0 (.tuple args)).self.pairs
      = args.map (fun k => { key := k, value := snapshot_of (heap b) k }) := by
    rw [hbeq]
    simp
  have hinv0 : BuiltinsInv init_builtins globals b
      (guard_dict_init_keys heap guard_dict_new globals 0 (.tuple args)).self.pairs
      (guard_dict_init_keys heap guard_dict_new b 0 (.tuple args)).self.pairs [] [] heap
      { base := (guard_dict_init_keys heap guard_dict_new b 0 (.tuple args)).self,
        init_failed := -1,
        guard_globals :=
          some (guard_dict_init_keys heap guard_dict_new globals 0 (.tuple args)).self } := by
    refine ⟨⟨_, rfl, hginv⟩, hbinv, fun h1 => ?_⟩
    have h2 : (-1 : Int) = 0 := h1
    exact absurd h2 (by decide)
  obtain ⟨seen_g, seen_b, hinvN⟩ := runBuiltinsEvents_invariant init_builtins globals b _ _
    es [] [] heap _ hinv0 hdg hdb
  rw [hrun] at hinvN
  obtain ⟨_, hpassN⟩ := guard_builtins_check_inv init_builtins globals b _ _ seen_g seen_b
    heapN frame guardN guard' 0 hinvN hpass
  obtain ⟨hfr, hgu, hbu, hmod, hsh⟩ := hpassN rfl
  rw [hgp] at hgu hsh
  rw [hbp] at hbu hmod
  refine ⟨hfr, ?_, ?_, hbp⟩
  · intro k hk
    have hmem : ({ key := k, value := snapshot_of (heap globals) k } : GuardDictPair)
        ∈ args.map (fun k => { key := k, value := snapshot_of (heap globals) k }) :=
      List.mem_map.2 ⟨k, hk, rfl⟩
    have hu := hgu _ hmem
    have hnone : snapshot_of (heap globals) k = none := by
      by_contra hne
      have : guard_builtins_init_shadowed
          (args.map (fun k => { key := k, value := snapshot_of (heap globals) k })) = true :=
        (guard_builtins_init_shadowed_iff _).2 ⟨_, hmem, hne⟩
      rw [hsh] at this
      cases this
    unfold Unchanged at hu
    simp only [hnone, snapshot_binding] at hu
    exact hu
  · intro k hk
    have hmem : ({ key := k, value := snapshot_of (heap b) k } : GuardDictPair)
        ∈ args.map (fun k => { key := k, value := snapshot_of (heap b) k }) :=
      List.mem_map.2 ⟨k, hk, rfl⟩
    refine ⟨hbu _ hmem, ?_⟩
    intro v hv
    by_contra hne
    have : guard_builtins_init_modified init_builtins
        (args.map (fun k => { key := k, value := snapshot_of (heap b) k })) = true :=
      (guard_builtins_init_modified_iff init_builtins _).2 ⟨_, hmem, v, hv, hne⟩
    rw [hmod] at this
    cases this

/-- Witness of C27: `GuardBuiltins("len")` built over globals `{x: 1}` and the
original builtins; a check, `x = 2` in the globals with a new version, a check.
A check in the state reached passes, and `len` is not bound in the globals. -/
theorem guard_builtins_pass_sound_witness :
    guard_builtins_check heapLenX2 initBuiltins (some frameGB)
        { base := { dict := some 8, dict_version := 1,
                    pairs := [{ key := .unicode "len", value := some 301 }] },
          init_failed := 0,
          guard_globals := some { dict := some 7, dict_version := 2,
                                  pairs := [{ key := .unicode "len", value := none }] } }
      = some (0,
        { base := { dict := some 8, dict_version := 1,
                    pairs := [{ key := .unicode "len", value := some 301 }] },
          init_failed := 0,
          guard_globals := some { dict := some 7, dict_version := 2,
                                  pairs := [{ key := .unicode "len", value := none }] } })
    ∧ (heapLenX2 7).getitem (.unicode "len") = .raised PyExc.KeyError
    ∧ (heapLenX2 8).getitem (.unicode "len") = .value 301 :=
  ⟨by decide,
   (guard_builtins_pass_sound heapLen initBuiltins 8 7 [.unicode "len"] none
      [.check (some frameGB), .mutate heapLenX2, .check (some frameGB)]
      heapLenX2
      { base := { dict := some 8, dict_version := 1,
                  pairs := [{ key := .unicode "len", value := some 301 }] },
        init_failed := 0,
        guard_globals := some { dict := some 7, dict_version := 2,
                                pairs := [{ key := .unicode "len", value := none }] } }
      { base := { dict := some 8, dict_version := 1,
                  pairs := [{ key := .unicode "len", value := some 301 }] },
        init_failed := 0,
        guard_globals := some { dict := some 7, dict_version := 2,
                                pairs := [{ key := .unicode "len", value := none }] } }
      (some frameGB)
      (by decide)
      ⟨fun _ => by decide, Or.inr (by decide), trivial⟩
      ⟨fun h => h.elim (fun _ hk => absurd rfl hk), Or.inl rfl, trivial⟩
      rfl
      (by decide)).2.1 (.unicode "len") (by decide),
   by decide⟩

end Fat
